import Mathlib

/-!
# ODBCBridge: the result marshaler

A shallow embedding of `src/src/odbcbridge/ODBCBridge.c`, the JNI bridge between a
Java host and an ODBC driver, and theorems about `Java_odbcbridge_ODBCBridge_fetchArray`.

The ODBC driver is an external collaborator.  It is embedded as a record of
transition functions over an arbitrary statement state `σ`: every native call takes the
state and returns what the call left in the caller's variables together with the next
state.  Theorems quantify over every such driver, so they hold whatever the driver answers.

The Java host is embedded by the objects the bridge constructs (`JObject`, each carrying
its constructor argument) and by an oracle `Host` for the calls whose outcome the C code
tests (`NewObjectArray`, `NewByteArray`) or cannot compute itself (`mktime`, the content of
freshly allocated memory) or whose outcome depends on the data (`BigDecimal(String)`, which
throws `NumberFormatException` for a text that is not a decimal literal).  The class and
method lookups (`FindClass`, `GetMethodID`) and the other constructors, which take a number
and do not throw, are taken to succeed; the C code tests none of these results, and the JNI
calls it makes while an exception is pending are taken to behave as they do without one.

A call of `fetchArray` is embedded as a function from the statement state to an `Outcome`:
the returned reference, whether a Java exception is pending, the next statement state,
and the trace of the native calls issued.
-/

namespace ODBCBridge

/-! ## Constants of `<sql.h>` and `<sqlext.h>` -/

/-- Status `SQL_SUCCESS`. -/
def SQL_SUCCESS : Int := 0
/-- Status `SQL_SUCCESS_WITH_INFO`. -/
def SQL_SUCCESS_WITH_INFO : Int := 1
/-- Status `SQL_NO_DATA`. -/
def SQL_NO_DATA : Int := 100
/-- Status `SQL_ERROR`. -/
def SQL_ERROR : Int := -1
/-- Status `SQL_INVALID_HANDLE`. -/
def SQL_INVALID_HANDLE : Int := -2
/-- Indicator value `SQL_NULL_DATA`. -/
def SQL_NULL_DATA : Int := -1

def SQL_CHAR : Int := 1
def SQL_NUMERIC : Int := 2
def SQL_DECIMAL : Int := 3
def SQL_INTEGER : Int := 4
def SQL_SMALLINT : Int := 5
def SQL_FLOAT : Int := 6
def SQL_REAL : Int := 7
def SQL_DOUBLE : Int := 8
def SQL_DATE : Int := 9
def SQL_TIME : Int := 10
def SQL_TIMESTAMP : Int := 11
def SQL_VARCHAR : Int := 12
def SQL_TYPE_DATE : Int := 91
def SQL_TYPE_TIME : Int := 92
def SQL_TYPE_TIMESTAMP : Int := 93
def SQL_LONGVARCHAR : Int := -1
def SQL_BINARY : Int := -2
def SQL_VARBINARY : Int := -3
def SQL_LONGVARBINARY : Int := -4
def SQL_BIGINT : Int := -5
def SQL_TINYINT : Int := -6
def SQL_WCHAR : Int := -8
def SQL_WVARCHAR : Int := -9
def SQL_WLONGVARCHAR : Int := -10

/-! ## Data exchanged with the driver -/

/-- The C record `DATE_STRUCT`: `SQLSMALLINT year; SQLUSMALLINT month, day`. -/
structure DATE_STRUCT where
  year : Int
  month : Nat
  day : Nat
  deriving DecidableEq, Repr

/-- The C record `TIME_STRUCT`: three `SQLUSMALLINT` fields. -/
structure TIME_STRUCT where
  hour : Nat
  minute : Nat
  second : Nat
  deriving DecidableEq, Repr

/-- The C record `TIMESTAMP_STRUCT`; `fraction` is an `SQLUINTEGER` of nanoseconds. -/
structure TIMESTAMP_STRUCT where
  year : Int
  month : Nat
  day : Nat
  hour : Nat
  minute : Nat
  second : Nat
  fraction : Nat
  deriving DecidableEq, Repr

/-- The fields of `struct tm` that the bridge sets; the others stay zero (`= { 0 }`). -/
structure TM where
  tm_sec : Int
  tm_min : Int
  tm_hour : Int
  tm_mday : Int
  tm_mon : Int
  tm_year : Int
  deriving DecidableEq, Repr

/-- The target C types that `fetchArray` passes to `SQLGetData`. -/
inductive CType
  | SQL_C_SLONG
  | SQL_C_SBIGINT
  | SQL_C_FLOAT
  | SQL_C_DOUBLE
  | SQL_C_CHAR
  | SQL_C_BINARY
  | SQL_C_TYPE_DATE
  | SQL_C_TYPE_TIME
  | SQL_C_TYPE_TIMESTAMP
  deriving DecidableEq, Repr

/-- What the target buffer of an `SQLGetData` call holds, by target C type: an integer
for `SQLINTEGER` and `SQLBIGINT`, the bit pattern for `SQLREAL` and `SQLDOUBLE` (floats are
only carried, never computed with), the characters stored in a `SQLCHAR` buffer (terminator
included), the stored bytes of a binary buffer, and the three temporal records. -/
@[reducible] def CType.Buffer : CType → Type
  | .SQL_C_SLONG => Int
  | .SQL_C_SBIGINT => Int
  | .SQL_C_FLOAT => Nat
  | .SQL_C_DOUBLE => Nat
  | .SQL_C_CHAR => List Char
  | .SQL_C_BINARY => List Nat
  | .SQL_C_TYPE_DATE => DATE_STRUCT
  | .SQL_C_TYPE_TIME => TIME_STRUCT
  | .SQL_C_TYPE_TIMESTAMP => TIMESTAMP_STRUCT

/-- The caller's variables after `SQLGetData`: the returned status, the value of the
length/indicator variable, and the content of the target buffer. -/
structure GetData (β : Type) where
  ret : Int
  ind : Int
  buf : β

/-- The caller's variables after `SQLNumResultCols`. -/
structure NumResultCols where
  ret : Int
  columnCount : Int
  deriving DecidableEq, Repr

/-- An ODBC driver seen from the statement handle of a query: each native call maps the
statement state to its outputs and the next state.  `SQLDescribeCol` yields the value of
the local `dataType` after the call (its status is not inspected by `fetchArray`). -/
structure Driver (σ : Type) where
  SQLNumResultCols : σ → NumResultCols × σ
  SQLFetch : σ → Int × σ
  SQLDescribeCol : σ → Nat → Int × σ
  SQLGetData : σ → Nat → (t : CType) → Int → GetData t.Buffer × σ

/-- The native calls issued on the statement handle, as recorded in a call trace. -/
inductive Call
  | numResultCols
  | fetch
  | describeCol (col : Nat)
  | getData (col : Nat) (t : CType) (bufferLength : Int)
  deriving DecidableEq, Repr

/-! ## The Java host -/

/-- The Java objects `fetchArray` constructs; each carries its constructor argument. -/
inductive JObject
  | integer (value : Int)
  | long (value : Int)
  | float (bits : Nat)
  | double (bits : Nat)
  | bigDecimal (text : List Char)
  | byteArray (bytes : List Nat)
  | string (chars : List Char)
  | date (millis : Int)
  | time (millis : Int)
  | timestamp (millis : Int)
  deriving DecidableEq, Repr

/-- A Java reference: `none` is `NULL`. -/
abbrev JRef := Option JObject

/-- The part of the host that the C code cannot decide: whether `NewObjectArray` and
`NewByteArray` return an array of the requested length (they return `NULL` when the
allocation fails or the length does not fit `jsize`), the byte found at each offset of a
fresh `malloc` block, the calendar normalisation `mktime` of the C library (which
depends on the local time zone), and whether the constructor `BigDecimal(String)` accepts
a text (it throws `NumberFormatException` for any other). -/
structure Host where
  arrayAlloc : Nat → Bool
  byteArrayAlloc : Nat → Bool
  uninit : Nat → Nat
  mktime : TM → Int
  bigDecimal : List Char → Bool

/-- JNI `NewObjectArray(env, len, cls, NULL)`: an array of `len` null references, or `NULL`
(with an exception pending) when `len` is negative or the allocation fails. -/
def NewObjectArray (h : Host) (len : Int) : Option (List JRef) :=
  if len < 0 then none
  else if h.arrayAlloc len.toNat then some (List.replicate len.toNat none) else none

/-- The C string held by a character buffer: the characters before the first NUL. -/
def cString (buf : List Char) : List Char :=
  buf.takeWhile (fun c => c != Char.ofNat 0)

/-- JNI `NewStringUTF(env, buf)`: the Java string of the C string in `buf`. -/
def NewStringUTF (buf : List Char) : JObject :=
  .string (cString buf)

/-- JNI `NewObject(env, bigDecimalClass, constructor, valueStr)` for the constructor
`BigDecimal(String)`: the decimal of the text, or `NULL`, with the
`NumberFormatException` of the constructor pending, for a text it refuses. -/
def NewBigDecimal (h : Host) (text : List Char) : JRef :=
  if h.bigDecimal text then some (.bigDecimal text) else none

/-- Two's-complement wrap of an integer to `w` bits, signed. -/
def wrapS (w : Nat) (x : Int) : Int :=
  (x + 2 ^ (w - 1)) % 2 ^ w - 2 ^ (w - 1)

/-- The conversion `%d` of `snprintf` for an `int` argument. -/
def fmtD (n : Int) : List Char :=
  if 0 ≤ n then Nat.toDigits 10 n.toNat else '-' :: Nat.toDigits 10 (-n).toNat

/-- The characters `snprintf(buf, size, ...)` stores before the terminator, given the full
formatted text: at most `size - 1` of them. -/
def snprintf (size : Nat) (formatted : List Char) : List Char :=
  formatted.take (size - 1)

/-- The block filled by `SQLGetData(..., buffer, length, ...)` on a fresh `malloc(length)`:
the bytes the driver stored, and the uninitialised content where it stored none. -/
def filledBlock (h : Host) (length : Nat) (stored : List Nat) : List Nat :=
  (List.range length).map (fun k => (stored[k]?).getD (h.uninit k))

/-! ## `Java_odbcbridge_ODBCBridge_fetchArray` -/

/-- The effect of one iteration of the column loop: the reference stored in the row,
whether a host allocation or constructor failed (leaving a Java exception pending, which
the loop does not test), the next statement state and the native calls issued. -/
structure Column (σ : Type) where
  value : JRef
  pending : Bool
  st : σ
  calls : List Call

/-- The test `ret == SQL_SUCCESS && indicator != SQL_NULL_DATA` made after each read. -/
def readOk {β : Type} (g : GetData β) : Bool :=
  decide (g.ret = SQL_SUCCESS) && decide (g.ind ≠ SQL_NULL_DATA)

/-- The arithmetic of the `SQL_TIME` case, in C `int` (32-bit, wrapping):
`(hour * 3600 + minute * 60 + second) * 1000`.  The result is stored in a `long` and handed
to the `Time(long)` constructor with its value unchanged. -/
def timeInMillis (t : TIME_STRUCT) : Int :=
  wrapS 32 (wrapS 32 (wrapS 32 (wrapS 32 ((t.hour : Int) * 3600) + wrapS 32 ((t.minute : Int) * 60))
    + (t.second : Int)) * 1000)

/-- The `struct tm` built in the `SQL_DATE` case. -/
def tmDate (v : DATE_STRUCT) : TM :=
  { tm_sec := 0, tm_min := 0, tm_hour := 0,
    tm_mday := v.day, tm_mon := (v.month : Int) - 1, tm_year := v.year - 1900 }

/-- The `struct tm` built in the `SQL_TIMESTAMP` case. -/
def tmTimestamp (v : TIMESTAMP_STRUCT) : TM :=
  { tm_sec := v.second, tm_min := v.minute, tm_hour := v.hour,
    tm_mday := v.day, tm_mon := (v.month : Int) - 1, tm_year := v.year - 1900 }

/-- The `SQL_DATE` arithmetic: `(jlong)mktime(&tmDate) * 1000`. -/
def dateInMillis (h : Host) (v : DATE_STRUCT) : Int :=
  wrapS 64 (h.mktime (tmDate v) * 1000)

/-- The `SQL_TIMESTAMP` arithmetic:
`((jlong)mktime(&tmTimestamp) * 1000) + (fraction / 1000000)`. -/
def timestampInMillis (h : Host) (v : TIMESTAMP_STRUCT) : Int :=
  wrapS 64 (wrapS 64 (h.mktime (tmTimestamp v) * 1000) + ((v.fraction / 1000000 : Nat) : Int))

/-- The text built in the `default` case:
`snprintf(typeInfo, sizeof(typeInfo), "Tipo no manejado: %d", dataType)`. -/
def typeInfo (dataType : Int) : List Char :=
  snprintf 128 ("Tipo no manejado: ".toList ++ fmtD dataType)

/-- The groups of `case` labels of the `switch (dataType)` in `fetchArray`, and its
`default`. -/
inductive Family
  | integer
  | bigint
  | real
  | double
  | decimal
  | binary
  | character
  | date
  | time
  | timestamp
  | unhandled
  deriving DecidableEq, Repr

/-- The branch that `switch (dataType)` selects, by its `case` labels in source order. -/
def familyOf (dataType : Int) : Family :=
  if dataType = SQL_INTEGER ∨ dataType = SQL_SMALLINT ∨ dataType = SQL_TINYINT then .integer
  else if dataType = SQL_BIGINT then .bigint
  else if dataType = SQL_REAL ∨ dataType = SQL_FLOAT then .real
  else if dataType = SQL_DOUBLE then .double
  else if dataType = SQL_NUMERIC ∨ dataType = SQL_DECIMAL then .decimal
  else if dataType = SQL_BINARY ∨ dataType = SQL_VARBINARY ∨ dataType = SQL_LONGVARBINARY then
    .binary
  else if dataType = SQL_CHAR ∨ dataType = SQL_VARCHAR ∨ dataType = SQL_LONGVARCHAR
      ∨ dataType = SQL_WCHAR ∨ dataType = SQL_WVARCHAR ∨ dataType = SQL_WLONGVARCHAR then
    .character
  else if dataType = SQL_DATE ∨ dataType = SQL_TYPE_DATE then .date
  else if dataType = SQL_TIME ∨ dataType = SQL_TYPE_TIME then .time
  else if dataType = SQL_TIMESTAMP ∨ dataType = SQL_TYPE_TIMESTAMP then .timestamp
  else .unhandled

/-- The body of the loop of `fetchArray` for column `i`: `SQLDescribeCol`, then the
`switch (dataType)`. -/
def fetchColumn {σ : Type} (h : Host) (d : Driver σ) (s : σ) (i : Nat) : Column σ :=
  let dc := d.SQLDescribeCol s i
  let dataType := dc.1
  match familyOf dataType with
  | .integer =>
    let r := d.SQLGetData dc.2 i .SQL_C_SLONG 4
    { value := if readOk r.1 then some (.integer r.1.buf) else none
      pending := false, st := r.2
      calls := [.describeCol i, .getData i .SQL_C_SLONG 4] }
  | .bigint =>
    let r := d.SQLGetData dc.2 i .SQL_C_SBIGINT 8
    { value := if readOk r.1 then some (.long r.1.buf) else none
      pending := false, st := r.2
      calls := [.describeCol i, .getData i .SQL_C_SBIGINT 8] }
  | .real =>
    let r := d.SQLGetData dc.2 i .SQL_C_FLOAT 4
    { value := if readOk r.1 then some (.float r.1.buf) else none
      pending := false, st := r.2
      calls := [.describeCol i, .getData i .SQL_C_FLOAT 4] }
  | .double =>
    let r := d.SQLGetData dc.2 i .SQL_C_DOUBLE 8
    { value := if readOk r.1 then some (.double r.1.buf) else none
      pending := false, st := r.2
      calls := [.describeCol i, .getData i .SQL_C_DOUBLE 8] }
  | .decimal =>
    let r := d.SQLGetData dc.2 i .SQL_C_CHAR 256
    { value := if readOk r.1 then NewBigDecimal h (cString r.1.buf) else none
      pending := readOk r.1 && !h.bigDecimal (cString r.1.buf), st := r.2
      calls := [.describeCol i, .getData i .SQL_C_CHAR 256] }
  | .binary =>
    let probe := d.SQLGetData dc.2 i .SQL_C_BINARY 0
    let length := probe.1.ind
    if length > 0 then
      if h.byteArrayAlloc length.toNat then
        let r := d.SQLGetData probe.2 i .SQL_C_BINARY length
        { value := some (.byteArray (filledBlock h length.toNat r.1.buf))
          pending := false, st := r.2
          calls := [.describeCol i, .getData i .SQL_C_BINARY 0, .getData i .SQL_C_BINARY length] }
      else
        { value := none, pending := true, st := probe.2
          calls := [.describeCol i, .getData i .SQL_C_BINARY 0] }
    else
      { value := none, pending := false, st := probe.2
        calls := [.describeCol i, .getData i .SQL_C_BINARY 0] }
  | .character =>
    let r := d.SQLGetData dc.2 i .SQL_C_CHAR 256
    { value := if readOk r.1 then some (NewStringUTF r.1.buf) else none
      pending := false, st := r.2
      calls := [.describeCol i, .getData i .SQL_C_CHAR 256] }
  | .date =>
    let r := d.SQLGetData dc.2 i .SQL_C_TYPE_DATE 6
    { value := if readOk r.1 then some (.date (dateInMillis h r.1.buf)) else none
      pending := false, st := r.2
      calls := [.describeCol i, .getData i .SQL_C_TYPE_DATE 6] }
  | .time =>
    let r := d.SQLGetData dc.2 i .SQL_C_TYPE_TIME 6
    { value := if readOk r.1 then some (.time (timeInMillis r.1.buf)) else none
      pending := false, st := r.2
      calls := [.describeCol i, .getData i .SQL_C_TYPE_TIME 6] }
  | .timestamp =>
    let r := d.SQLGetData dc.2 i .SQL_C_TYPE_TIMESTAMP 16
    { value := if readOk r.1 then some (.timestamp (timestampInMillis h r.1.buf)) else none
      pending := false, st := r.2
      calls := [.describeCol i, .getData i .SQL_C_TYPE_TIMESTAMP 16] }
  | .unhandled =>
    { value := some (NewStringUTF (typeInfo dataType))
      pending := false, st := dc.2
      calls := [.describeCol i] }

/-- The variables of `fetchArray` that the column loop updates. -/
structure Loop (σ : Type) where
  rowArray : List JRef
  pending : Bool
  st : σ
  calls : List Call

/-- The loop `for (int i = 1; i <= columnCount; i++)`, by the number of iterations left:
each iteration ends with `SetObjectArrayElement(env, rowArray, i - 1, value)`. -/
def columnLoop {σ : Type} (h : Host) (d : Driver σ) : Nat → Nat → Loop σ → Loop σ
  | 0, _, l => l
  | k + 1, i, l =>
    let c := fetchColumn h d l.st i
    columnLoop h d k (i + 1)
      { rowArray := l.rowArray.set (i - 1) c.value
        pending := l.pending || c.pending
        st := c.st
        calls := l.calls ++ c.calls }

/-- What a Java caller and the driver see of one `fetchArray` call: the returned reference
(`none` is `NULL`), whether a Java exception is pending on return, the statement state
left behind and the native calls issued. -/
structure Outcome (σ : Type) where
  result : Option (List JRef)
  pending : Bool
  st : σ
  calls : List Call

/-- The function `Java_odbcbridge_ODBCBridge_fetchArray`. -/
def fetchArray {σ : Type} (h : Host) (d : Driver σ) (s : σ) : Outcome σ :=
  let nc := d.SQLNumResultCols s
  if nc.1.ret ≠ SQL_SUCCESS then
    { result := none, pending := false, st := nc.2, calls := [.numResultCols] }
  else
    match NewObjectArray h nc.1.columnCount with
    | none => { result := none, pending := true, st := nc.2, calls := [.numResultCols] }
    | some rowArray =>
      let f := d.SQLFetch nc.2
      if f.1 = SQL_NO_DATA then
        { result := none, pending := false, st := f.2, calls := [.numResultCols, .fetch] }
      else if f.1 ≠ SQL_SUCCESS ∧ f.1 ≠ SQL_SUCCESS_WITH_INFO then
        { result := none, pending := false, st := f.2, calls := [.numResultCols, .fetch] }
      else
        let l := columnLoop h d nc.1.columnCount.toNat 1
          { rowArray := rowArray, pending := false, st := f.2, calls := [.numResultCols, .fetch] }
        { result := some l.rowArray, pending := l.pending, st := l.st, calls := l.calls }

/-- The statement state after `k` iterations of the column loop that start at column `i`:
the state in which the loop reaches column `i + k`. -/
def stateAfterColumns {σ : Type} (h : Host) (d : Driver σ) : Nat → Nat → σ → σ
  | 0, _, s => s
  | k + 1, i, s => stateAfterColumns h d k (i + 1) (fetchColumn h d s i).st

/-- The statement state in which `fetchArray`, called in state `s`, enters its column
loop: after `SQLNumResultCols` and `SQLFetch`. -/
def stateAfterFetch {σ : Type} (d : Driver σ) (s : σ) : σ :=
  (d.SQLFetch (d.SQLNumResultCols s).2).2

/-- The statement state in which `fetchArray`, called in state `s`, reaches column `i`. -/
def stateAtColumn {σ : Type} (h : Host) (d : Driver σ) (s : σ) (i : Nat) : σ :=
  stateAfterColumns h d (i - 1) 1 (stateAfterFetch d s)

/-! ## A scripted driver

A driver that replays a script, used to evaluate the bridge on concrete result sets. -/

/-- What the scripted driver reports for one column of the current row: the type code of
`SQLDescribeCol`, and the status, indicator and buffer content of `SQLGetData`. -/
structure Cell where
  dataType : Int
  ret : Int := 0
  ind : Int := 0
  int : Int := 0
  bits : Nat := 0
  chars : List Char := []
  bytes : List Nat := []
  date : DATE_STRUCT := ⟨0, 0, 0⟩
  time : TIME_STRUCT := ⟨0, 0, 0⟩
  timestamp : TIMESTAMP_STRUCT := ⟨0, 0, 0, 0, 0, 0, 0⟩
  deriving DecidableEq, Repr

/-- The state of a scripted statement: the answer to `SQLNumResultCols`, the pending
`SQLFetch` answers (a status and the cells of the row it positions on), and the cells of
the current row.  Once the script is exhausted `SQLFetch` keeps answering `SQL_NO_DATA`. -/
structure Script where
  cols : NumResultCols
  fetches : List (Int × List Cell)
  current : List Cell
  deriving DecidableEq, Repr

/-- The cell of column `i` (from 1) of the current row; an absent column reads as an error. -/
def Script.cell (s : Script) (i : Nat) : Cell :=
  (s.current[i - 1]?).getD { dataType := 0, ret := SQL_ERROR }

/-- The scripted driver. -/
def scripted : Driver Script where
  SQLNumResultCols s := (s.cols, s)
  SQLFetch s :=
    match s.fetches with
    | [] => (SQL_NO_DATA, s)
    | f :: rest => (f.1, { s with fetches := rest, current := f.2 })
  SQLDescribeCol s i := ((s.cell i).dataType, s)
  SQLGetData s i t _ :=
    let c := s.cell i
    (match t with
      | .SQL_C_SLONG => ⟨c.ret, c.ind, c.int⟩
      | .SQL_C_SBIGINT => ⟨c.ret, c.ind, c.int⟩
      | .SQL_C_FLOAT => ⟨c.ret, c.ind, c.bits⟩
      | .SQL_C_DOUBLE => ⟨c.ret, c.ind, c.bits⟩
      | .SQL_C_CHAR => ⟨c.ret, c.ind, c.chars⟩
      | .SQL_C_BINARY => ⟨c.ret, c.ind, c.bytes⟩
      | .SQL_C_TYPE_DATE => ⟨c.ret, c.ind, c.date⟩
      | .SQL_C_TYPE_TIME => ⟨c.ret, c.ind, c.time⟩
      | .SQL_C_TYPE_TIMESTAMP => ⟨c.ret, c.ind, c.timestamp⟩, s)

/-- The texts `BigDecimal(String)` is documented to accept, over the ASCII digits: an
optional sign, digits with at most one point and at least one digit, and an optional
exponent (`e` or `E`, an optional sign, at least one digit).  `NaN` and `Infinity` are not
among them. -/
def decimalLiteral (text : List Char) : Bool :=
  let unsigned := match text with
    | '+' :: r => r
    | '-' :: r => r
    | _ => text
  let integerPart := unsigned.span Char.isDigit
  let fractionPart := match integerPart.2 with
    | '.' :: r => r.span Char.isDigit
    | _ => ([], integerPart.2)
  (!integerPart.1.isEmpty || !fractionPart.1.isEmpty) &&
    match fractionPart.2 with
    | [] => true
    | e :: r =>
      (e == 'e' || e == 'E') &&
        (match r with
          | '+' :: x => !x.isEmpty && x.all Char.isDigit
          | '-' :: x => !x.isEmpty && x.all Char.isDigit
          | _ => !r.isEmpty && r.all Char.isDigit)

/-- A host whose allocations succeed, whose fresh memory reads as `0xCD`, whose
`mktime` is that of a UTC clock restricted to times of day on 1970-01-01, and whose
`BigDecimal(String)` accepts the decimal literals. -/
def plainHost : Host where
  arrayAlloc _ := true
  byteArrayAlloc _ := true
  uninit _ := 205
  mktime t := t.tm_hour * 3600 + t.tm_min * 60 + t.tm_sec
  bigDecimal := decimalLiteral

/-- A statement with the columns `(INTEGER, VARCHAR)` and the single row `(42, "Alice")`. -/
def usersQuery : Script where
  cols := ⟨SQL_SUCCESS, 2⟩
  fetches := [(SQL_SUCCESS,
    [{ dataType := SQL_INTEGER, ind := 4, int := 42 },
     { dataType := SQL_VARCHAR, ind := 5, chars := "Alice".toList ++ [Char.ofNat 0] }])]
  current := []

/-- A statement with one BIGINT column and one row whose read reports `SQL_NULL_DATA`
while the buffer holds 99. -/
def nullBigintQuery : Script where
  cols := ⟨SQL_SUCCESS, 1⟩
  fetches := [(SQL_SUCCESS, [{ dataType := SQL_BIGINT, ind := SQL_NULL_DATA, int := 99 }])]
  current := []

/-- A statement with two INTEGER columns and one row: the read of column 1 fails with
`SQL_ERROR`, the read of column 2 yields 7. -/
def failedReadQuery : Script where
  cols := ⟨SQL_SUCCESS, 2⟩
  fetches := [(SQL_SUCCESS,
    [{ dataType := SQL_INTEGER, ret := SQL_ERROR },
     { dataType := SQL_INTEGER, ind := 4, int := 7 }])]
  current := []

/-- A statement with one VARCHAR column and one row whose value has 300 characters: the
read into the 256-byte buffer returns `SQL_SUCCESS_WITH_INFO`, the full length 300 as the
indicator, and the first 255 characters followed by the terminator. -/
def longTextQuery : Script where
  cols := ⟨SQL_SUCCESS, 1⟩
  fetches := [(SQL_SUCCESS,
    [{ dataType := SQL_VARCHAR, ret := SQL_SUCCESS_WITH_INFO, ind := 300,
       chars := List.replicate 255 'a' ++ [Char.ofNat 0] }])]
  current := []

/-- A statement with one VARBINARY column and one row holding a zero-length value: the
length probe returns `SQL_SUCCESS` and the length 0. -/
def emptyBinaryQuery : Script where
  cols := ⟨SQL_SUCCESS, 1⟩
  fetches := [(SQL_SUCCESS, [{ dataType := SQL_VARBINARY, ind := 0 }])]
  current := []

/-- A statement with one VARBINARY column and one row holding the three bytes 1, 2, 3. -/
def threeBytesQuery : Script where
  cols := ⟨SQL_SUCCESS, 1⟩
  fetches := [(SQL_SUCCESS, [{ dataType := SQL_VARBINARY, ind := 3, bytes := [1, 2, 3] }])]
  current := []

/-- A statement with one DECIMAL column and one row holding `12345678901234567890.5`. -/
def decimalQuery : Script where
  cols := ⟨SQL_SUCCESS, 1⟩
  fetches := [(SQL_SUCCESS,
    [{ dataType := SQL_DECIMAL, ind := 22,
       chars := "12345678901234567890.5".toList ++ [Char.ofNat 0] }])]
  current := []

/-- A statement with one DECIMAL column and one row whose value the driver renders as the
text `NaN`, read with success. -/
def nanDecimalQuery : Script where
  cols := ⟨SQL_SUCCESS, 1⟩
  fetches := [(SQL_SUCCESS,
    [{ dataType := SQL_DECIMAL, ind := 3, chars := "NaN".toList ++ [Char.ofNat 0] }])]
  current := []

/-- A statement with the columns `(INTEGER, NUMERIC)` and the single row `(42, Infinity)`,
the second value rendered by the driver as the text `Infinity`, read with success. -/
def infinityRowQuery : Script where
  cols := ⟨SQL_SUCCESS, 2⟩
  fetches := [(SQL_SUCCESS,
    [{ dataType := SQL_INTEGER, ind := 4, int := 42 },
     { dataType := SQL_NUMERIC, ind := 8, chars := "Infinity".toList ++ [Char.ofNat 0] }])]
  current := []

/-- The type codes that the `switch` of `fetchArray` handles by a `case` label. -/
def recognised (dataType : Int) : Prop :=
  dataType = SQL_INTEGER ∨ dataType = SQL_SMALLINT ∨ dataType = SQL_TINYINT
  ∨ dataType = SQL_BIGINT ∨ dataType = SQL_REAL ∨ dataType = SQL_FLOAT ∨ dataType = SQL_DOUBLE
  ∨ dataType = SQL_NUMERIC ∨ dataType = SQL_DECIMAL
  ∨ dataType = SQL_BINARY ∨ dataType = SQL_VARBINARY ∨ dataType = SQL_LONGVARBINARY
  ∨ dataType = SQL_CHAR ∨ dataType = SQL_VARCHAR ∨ dataType = SQL_LONGVARCHAR
  ∨ dataType = SQL_WCHAR ∨ dataType = SQL_WVARCHAR ∨ dataType = SQL_WLONGVARCHAR
  ∨ dataType = SQL_DATE ∨ dataType = SQL_TYPE_DATE ∨ dataType = SQL_TIME
  ∨ dataType = SQL_TYPE_TIME ∨ dataType = SQL_TIMESTAMP ∨ dataType = SQL_TYPE_TIMESTAMP

instance (dataType : Int) : Decidable (recognised dataType) := by
  unfold recognised
  infer_instance

/-- A statement with one column of type code -7 (`SQL_BIT`) and one row. -/
def bitQuery : Script where
  cols := ⟨SQL_SUCCESS, 1⟩
  fetches := [(SQL_SUCCESS, [{ dataType := -7, ind := 1, int := 1 }])]
  current := []

/-- The statement state after `k` successive `fetchArray` calls from state `s`. -/
def stateAfterCalls {σ : Type} (h : Host) (d : Driver σ) : Nat → σ → σ
  | 0, s => s
  | k + 1, s => stateAfterCalls h d k (fetchArray h d s).st

/-- A driver and host that behave as a forward-only cursor over a result set, on the
states satisfying `good`: `rowsLeft` counts the rows not yet fetched; `SQLFetch` succeeds
and consumes one row while rows are left, and reports `SQL_NO_DATA` without moving once
none is left; the column-count call succeeds and the row array can be allocated; the
metadata and data calls do not move the cursor. -/
structure ForwardCursor {σ : Type} (h : Host) (d : Driver σ) (rowsLeft : σ → Nat)
    (good : σ → Prop) : Prop where
  numResultCols : ∀ s, good s →
    (d.SQLNumResultCols s).1.ret = SQL_SUCCESS ∧ 0 ≤ (d.SQLNumResultCols s).1.columnCount ∧
    h.arrayAlloc (d.SQLNumResultCols s).1.columnCount.toNat = true ∧
    good (d.SQLNumResultCols s).2 ∧ rowsLeft (d.SQLNumResultCols s).2 = rowsLeft s
  fetchRow : ∀ s, good s → 0 < rowsLeft s →
    (d.SQLFetch s).1 = SQL_SUCCESS ∧ good (d.SQLFetch s).2 ∧
    rowsLeft (d.SQLFetch s).2 + 1 = rowsLeft s
  fetchEnd : ∀ s, good s → rowsLeft s = 0 →
    (d.SQLFetch s).1 = SQL_NO_DATA ∧ good (d.SQLFetch s).2 ∧ rowsLeft (d.SQLFetch s).2 = 0
  describeCol : ∀ s i, good s →
    good (d.SQLDescribeCol s i).2 ∧ rowsLeft (d.SQLDescribeCol s i).2 = rowsLeft s
  getData : ∀ s i t n, good s →
    good (d.SQLGetData s i t n).2 ∧ rowsLeft (d.SQLGetData s i t n).2 = rowsLeft s

/-- The scripted states on which the scripted driver is a forward-only cursor: the column
count is reported with success and every scripted fetch succeeds. -/
def Script.wellBehaved (s : Script) : Prop :=
  s.cols.ret = SQL_SUCCESS ∧ 0 ≤ s.cols.columnCount ∧ ∀ f ∈ s.fetches, f.1 = SQL_SUCCESS

instance (s : Script) : Decidable s.wellBehaved := by
  unfold Script.wellBehaved
  infer_instance

/-- A statement with one TIME column and one row holding 23:59:59. -/
def lastSecondQuery : Script where
  cols := ⟨SQL_SUCCESS, 1⟩
  fetches := [(SQL_SUCCESS, [{ dataType := SQL_TYPE_TIME, ind := 6, time := ⟨23, 59, 59⟩ }])]
  current := []

/-- A statement with one TIMESTAMP column and one row holding 1970-01-01 00:00:01.5. -/
def timestampQuery : Script where
  cols := ⟨SQL_SUCCESS, 1⟩
  fetches := [(SQL_SUCCESS,
    [{ dataType := SQL_TYPE_TIMESTAMP, ind := 16,
       timestamp := ⟨1970, 1, 1, 0, 0, 1, 500000000⟩ }])]
  current := []

/-! ## `check_error` and `Java_odbcbridge_ODBCBridge_fetchFields` -/

/-- The test of `check_error`: whether the status makes it read the diagnostic record and
throw a `java.sql.SQLException`, that is `ret != SQL_SUCCESS && ret != SQL_SUCCESS_WITH_INFO`.
After throwing, `check_error` returns and its caller goes on. -/
def check_error (ret : Int) : Bool :=
  decide (ret ≠ SQL_SUCCESS) && decide (ret ≠ SQL_SUCCESS_WITH_INFO)

/-- The caller's variables after
`SQLDescribeCol(hStmt, i, colName, sizeof(colName), NULL, &dataType, &colSize, NULL, &nullable)`:
the status, the content of the name buffer, the type code and the size (an `SQLULEN`). -/
structure DescribeCol where
  ret : Int
  colName : List Char
  dataType : Int
  colSize : Nat
  deriving DecidableEq, Repr

/-- The Java object `odbcbridge.ODBCField`, built by its constructor `(String, int, int)`. -/
structure ODBCField where
  name : List Char
  type : Int
  size : Int
  deriving DecidableEq, Repr

/-- A driver that also answers `SQLDescribeCol` with a name buffer and a size variable,
the form of the call made by `fetchFields`. -/
structure FullDriver (σ : Type) extends Driver σ where
  SQLDescribeColInto : σ → Nat → DescribeCol × σ

/-- The object built for one column by `fetchFields`: the C string of the name buffer, the
type code, and the size as read by the `int` parameter of the constructor. -/
def odbcField (dc : DescribeCol) : ODBCField :=
  { name := cString dc.colName, type := dc.dataType, size := wrapS 32 (dc.colSize : Int) }

/-- The variables of `fetchFields` that its loop updates; `fieldArray` is `none` when
`NewObjectArray` returned `NULL`. -/
structure FieldsLoop (σ : Type) where
  fieldArray : Option (List (Option ODBCField))
  pending : Bool
  st : σ
  calls : List Call

/-- The loop `for (int i = 1; i <= columnCount; i++)` of `fetchFields`, by the number of
iterations left. -/
def fieldsLoop {σ : Type} (d : FullDriver σ) : Nat → Nat → FieldsLoop σ → FieldsLoop σ
  | 0, _, l => l
  | k + 1, i, l =>
    let dc := d.SQLDescribeColInto l.st i
    fieldsLoop d k (i + 1)
      { fieldArray := l.fieldArray.map (fun a => a.set (i - 1) (some (odbcField dc.1)))
        pending := l.pending || check_error dc.1.ret
        st := dc.2
        calls := l.calls ++ [.describeCol i] }

/-- The function `Java_odbcbridge_ODBCBridge_fetchFields`. -/
def fetchFields {σ : Type} (h : Host) (d : FullDriver σ) (s : σ) : FieldsLoop σ :=
  let nc := d.SQLNumResultCols s
  let fieldArray := (NewObjectArray h nc.1.columnCount).map
    (fun a => a.map (fun _ => (none : Option ODBCField)))
  fieldsLoop d nc.1.columnCount.toNat 1
    { fieldArray := fieldArray
      pending := check_error nc.1.ret || fieldArray.isNone
      st := nc.2
      calls := [.numResultCols] }

/-- The statement state in which the loop of `fetchFields` is after `k` iterations that
start at column `i`. -/
def stateAfterFields {σ : Type} (d : FullDriver σ) : Nat → Nat → σ → σ
  | 0, _, s => s
  | k + 1, i, s => stateAfterFields d k (i + 1) (d.SQLDescribeColInto s i).2

/-- The metadata calls of the driver leave the statement state as it is. -/
structure MetadataOnly {σ : Type} (d : FullDriver σ) : Prop where
  numResultCols : ∀ s, (d.SQLNumResultCols s).2 = s
  describeColInto : ∀ s i, (d.SQLDescribeColInto s i).2 = s

/-- The metadata calls answer the same in the states `s` and `t`. -/
def SameShape {σ : Type} (d : FullDriver σ) (s t : σ) : Prop :=
  (d.SQLNumResultCols s).1 = (d.SQLNumResultCols t).1 ∧
  ∀ i, (d.SQLDescribeColInto s i).1 = (d.SQLDescribeColInto t i).1

/-- A scripted statement together with the descriptions of its columns. -/
structure Described where
  columns : List DescribeCol
  script : Script
  deriving DecidableEq, Repr

/-- The scripted driver, answering the full `SQLDescribeCol` from the column descriptions. -/
def described : FullDriver Described where
  SQLNumResultCols s := ((scripted.SQLNumResultCols s.script).1,
    { s with script := (scripted.SQLNumResultCols s.script).2 })
  SQLFetch s := ((scripted.SQLFetch s.script).1,
    { s with script := (scripted.SQLFetch s.script).2 })
  SQLDescribeCol s i := ((scripted.SQLDescribeCol s.script i).1,
    { s with script := (scripted.SQLDescribeCol s.script i).2 })
  SQLGetData s i t n := ((scripted.SQLGetData s.script i t n).1,
    { s with script := (scripted.SQLGetData s.script i t n).2 })
  SQLDescribeColInto s i :=
    ((s.columns[i - 1]?).getD { ret := SQL_ERROR, colName := [], dataType := 0, colSize := 0 }, s)

/-- The statement `SELECT id, name FROM users WHERE id=1`: columns `id INTEGER(10)` and
`name VARCHAR(50)`, one row `(42, "Alice")`. -/
def usersStatement : Described where
  columns :=
    [{ ret := SQL_SUCCESS, colName := "id".toList ++ [Char.ofNat 0], dataType := SQL_INTEGER,
       colSize := 10 },
     { ret := SQL_SUCCESS, colName := "name".toList ++ [Char.ofNat 0], dataType := SQL_VARCHAR,
       colSize := 50 }]
  script := usersQuery

/-- The statement `SELECT body FROM notes`: one column `body LONGVARCHAR` for which the
driver reports the size 4294967295, and no row. -/
def longTextStatement : Described where
  columns :=
    [{ ret := SQL_SUCCESS, colName := "body".toList ++ [Char.ofNat 0],
       dataType := SQL_LONGVARCHAR, colSize := 4294967295 }]
  script := { cols := ⟨SQL_SUCCESS, 1⟩, fetches := [], current := [] }

/-! ## The build copy of `Java_odbcbridge_ODBCBridge_fetchArray` -/

/-- The variables that the loop of the build copy of `fetchArray`
(`src/build/classes/odbcbridge/ODBCBridge.c`) updates; `row` is `none` when
`NewObjectArray` returned `NULL`. -/
structure BuildLoop (σ : Type) where
  row : Option (List JRef)
  pending : Bool
  st : σ
  calls : List Call

/-- The loop `for (int j = 0; j < columns; j++)` of the build copy, by the number of
iterations left: every column is read as text into the 256-byte buffer, the status goes to
`check_error`, and the element is `NULL` when the indicator is `SQL_NULL_DATA` and the
string of the buffer otherwise. -/
def buildLoop {σ : Type} (d : Driver σ) : Nat → Nat → BuildLoop σ → BuildLoop σ
  | 0, _, l => l
  | k + 1, j, l =>
    let r := d.SQLGetData l.st (j + 1) .SQL_C_CHAR 256
    buildLoop d k (j + 1)
      { row := l.row.map (fun a => a.set j
          (if r.1.ind = SQL_NULL_DATA then none else some (NewStringUTF r.1.buf)))
        pending := l.pending || check_error r.1.ret
        st := r.2
        calls := l.calls ++ [.getData (j + 1) .SQL_C_CHAR 256] }

/-- The function `Java_odbcbridge_ODBCBridge_fetchArray` of the build copy: the status of
`SQLNumResultCols` and the result of `NewObjectArray` are not tested, `SQL_NO_DATA` returns
`NULL`, and any other fetch status goes to `check_error` before the loop. -/
def fetchArray_build {σ : Type} (h : Host) (d : Driver σ) (s : σ) : Outcome σ :=
  let nc := d.SQLNumResultCols s
  let row := NewObjectArray h nc.1.columnCount
  let f := d.SQLFetch nc.2
  if f.1 = SQL_NO_DATA then
    { result := none, pending := row.isNone, st := f.2, calls := [.numResultCols, .fetch] }
  else
    let l := buildLoop d nc.1.columnCount.toNat 0
      { row := row, pending := row.isNone || check_error f.1, st := f.2
        calls := [.numResultCols, .fetch] }
    { result := l.row, pending := l.pending, st := l.st, calls := l.calls }

/-- A statement with the columns `(VARCHAR, VARCHAR)` and the single row `("Alice", NULL)`;
the read of the null column leaves the buffer as it was. -/
def namesQuery : Script where
  cols := ⟨SQL_SUCCESS, 2⟩
  fetches := [(SQL_SUCCESS,
    [{ dataType := SQL_VARCHAR, ind := 5, chars := "Alice".toList ++ [Char.ofNat 0] },
     { dataType := SQL_VARCHAR, ind := SQL_NULL_DATA,
       chars := "Alice".toList ++ [Char.ofNat 0] }])]
  current := []

/-! ## The driver manager: environments, connections, statements

The functions that allocate and release handles are embedded over an oracle for the
driver manager and the C allocator, a record of transition functions over an arbitrary
state `ω`, and a `World` that carries that state, the trace of the native calls issued so
far and whether a Java exception is pending. -/

/-- The handle kinds `SQL_HANDLE_ENV`, `SQL_HANDLE_DBC` and `SQL_HANDLE_STMT`. -/
inductive HandleType
  | SQL_HANDLE_ENV
  | SQL_HANDLE_DBC
  | SQL_HANDLE_STMT
  deriving DecidableEq, Repr

/-- A native handle; `0` is `SQL_NULL_HANDLE` (`SQL_NULL_HENV`, `SQL_NULL_HDBC`,
`SQL_NULL_HSTMT`). -/
abbrev Handle := Nat

/-- The null handle. -/
def SQL_NULL_HANDLE : Handle := 0

/-- The caller's variables after `SQLAllocHandle`: the status and the output handle. -/
structure AllocHandle where
  ret : Int
  handle : Handle
  deriving DecidableEq, Repr

/-- The directions `SQL_FETCH_FIRST` and `SQL_FETCH_NEXT` of `SQLDataSources`. -/
inductive Direction
  | SQL_FETCH_FIRST
  | SQL_FETCH_NEXT
  deriving DecidableEq, Repr

/-- The driver manager and the C allocator.  `SQLTables` takes the table type, the only
argument the bridge passes other than `NULL`; `SQLGetDataChar`, `SQLGetDataShort` and
`SQLGetDataLong` are `SQLGetData` with the targets `SQL_C_CHAR` (into a 256-byte buffer),
`SQL_C_SSHORT` and `SQL_C_SLONG`, as the catalog functions call it; `SQLDataSources`
yields the status and the content of the name buffer; `malloc` yields the address of the
block. -/
structure Odbc (ω : Type) where
  SQLAllocHandle : ω → HandleType → Handle → AllocHandle × ω
  SQLSetEnvAttr : ω → Handle → Int × ω
  SQLSetConnectAttr : ω → Handle → Int × ω
  SQLConnect : ω → Handle → List Char → Int × ω
  SQLDriverConnect : ω → Handle → List Char → Int × ω
  SQLDisconnect : ω → Handle → Int × ω
  SQLFreeHandle : ω → HandleType → Handle → Int × ω
  SQLSetStmtAttr : ω → Handle → Int × ω
  SQLExecDirect : ω → Handle → List Char → Int × ω
  SQLTables : ω → Handle → List Char → Int × ω
  SQLColumns : ω → Handle → List Char → Int × ω
  SQLCloseCursor : ω → Handle → Int × ω
  SQLFetch : ω → Handle → Int × ω
  SQLGetDataChar : ω → Handle → Nat → GetData (List Char) × ω
  SQLGetDataShort : ω → Handle → Nat → GetData Int × ω
  SQLGetDataLong : ω → Handle → Nat → GetData Int × ω
  SQLDataSources : ω → Handle → Direction → (Int × List Char) × ω
  malloc : ω → Int × ω
  free : ω → Int → ω

/-- The native calls recorded in the trace of a `World`. -/
inductive Native
  | SQLAllocHandle (t : HandleType) (input : Handle)
  | SQLSetEnvAttr (hEnv : Handle)
  | SQLSetConnectAttr (hDbc : Handle)
  | SQLConnect (hDbc : Handle) (dsn : List Char)
  | SQLDriverConnect (hDbc : Handle) (connStr : List Char)
  | SQLDisconnect (hDbc : Handle)
  | SQLFreeHandle (t : HandleType) (handle : Handle)
  | SQLSetStmtAttr (hStmt : Handle)
  | SQLExecDirect (hStmt : Handle) (sql : List Char)
  | SQLGetDiagRec (t : HandleType) (handle : Handle)
  | SQLTables (hStmt : Handle) (tableType : List Char)
  | SQLColumns (hStmt : Handle) (table : List Char)
  | SQLCloseCursor (hStmt : Handle)
  | SQLFetch (hStmt : Handle)
  | SQLGetData (hStmt : Handle) (col : Nat)
  | SQLDataSources (hEnv : Handle) (direction : Direction)
  | malloc (block : Int)
  | free (block : Int)
  deriving DecidableEq, Repr

/-- The state of the native side during a call of the bridge. -/
structure World (ω : Type) where
  st : ω
  calls : List Native
  pending : Bool

/-- The world in state `s` at the start of a call: no native call yet, nothing pending. -/
def World.start {ω : Type} (s : ω) : World ω :=
  { st := s, calls := [], pending := false }

/-- Record the native call `c`, which left the oracle in state `next`. -/
def World.native {ω : Type} (w : World ω) (c : Native) (next : ω) : World ω :=
  { w with st := next, calls := w.calls ++ [c] }

/-- The function `check_error(env, ret, handleType, handle, message)`: when the status is
neither `SQL_SUCCESS` nor `SQL_SUCCESS_WITH_INFO` it reads the diagnostic record of the
handle and throws; in both cases it returns to its caller, which goes on. -/
def World.check_error {ω : Type} (w : World ω) (ret : Int) (t : HandleType) (handle : Handle) :
    World ω :=
  if ODBCBridge.check_error ret then
    { w with calls := w.calls ++ [.SQLGetDiagRec t handle], pending := true }
  else w

/-- The function `setup_environment`. -/
def setup_environment {ω : Type} (m : Odbc ω) (w : World ω) : Handle × World ω :=
  let a := m.SQLAllocHandle w.st .SQL_HANDLE_ENV SQL_NULL_HANDLE
  let w1 := (w.native (.SQLAllocHandle .SQL_HANDLE_ENV SQL_NULL_HANDLE) a.2).check_error
    a.1.ret .SQL_HANDLE_ENV a.1.handle
  let r := m.SQLSetEnvAttr w1.st a.1.handle
  let w2 := (w1.native (.SQLSetEnvAttr a.1.handle) r.2).check_error
    r.1 .SQL_HANDLE_ENV a.1.handle
  (a.1.handle, w2)

/-- The function `connect_to_dsn`. -/
def connect_to_dsn {ω : Type} (m : Odbc ω) (hEnv : Handle) (dsn : List Char) (w : World ω) :
    Handle × World ω :=
  let a := m.SQLAllocHandle w.st .SQL_HANDLE_DBC hEnv
  let w1 := (w.native (.SQLAllocHandle .SQL_HANDLE_DBC hEnv) a.2).check_error
    a.1.ret .SQL_HANDLE_DBC a.1.handle
  let t := m.SQLSetConnectAttr w1.st a.1.handle
  let w2 := w1.native (.SQLSetConnectAttr a.1.handle) t.2
  let r := m.SQLConnect w2.st a.1.handle dsn
  let w3 := (w2.native (.SQLConnect a.1.handle dsn) r.2).check_error
    r.1 .SQL_HANDLE_DBC a.1.handle
  (a.1.handle, w3)

/-- The function `init_statement`. -/
def init_statement {ω : Type} (m : Odbc ω) (hDbc : Handle) (w : World ω) : Handle × World ω :=
  let a := m.SQLAllocHandle w.st .SQL_HANDLE_STMT hDbc
  let w1 := (w.native (.SQLAllocHandle .SQL_HANDLE_STMT hDbc) a.2).check_error
    a.1.ret .SQL_HANDLE_STMT a.1.handle
  let t := m.SQLSetStmtAttr w1.st a.1.handle
  (a.1.handle, w1.native (.SQLSetStmtAttr a.1.handle) t.2)

/-- The C record `ConnectionState`. -/
structure ConnectionState where
  hEnv : Handle
  hDbc : Handle
  deriving DecidableEq, Repr

/-- The C record `QueryState`; `connectionState` is the address of the connection record. -/
structure QueryState where
  hStmt : Handle
  connectionState : Int
  deriving DecidableEq, Repr

/-- What a read through a `ConnectionState*` yields, by address.  The C code reads the
record without knowing whether the block is still allocated, so the content is a parameter
of every function that takes a connection pointer. -/
abbrev Memory := Int → ConnectionState

/-- The result of opening a connection: the returned `jlong`, which is the address of the
allocated record, the content written to the record, and the world on return. -/
structure Opened (ω : Type) where
  connectionPtr : Int
  connectionState : ConnectionState
  world : World ω

/-- The function `Java_odbcbridge_ODBCBridge_connect`. -/
def connect {ω : Type} (m : Odbc ω) (dsn : List Char) (w : World ω) : Opened ω :=
  let e := setup_environment m w
  let c := connect_to_dsn m e.1 dsn e.2
  let p := m.malloc c.2.st
  { connectionPtr := p.1
    connectionState := { hEnv := e.1, hDbc := c.1 }
    world := c.2.native (.malloc p.1) p.2 }

/-- The function `Java_odbcbridge_ODBCBridge_connectWithString`; the status of its
`SQLAllocHandle` goes to `check_error` with the environment handle. -/
def connectWithString {ω : Type} (m : Odbc ω) (connStr : List Char) (w : World ω) : Opened ω :=
  let e := setup_environment m w
  let a := m.SQLAllocHandle e.2.st .SQL_HANDLE_DBC e.1
  let w1 := (e.2.native (.SQLAllocHandle .SQL_HANDLE_DBC e.1) a.2).check_error
    a.1.ret .SQL_HANDLE_ENV e.1
  let t := m.SQLSetConnectAttr w1.st a.1.handle
  let w2 := w1.native (.SQLSetConnectAttr a.1.handle) t.2
  let r := m.SQLDriverConnect w2.st a.1.handle connStr
  let w3 := (w2.native (.SQLDriverConnect a.1.handle connStr) r.2).check_error
    r.1 .SQL_HANDLE_DBC a.1.handle
  let p := m.malloc w3.st
  { connectionPtr := p.1
    connectionState := { hEnv := e.1, hDbc := a.1.handle }
    world := w3.native (.malloc p.1) p.2 }

/-- The function `Java_odbcbridge_ODBCBridge_close`. -/
def close {ω : Type} (m : Odbc ω) (mem : Memory) (connectionPtr : Int) (w : World ω) :
    World ω :=
  if connectionPtr ≠ 0 then
    let connectionState := mem connectionPtr
    let w1 :=
      if connectionState.hDbc ≠ SQL_NULL_HANDLE then
        let r := m.SQLDisconnect w.st connectionState.hDbc
        let wd := w.native (.SQLDisconnect connectionState.hDbc) r.2
        let f := m.SQLFreeHandle wd.st .SQL_HANDLE_DBC connectionState.hDbc
        wd.native (.SQLFreeHandle .SQL_HANDLE_DBC connectionState.hDbc) f.2
      else w
    let w2 :=
      if connectionState.hEnv ≠ SQL_NULL_HANDLE then
        let f := m.SQLFreeHandle w1.st .SQL_HANDLE_ENV connectionState.hEnv
        w1.native (.SQLFreeHandle .SQL_HANDLE_ENV connectionState.hEnv) f.2
      else w1
    w2.native (.free connectionPtr) (m.free w2.st connectionPtr)
  else w

/-- The result of `query`: the returned `jlong`, which is the address of the allocated
`QueryState`, the content written to it, and the world on return. -/
structure Queried (ω : Type) where
  queryPtr : Int
  queryState : QueryState
  world : World ω

/-- The function `Java_odbcbridge_ODBCBridge_query`. -/
def query {ω : Type} (m : Odbc ω) (mem : Memory) (connectionPtr : Int) (sql : List Char)
    (w : World ω) : Queried ω :=
  let connectionState := mem connectionPtr
  let i := init_statement m connectionState.hDbc w
  let r := m.SQLExecDirect i.2.st i.1 sql
  let w1 := (i.2.native (.SQLExecDirect i.1 sql) r.2).check_error r.1 .SQL_HANDLE_STMT i.1
  let p := m.malloc w1.st
  { queryPtr := p.1
    queryState := { hStmt := i.1, connectionState := connectionPtr }
    world := w1.native (.malloc p.1) p.2 }

/-! ## An instrumented fake driver manager

A driver manager that hands out fresh handles, keeps the list of the handles and blocks
that are allocated and not released, refuses the data source and the statement named
`BAD`, and serves a catalog and a list of data sources from its state. -/

/-- One row of the catalog served by the fake driver manager: the status `SQLFetch`
returns when it positions on the row, the status, indicator and buffer content that
`SQLGetData` returns for its name, type code and size columns, and the table type under
which `SQLTables` lists it. -/
structure CatalogRow where
  fetch : Int := 0
  ret : Int := 0
  ind : Int := 0
  name : List Char := []
  dataType : Int := 0
  colSize : Int := 0
  kind : List Char := "TABLE".toList
  deriving DecidableEq, Repr

/-- The state of the fake driver manager. -/
structure Fake where
  next : Handle := 1
  live : List (HandleType × Handle) := []
  nextBlock : Int := 4096
  blocks : List Int := []
  catalog : List CatalogRow := []
  cursor : List CatalogRow := []
  current : CatalogRow := {}
  sources : List (List Char) := []
  sourceCursor : List (List Char) := []
  stuck : Bool := false
  deriving DecidableEq, Repr

/-- The fake driver manager.  With `stuck` set, `SQLFetch` and
`SQLDataSources(..., SQL_FETCH_NEXT, ...)` fail with `SQL_ERROR` on every call. -/
def fake : Odbc Fake where
  SQLAllocHandle s t _ :=
    (⟨SQL_SUCCESS, s.next⟩, { s with next := s.next + 1, live := s.live ++ [(t, s.next)] })
  SQLSetEnvAttr s _ := (SQL_SUCCESS, s)
  SQLSetConnectAttr s _ := (SQL_SUCCESS, s)
  SQLConnect s _ dsn := (if dsn = "BAD".toList then SQL_ERROR else SQL_SUCCESS, s)
  SQLDriverConnect s _ connStr :=
    (if connStr = "BAD".toList then SQL_ERROR else SQL_SUCCESS, s)
  SQLDisconnect s _ := (SQL_SUCCESS, s)
  SQLFreeHandle s t handle :=
    (if (t, handle) ∈ s.live then SQL_SUCCESS else SQL_INVALID_HANDLE,
     { s with live := s.live.erase (t, handle) })
  SQLSetStmtAttr s _ := (SQL_SUCCESS, s)
  SQLExecDirect s _ sql := (if sql = "BAD".toList then SQL_ERROR else SQL_SUCCESS, s)
  SQLTables s _ tableType :=
    (SQL_SUCCESS, { s with cursor := s.catalog.filter (fun r => r.kind == tableType) })
  SQLColumns s _ _ := (SQL_SUCCESS, { s with cursor := s.catalog })
  SQLCloseCursor s _ := (SQL_SUCCESS, { s with cursor := [] })
  SQLFetch s _ :=
    if s.stuck then (SQL_ERROR, s)
    else
      match s.cursor with
      | [] => (SQL_NO_DATA, s)
      | r :: rest => (r.fetch, { s with cursor := rest, current := r })
  SQLGetDataChar s _ _ := (⟨s.current.ret, s.current.ind, s.current.name⟩, s)
  SQLGetDataShort s _ _ := (⟨s.current.ret, s.current.ind, s.current.dataType⟩, s)
  SQLGetDataLong s _ _ := (⟨s.current.ret, s.current.ind, s.current.colSize⟩, s)
  SQLDataSources s _ direction :=
    if s.stuck && direction == .SQL_FETCH_NEXT then ((SQL_ERROR, []), s)
    else
      match (match direction with
        | .SQL_FETCH_FIRST => s.sources
        | .SQL_FETCH_NEXT => s.sourceCursor) with
      | [] => ((SQL_NO_DATA, []), { s with sourceCursor := [] })
      | n :: rest => ((SQL_SUCCESS, n ++ [Char.ofNat 0]), { s with sourceCursor := rest })
  malloc s := (s.nextBlock, { s with nextBlock := s.nextBlock + 16,
                                     blocks := s.blocks ++ [s.nextBlock] })
  free s block := { s with blocks := s.blocks.erase block }

/-- The memory in which the block at `ptr` reads as `cs`. -/
def memoryWith (ptr : Int) (cs : ConnectionState) : Memory :=
  fun p => if p = ptr then cs else { hEnv := SQL_NULL_HANDLE, hDbc := SQL_NULL_HANDLE }

/-- The fake driver manager after `connect("TESTDB")`: environment handle 1, connection
handle 2, connection record at address 4096. -/
def testdb : Opened Fake :=
  connect fake "TESTDB".toList (World.start {})

/-- The memory in which the connection record of `testdb` reads as written by `connect`,
whether or not the block has been released since. -/
def testdbMemory : Memory :=
  memoryWith testdb.connectionPtr testdb.connectionState

/-! ## The catalog functions: `listTables`, `listColumns`, `listDatabases`

Their loops run until the driver reports `SQL_NO_DATA`, which it may never do, so each loop
carries fuel and yields `none` when the fuel runs out.  The `int` counters `rowCount` and
`i` are counted in `Nat` and wrapped to 32 bits where they are used, which is the same as
wrapping every increment. -/

/-- The result array being filled: the array (`none` when `NewObjectArray` returned
`NULL`), the indices passed to `SetObjectArrayElement` so far, and the world. -/
structure Fill (ω α : Type) where
  result : Option (List (Option α))
  writes : List Int
  world : World ω

/-- JNI `NewObjectArray(env, rowCount, cls, NULL)` for an element class other than
`Object`. -/
def newArray (h : Host) (α : Type) (len : Int) : Option (List (Option α)) :=
  (NewObjectArray h len).map (fun a => a.map (fun _ => none))

/-- JNI `SetObjectArrayElement(env, result, i, v)` with a non-null `v`: the element is
stored when `0 ≤ i < length`; otherwise nothing is stored and an
`ArrayIndexOutOfBoundsException` is pending. -/
def Fill.store {ω α : Type} (f : Fill ω α) (i : Int) (v : α) : Fill ω α :=
  match f.result with
  | none => { f with writes := f.writes ++ [i] }
  | some a =>
    if 0 ≤ i ∧ i < a.length then
      { f with result := some (a.set i.toNat (some v)), writes := f.writes ++ [i] }
    else
      { f with writes := f.writes ++ [i], world := { f.world with pending := true } }

/-- The counting loop of `listTables` and `listColumns`:
`while ((ret = SQLFetch(hStmt)) != SQL_NO_DATA) { rowCount++; }`. -/
def countRows {ω : Type} (m : Odbc ω) (hStmt : Handle) :
    Nat → World ω → Nat → Option (Nat × World ω)
  | 0, _, _ => none
  | fuel + 1, w, rowCount =>
    let r := m.SQLFetch w.st hStmt
    let w1 := w.native (.SQLFetch hStmt) r.2
    if r.1 ≠ SQL_NO_DATA then countRows m hStmt fuel w1 (rowCount + 1)
    else some (rowCount, w1)

/-- The body of the populate loop of `listTables`, entered in world `w` after a fetch that
did not report `SQL_NO_DATA`: read column 3 as text into the 256-byte buffer,
`check_error`, store the string of the buffer at `i`. -/
def tablesBody {ω : Type} (m : Odbc ω) (hStmt : Handle) (f : Fill ω (List Char)) (w : World ω)
    (i : Nat) : Fill ω (List Char) :=
  let g := m.SQLGetDataChar w.st hStmt 3
  let w1 := (w.native (.SQLGetData hStmt 3) g.2).check_error g.1.ret .SQL_HANDLE_STMT hStmt
  ({ f with world := w1 }).store (wrapS 32 i) (cString g.1.buf)

/-- The populate loop of `listTables`:
`while ((ret = SQLFetch(hStmt)) != SQL_NO_DATA) { ...; i++; }`. -/
def tablesLoop {ω : Type} (m : Odbc ω) (hStmt : Handle) :
    Nat → Fill ω (List Char) → Nat → Option (Fill ω (List Char))
  | 0, _, _ => none
  | fuel + 1, f, i =>
    let r := m.SQLFetch f.world.st hStmt
    let w1 := f.world.native (.SQLFetch hStmt) r.2
    if r.1 ≠ SQL_NO_DATA then tablesLoop m hStmt fuel (tablesBody m hStmt f w1 i) (i + 1)
    else some { f with world := w1 }

/-- The first part of `listTables`: `init_statement`,
`SQLTables(hStmt, NULL, 0, NULL, 0, NULL, 0, "TABLE", SQL_NTS)`, `check_error`.  It yields
the statement handle and the world. -/
def openTables {ω : Type} (m : Odbc ω) (hDbc : Handle) (w : World ω) : Handle × World ω :=
  let i := init_statement m hDbc w
  let r := m.SQLTables i.2.st i.1 "TABLE".toList
  (i.1, (i.2.native (.SQLTables i.1 "TABLE".toList) r.2).check_error r.1 .SQL_HANDLE_STMT i.1)

/-- Between the passes of `listTables`: `SQLCloseCursor` and the same `SQLTables` again, neither
status being tested. -/
def reopenTables {ω : Type} (m : Odbc ω) (hStmt : Handle) (w : World ω) : World ω :=
  let c := m.SQLCloseCursor w.st hStmt
  let w1 := w.native (.SQLCloseCursor hStmt) c.2
  let r := m.SQLTables w1.st hStmt "TABLE".toList
  w1.native (.SQLTables hStmt "TABLE".toList) r.2

/-- The function `Java_odbcbridge_ODBCBridge_listTables`. -/
def listTables {ω : Type} (m : Odbc ω) (h : Host) (mem : Memory) (connectionPtr : Int)
    (fuel : Nat) (w : World ω) : Option (Fill ω (List Char)) :=
  let o := openTables m (mem connectionPtr).hDbc w
  match countRows m o.1 fuel o.2 0 with
  | none => none
  | some (rowCount, w1) =>
    let result := newArray h (List Char) (wrapS 32 rowCount)
    let w2 := reopenTables m o.1 { w1 with pending := w1.pending || result.isNone }
    match tablesLoop m o.1 fuel { result := result, writes := [], world := w2 } 0 with
    | none => none
    | some f =>
      let r := m.SQLFreeHandle f.world.st .SQL_HANDLE_STMT o.1
      some { f with world := f.world.native (.SQLFreeHandle .SQL_HANDLE_STMT o.1) r.2 }

/-- The three reads of the populate loop of `listColumns`, none of them tested: column 4
as text, column 5 as `SQL_C_SSHORT`, column 7 as `SQL_C_SLONG`; and the `ODBCField` built
from the three variables. -/
def readColumn {ω : Type} (m : Odbc ω) (hStmt : Handle) (w : World ω) : ODBCField × World ω :=
  let n := m.SQLGetDataChar w.st hStmt 4
  let w1 := w.native (.SQLGetData hStmt 4) n.2
  let t := m.SQLGetDataShort w1.st hStmt 5
  let w2 := w1.native (.SQLGetData hStmt 5) t.2
  let z := m.SQLGetDataLong w2.st hStmt 7
  let w3 := w2.native (.SQLGetData hStmt 7) z.2
  ({ name := cString n.1.buf, type := t.1.buf, size := z.1.buf }, w3)

/-- The body of the populate loop of `listColumns`, entered in world `w` after a fetch
that did not report `SQL_NO_DATA`: read the three columns and store the field at `i`. -/
def columnsBody {ω : Type} (m : Odbc ω) (hStmt : Handle) (f : Fill ω ODBCField) (w : World ω)
    (i : Nat) : Fill ω ODBCField :=
  let c := readColumn m hStmt w
  ({ f with world := c.2 }).store (wrapS 32 i) c.1

/-- The populate loop of `listColumns`:
`while ((ret = SQLFetch(hStmt)) != SQL_NO_DATA) { ...; i++ }`. -/
def columnsLoop {ω : Type} (m : Odbc ω) (hStmt : Handle) :
    Nat → Fill ω ODBCField → Nat → Option (Fill ω ODBCField)
  | 0, _, _ => none
  | fuel + 1, f, i =>
    let r := m.SQLFetch f.world.st hStmt
    let w1 := f.world.native (.SQLFetch hStmt) r.2
    if r.1 ≠ SQL_NO_DATA then columnsLoop m hStmt fuel (columnsBody m hStmt f w1 i) (i + 1)
    else some { f with world := w1 }

/-- The first part of `listColumns`: `init_statement`, `SQLColumns`, `check_error`. -/
def openColumns {ω : Type} (m : Odbc ω) (hDbc : Handle) (tableName : List Char) (w : World ω) :
    Handle × World ω :=
  let i := init_statement m hDbc w
  let r := m.SQLColumns i.2.st i.1 tableName
  (i.1, (i.2.native (.SQLColumns i.1 tableName) r.2).check_error r.1 .SQL_HANDLE_STMT i.1)

/-- Between the passes of `listColumns`: `SQLCloseCursor` and `SQLColumns` again. -/
def reopenColumns {ω : Type} (m : Odbc ω) (hStmt : Handle) (tableName : List Char)
    (w : World ω) : World ω :=
  let c := m.SQLCloseCursor w.st hStmt
  let w1 := w.native (.SQLCloseCursor hStmt) c.2
  let r := m.SQLColumns w1.st hStmt tableName
  w1.native (.SQLColumns hStmt tableName) r.2

/-- The function `Java_odbcbridge_ODBCBridge_listColumns`.  `found` tells whether the
lookups of the class `odbcbridge/ODBCField` and of its constructor succeed; when one
fails the function returns `NULL` at once, with the exception of the lookup pending and
the statement not released. -/
def listColumns {ω : Type} (m : Odbc ω) (h : Host) (found : Bool) (mem : Memory)
    (connectionPtr : Int) (tableName : List Char) (fuel : Nat) (w : World ω) :
    Option (Fill ω ODBCField) :=
  let o := openColumns m (mem connectionPtr).hDbc tableName w
  match countRows m o.1 fuel o.2 0 with
  | none => none
  | some (rowCount, w1) =>
    if found then
      let result := newArray h ODBCField (wrapS 32 rowCount)
      let w2 := reopenColumns m o.1 tableName { w1 with pending := w1.pending || result.isNone }
      match columnsLoop m o.1 fuel { result := result, writes := [], world := w2 } 0 with
      | none => none
      | some f =>
        let r := m.SQLFreeHandle f.world.st .SQL_HANDLE_STMT o.1
        some { f with world := f.world.native (.SQLFreeHandle .SQL_HANDLE_STMT o.1) r.2 }
    else some { result := none, writes := [], world := { w1 with pending := true } }

/-- The counting loop of `listDatabases`:
`while (SQLDataSources(hEnv, SQL_FETCH_NEXT, ...) != SQL_NO_DATA) { rowCount++; }`. -/
def countSources {ω : Type} (m : Odbc ω) (hEnv : Handle) :
    Nat → World ω → Nat → Option (Nat × World ω)
  | 0, _, _ => none
  | fuel + 1, w, rowCount =>
    let r := m.SQLDataSources w.st hEnv .SQL_FETCH_NEXT
    let w1 := w.native (.SQLDataSources hEnv .SQL_FETCH_NEXT) r.2
    if r.1.1 ≠ SQL_NO_DATA then countSources m hEnv fuel w1 (rowCount + 1)
    else some (rowCount, w1)

/-- The body of the populate loop of `listDatabases`, entered in world `w` after a call
that did not report `SQL_NO_DATA` and left `dsnName` in the name buffer: `i++`, then store
the string of the buffer at `i`. -/
def sourcesBody {ω : Type} (f : Fill ω (List Char)) (w : World ω) (dsnName : List Char)
    (i : Nat) : Fill ω (List Char) :=
  ({ f with world := w }).store (wrapS 32 (i + 1)) (cString dsnName)

/-- The populate loop of `listDatabases`:
`while (SQLDataSources(hEnv, SQL_FETCH_NEXT, ...) != SQL_NO_DATA) { i++; ... }`. -/
def sourcesLoop {ω : Type} (m : Odbc ω) (hEnv : Handle) :
    Nat → Fill ω (List Char) → Nat → Option (Fill ω (List Char))
  | 0, _, _ => none
  | fuel + 1, f, i =>
    let r := m.SQLDataSources f.world.st hEnv .SQL_FETCH_NEXT
    let w1 := f.world.native (.SQLDataSources hEnv .SQL_FETCH_NEXT) r.2
    if r.1.1 ≠ SQL_NO_DATA then sourcesLoop m hEnv fuel (sourcesBody f w1 r.1.2 i) (i + 1)
    else some { f with world := w1 }

/-- The test `ret == SQL_SUCCESS || ret == SQL_SUCCESS_WITH_INFO` of `listDatabases`. -/
def succeeded (ret : Int) : Bool :=
  decide (ret = SQL_SUCCESS) || decide (ret = SQL_SUCCESS_WITH_INFO)

/-- The function `Java_odbcbridge_ODBCBridge_listDatabases`. -/
def listDatabases {ω : Type} (m : Odbc ω) (h : Host) (fuel : Nat) (w : World ω) :
    Option (Fill ω (List Char)) :=
  let e := setup_environment m w
  let r := m.SQLDataSources e.2.st e.1 .SQL_FETCH_FIRST
  let w1 := e.2.native (.SQLDataSources e.1 .SQL_FETCH_FIRST) r.2
  match (if succeeded r.1.1 then countSources m e.1 fuel w1 1 else some (0, w1)) with
  | none => none
  | some (rowCount, w2) =>
    let result := newArray h (List Char) (wrapS 32 rowCount)
    let r2 := m.SQLDataSources w2.st e.1 .SQL_FETCH_FIRST
    let w3 := ({ w2 with pending := w2.pending || result.isNone }).native
      (.SQLDataSources e.1 .SQL_FETCH_FIRST) r2.2
    let start : Fill ω (List Char) := { result := result, writes := [], world := w3 }
    match (if succeeded r2.1.1 then
        sourcesLoop m e.1 fuel (start.store 0 (cString r2.1.2)) 0
      else some start) with
    | none => none
    | some f =>
      let x := m.SQLFreeHandle f.world.st .SQL_HANDLE_ENV e.1
      some { f with world := f.world.native (.SQLFreeHandle .SQL_HANDLE_ENV e.1) x.2 }

/-- The fake driver manager with the catalog `users`, `orders` and the data sources
`TESTDB`, `SALES`, after `connect("TESTDB")`. -/
def shop : Fake :=
  { testdb.world.st with
    catalog :=
      [{ name := "users".toList ++ [Char.ofNat 0], ind := 5, dataType := SQL_VARCHAR,
         colSize := 50 },
       { name := "orders".toList ++ [Char.ofNat 0], ind := 6, dataType := SQL_INTEGER,
         colSize := 10 }]
    sources := ["TESTDB".toList, "SALES".toList] }

/-- The catalog of `shop` with a fetch failing with `SQL_ERROR` between its two rows. -/
def brokenShop : Fake :=
  { testdb.world.st with
    catalog :=
      [{ name := "users".toList ++ [Char.ofNat 0], ind := 5 },
       { fetch := SQL_ERROR, ret := SQL_ERROR, name := "users".toList ++ [Char.ofNat 0] },
       { name := "orders".toList ++ [Char.ofNat 0], ind := 6 }] }

/-- A driver manager on which every `SQLFetch` and every further `SQLDataSources` fails
with `SQL_ERROR`. -/
def stuckShop : Fake :=
  { shop with stuck := true }

/-- From state `s`, the fetch call `fetch` reports a row `n` times and then `SQL_NO_DATA`,
leaving the state `t`. -/
def Counts {ω : Type} (fetch : ω → Int × ω) : Nat → ω → ω → Prop
  | 0, s, t => (fetch s).1 = SQL_NO_DATA ∧ (fetch s).2 = t
  | n + 1, s, t => (fetch s).1 ≠ SQL_NO_DATA ∧ Counts fetch n (fetch s).2 t

/-- From state `s`, a populate pass is served the rows `rows`: for each of them `fetch`
reports a row and `read` then yields it, and after the last one `fetch` reports
`SQL_NO_DATA`, leaving the state `t`. -/
def Serves {ω α : Type} (fetch : ω → Int × ω) (read : ω → α × ω) : List α → ω → ω → Prop
  | [], s, t => (fetch s).1 = SQL_NO_DATA ∧ (fetch s).2 = t
  | v :: vs, s, t =>
    (fetch s).1 ≠ SQL_NO_DATA ∧ (read (fetch s).2).1 = v ∧
      Serves fetch read vs (read (fetch s).2).2 t

/-- From state `s`, `SQLDataSources(hEnv, SQL_FETCH_NEXT, ...)` yields the name buffers
`names` and then `SQL_NO_DATA`, leaving the state `t`. -/
def Lists {ω : Type} (m : Odbc ω) (hEnv : Handle) : List (List Char) → ω → ω → Prop
  | [], s, t =>
    (m.SQLDataSources s hEnv .SQL_FETCH_NEXT).1.1 = SQL_NO_DATA ∧
      (m.SQLDataSources s hEnv .SQL_FETCH_NEXT).2 = t
  | v :: vs, s, t =>
    (m.SQLDataSources s hEnv .SQL_FETCH_NEXT).1.1 ≠ SQL_NO_DATA ∧
      (m.SQLDataSources s hEnv .SQL_FETCH_NEXT).1.2 = v ∧
      Lists m hEnv vs (m.SQLDataSources s hEnv .SQL_FETCH_NEXT).2 t

/-- The array and the write log after storing the values `vs` at the indices `i`,
`i + 1`, ... (each index wrapped to 32 bits). -/
def storeAll {ω α : Type} (f : Fill ω α) : Nat → List α → Fill ω α
  | _, [] => f
  | i, v :: vs => storeAll (f.store (wrapS 32 i) v) (i + 1) vs

/-- The three reads of `readColumn` as a function of the driver state alone: the field they
yield and the state they leave. -/
def readColumnAt {ω : Type} (m : Odbc ω) (hStmt : Handle) (s : ω) : ODBCField × ω :=
  ((readColumn m hStmt (World.start s)).1, (readColumn m hStmt (World.start s)).2.st)

/-- What the driver leaves in the caller's variables for one row of the populate pass of
`listColumns`: the reads of column 4 as text, of column 5 as `SQL_C_SSHORT` and of column 7
as `SQL_C_SLONG`. -/
structure ColumnReads where
  name : GetData (List Char)
  type : GetData Int
  size : GetData Int

/-- From state `s`, a populate pass of `listColumns` is served the rows `rows`: for each
of them `SQLFetch` reports a row and the reads of columns 4, 5 and 7, in this order, yield
its three parts; after the last one `SQLFetch` reports `SQL_NO_DATA`, leaving the state
`t`. -/
def ServesColumns {ω : Type} (m : Odbc ω) (hStmt : Handle) : List ColumnReads → ω → ω → Prop
  | [], s, t => (m.SQLFetch s hStmt).1 = SQL_NO_DATA ∧ (m.SQLFetch s hStmt).2 = t
  | v :: vs, s, t =>
    (m.SQLFetch s hStmt).1 ≠ SQL_NO_DATA ∧
      (m.SQLGetDataChar (m.SQLFetch s hStmt).2 hStmt 4).1 = v.name ∧
      (m.SQLGetDataShort (m.SQLGetDataChar (m.SQLFetch s hStmt).2 hStmt 4).2 hStmt 5).1
        = v.type ∧
      (m.SQLGetDataLong
        (m.SQLGetDataShort (m.SQLGetDataChar (m.SQLFetch s hStmt).2 hStmt 4).2 hStmt 5).2
        hStmt 7).1 = v.size ∧
      ServesColumns m hStmt vs
        (m.SQLGetDataLong
          (m.SQLGetDataShort (m.SQLGetDataChar (m.SQLFetch s hStmt).2 hStmt 4).2 hStmt 5).2
          hStmt 7).2 t

/-- From state `s`, an enumeration pass of `listDatabases` is served the name buffers
`names`: if there is none, the status of `SQLDataSources(hEnv, SQL_FETCH_FIRST, ...)` is
neither `SQL_SUCCESS` nor `SQL_SUCCESS_WITH_INFO`; otherwise it is one of the two, the call
yields the first name, and `SQL_FETCH_NEXT` then lists the others.  The pass leaves the
state `t`. -/
def SourcesServed {ω : Type} (m : Odbc ω) (hEnv : Handle) : List (List Char) → ω → ω → Prop
  | [], s, t =>
    ((m.SQLDataSources s hEnv .SQL_FETCH_FIRST).1.1 ≠ SQL_SUCCESS ∧
        (m.SQLDataSources s hEnv .SQL_FETCH_FIRST).1.1 ≠ SQL_SUCCESS_WITH_INFO) ∧
      (m.SQLDataSources s hEnv .SQL_FETCH_FIRST).2 = t
  | v :: vs, s, t =>
    ((m.SQLDataSources s hEnv .SQL_FETCH_FIRST).1.1 = SQL_SUCCESS ∨
        (m.SQLDataSources s hEnv .SQL_FETCH_FIRST).1.1 = SQL_SUCCESS_WITH_INFO) ∧
      (m.SQLDataSources s hEnv .SQL_FETCH_FIRST).1.2 = v ∧
      Lists m hEnv vs (m.SQLDataSources s hEnv .SQL_FETCH_FIRST).2 t

/-- The statement handle that `SQLAllocHandle(SQL_HANDLE_STMT, hDbc, &hStmt)` yields in
state `s`. -/
def statementOf {ω : Type} (m : Odbc ω) (hDbc : Handle) (s : ω) : Handle :=
  (m.SQLAllocHandle s .SQL_HANDLE_STMT hDbc).1.handle

/-- The driver state after `SQLAllocHandle(SQL_HANDLE_STMT, hDbc, &hStmt)` and
`SQLSetStmtAttr(hStmt, ...)`, called in state `s`. -/
def stateOfStatement {ω : Type} (m : Odbc ω) (hDbc : Handle) (s : ω) : ω :=
  (m.SQLSetStmtAttr (m.SQLAllocHandle s .SQL_HANDLE_STMT hDbc).2
    (m.SQLAllocHandle s .SQL_HANDLE_STMT hDbc).1.handle).2

/-- The catalog seen by `listTables` on the connection `hDbc` from state `s`: on the
statement allocated there, the request `SQLTables(..., "TABLE")` followed by the counting
pass reports `n` rows, and the same request repeated after `SQLCloseCursor` serves the
populate pass the reads `rows` of column 3. -/
def TablesPasses {ω : Type} (m : Odbc ω) (hDbc : Handle) (s : ω) (n : Nat)
    (rows : List (GetData (List Char))) : Prop :=
  ∃ t1 t2,
    Counts (fun t => m.SQLFetch t (statementOf m hDbc s)) n
      (m.SQLTables (stateOfStatement m hDbc s) (statementOf m hDbc s) "TABLE".toList).2 t1 ∧
    Serves (fun t => m.SQLFetch t (statementOf m hDbc s))
      (fun t => m.SQLGetDataChar t (statementOf m hDbc s) 3) rows
      (m.SQLTables (m.SQLCloseCursor t1 (statementOf m hDbc s)).2 (statementOf m hDbc s)
        "TABLE".toList).2 t2

/-- The statement allocation and the first `SQLTables` request of `listTables` return
`SQL_SUCCESS` or `SQL_SUCCESS_WITH_INFO`. -/
def TablesRequestSucceeds {ω : Type} (m : Odbc ω) (hDbc : Handle) (s : ω) : Prop :=
  ((m.SQLAllocHandle s .SQL_HANDLE_STMT hDbc).1.ret = SQL_SUCCESS ∨
      (m.SQLAllocHandle s .SQL_HANDLE_STMT hDbc).1.ret = SQL_SUCCESS_WITH_INFO) ∧
    ((m.SQLTables (stateOfStatement m hDbc s) (statementOf m hDbc s) "TABLE".toList).1
        = SQL_SUCCESS ∨
      (m.SQLTables (stateOfStatement m hDbc s) (statementOf m hDbc s) "TABLE".toList).1
        = SQL_SUCCESS_WITH_INFO)

/-- The catalog seen by `listColumns` for `tableName` on the connection `hDbc` from state
`s`: on the statement allocated there, the request `SQLColumns(..., tableName, ...)`
followed by the counting pass reports `n` rows, and the same request repeated after
`SQLCloseCursor` serves the populate pass the rows `rows`. -/
def ColumnsPasses {ω : Type} (m : Odbc ω) (hDbc : Handle) (tableName : List Char) (s : ω)
    (n : Nat) (rows : List ColumnReads) : Prop :=
  ∃ t1 t2,
    Counts (fun t => m.SQLFetch t (statementOf m hDbc s)) n
      (m.SQLColumns (stateOfStatement m hDbc s) (statementOf m hDbc s) tableName).2 t1 ∧
    ServesColumns m (statementOf m hDbc s) rows
      (m.SQLColumns (m.SQLCloseCursor t1 (statementOf m hDbc s)).2 (statementOf m hDbc s)
        tableName).2 t2

/-- The statement allocation and the first `SQLColumns` request of `listColumns` return
`SQL_SUCCESS` or `SQL_SUCCESS_WITH_INFO`. -/
def ColumnsRequestSucceeds {ω : Type} (m : Odbc ω) (hDbc : Handle) (tableName : List Char)
    (s : ω) : Prop :=
  ((m.SQLAllocHandle s .SQL_HANDLE_STMT hDbc).1.ret = SQL_SUCCESS ∨
      (m.SQLAllocHandle s .SQL_HANDLE_STMT hDbc).1.ret = SQL_SUCCESS_WITH_INFO) ∧
    ((m.SQLColumns (stateOfStatement m hDbc s) (statementOf m hDbc s) tableName).1
        = SQL_SUCCESS ∨
      (m.SQLColumns (stateOfStatement m hDbc s) (statementOf m hDbc s) tableName).1
        = SQL_SUCCESS_WITH_INFO)

/-- The environment handle that `SQLAllocHandle(SQL_HANDLE_ENV, SQL_NULL_HANDLE, &hEnv)`
yields in state `s`. -/
def environmentOf {ω : Type} (m : Odbc ω) (s : ω) : Handle :=
  (m.SQLAllocHandle s .SQL_HANDLE_ENV SQL_NULL_HANDLE).1.handle

/-- The data sources seen by `listDatabases` from state `s`: on the environment allocated
there and set up by `SQLSetEnvAttr`, the counting pass is served the name buffers `counted`
and the populate pass the name buffers `names`. -/
def SourcesPasses {ω : Type} (m : Odbc ω) (s : ω) (counted names : List (List Char)) : Prop :=
  ∃ t1 t2,
    SourcesServed m (environmentOf m s) counted
      (m.SQLSetEnvAttr (m.SQLAllocHandle s .SQL_HANDLE_ENV SQL_NULL_HANDLE).2
        (environmentOf m s)).2 t1 ∧
    SourcesServed m (environmentOf m s) names t1 t2

/-- The environment allocation and `SQLSetEnvAttr` of `listDatabases` return `SQL_SUCCESS`
or `SQL_SUCCESS_WITH_INFO`. -/
def EnvironmentSucceeds {ω : Type} (m : Odbc ω) (s : ω) : Prop :=
  ((m.SQLAllocHandle s .SQL_HANDLE_ENV SQL_NULL_HANDLE).1.ret = SQL_SUCCESS ∨
      (m.SQLAllocHandle s .SQL_HANDLE_ENV SQL_NULL_HANDLE).1.ret = SQL_SUCCESS_WITH_INFO) ∧
    ((m.SQLSetEnvAttr (m.SQLAllocHandle s .SQL_HANDLE_ENV SQL_NULL_HANDLE).2
        (environmentOf m s)).1 = SQL_SUCCESS ∨
      (m.SQLSetEnvAttr (m.SQLAllocHandle s .SQL_HANDLE_ENV SQL_NULL_HANDLE).2
        (environmentOf m s)).1 = SQL_SUCCESS_WITH_INFO)

/-- The catalog of `shop` with a view between its two tables. -/
def mixedShop : Fake :=
  { testdb.world.st with
    catalog :=
      [{ name := "users".toList ++ [Char.ofNat 0], ind := 5, dataType := SQL_VARCHAR,
         colSize := 50 },
       { name := "recent".toList ++ [Char.ofNat 0], ind := 6, kind := "VIEW".toList },
       { name := "orders".toList ++ [Char.ofNat 0], ind := 6, dataType := SQL_INTEGER,
         colSize := 10 }]
    sources := ["TESTDB".toList, "SALES".toList] }

/-- The state of the fake driver manager after `listTables` has run on `mixedShop`. -/
def mixedShopAfterTables : Fake :=
  match listTables fake plainHost testdbMemory testdb.connectionPtr 10
      (World.start mixedShop) with
  | some f => f.world.st
  | none => mixedShop

/-- The reads of columns 4, 5 and 7 the catalog of `shop` serves. -/
def shopColumns : List ColumnReads :=
  [⟨⟨SQL_SUCCESS, 5, "users".toList ++ [Char.ofNat 0]⟩, ⟨SQL_SUCCESS, 5, SQL_VARCHAR⟩,
    ⟨SQL_SUCCESS, 5, 50⟩⟩,
   ⟨⟨SQL_SUCCESS, 6, "orders".toList ++ [Char.ofNat 0]⟩, ⟨SQL_SUCCESS, 6, SQL_INTEGER⟩,
    ⟨SQL_SUCCESS, 6, 10⟩⟩]

/-- The name buffers the data source list of `shop` serves. -/
def shopSources : List (List Char) :=
  ["TESTDB".toList ++ [Char.ofNat 0], "SALES".toList ++ [Char.ofNat 0]]

/-- The reads of column 3 the catalog of `shop` serves. -/
def shopNames : List (GetData (List Char)) :=
  [⟨SQL_SUCCESS, 5, "users".toList ++ [Char.ofNat 0]⟩,
   ⟨SQL_SUCCESS, 6, "orders".toList ++ [Char.ofNat 0]⟩]

/-! ## Lemmas on the column loop -/

theorem columnLoop_length {σ : Type} (h : Host) (d : Driver σ) :
    ∀ (k i : Nat) (l : Loop σ), (columnLoop h d k i l).rowArray.length = l.rowArray.length := by
  intro k
  induction k with
  | zero => intro i l; rfl
  | succ k ih => intro i l; simp [columnLoop, ih]

theorem columnLoop_st {σ : Type} (h : Host) (d : Driver σ) :
    ∀ (k i : Nat) (l : Loop σ), (columnLoop h d k i l).st = stateAfterColumns h d k i l.st := by
  intro k
  induction k with
  | zero => intro i l; rfl
  | succ k ih => intro i l; simp [columnLoop, stateAfterColumns, ih]

theorem columnLoop_get_below {σ : Type} (h : Host) (d : Driver σ) :
    ∀ (k i : Nat) (l : Loop σ) (j : Nat), j < i - 1 →
      (columnLoop h d k i l).rowArray[j]? = l.rowArray[j]? := by
  intro k
  induction k with
  | zero => intro i l j _; rfl
  | succ k ih =>
    intro i l j hj
    have h1 : j < (i + 1) - 1 := by omega
    have h2 : i - 1 ≠ j := by omega
    simp only [columnLoop]
    rw [ih (i + 1) _ j h1]
    simp [List.getElem?_set, h2]

theorem columnLoop_get {σ : Type} (h : Host) (d : Driver σ) :
    ∀ (k i : Nat) (l : Loop σ) (j : Nat), i ≤ j + 1 → j + 1 < i + k → j < l.rowArray.length →
      (columnLoop h d k i l).rowArray[j]?
        = some (fetchColumn h d (stateAfterColumns h d (j + 1 - i) i l.st) (j + 1)).value := by
  intro k
  induction k with
  | zero => intro i l j h1 h2 _; omega
  | succ k ihk =>
    intro i l j h1 h2 h3
    simp only [columnLoop]
    by_cases hij : j + 1 = i
    · have hlt : j < (i + 1) - 1 := by omega
      rw [columnLoop_get_below h d k (i + 1) _ j hlt]
      have e1 : i - 1 = j := by omega
      have e2 : j + 1 - i = 0 := by omega
      simp [e1, e2, stateAfterColumns, List.getElem?_set, h3, hij]
    · have e : j + 1 - i = (j + 1 - (i + 1)) + 1 := by omega
      rw [ihk (i + 1) _ j (by omega) (by omega) (by simpa using h3), e]
      simp [stateAfterColumns]

/-! ## Lemmas on the dispatch -/

@[simp] theorem familyOf_SQL_INTEGER : familyOf SQL_INTEGER = .integer := by decide

@[simp] theorem familyOf_SQL_SMALLINT : familyOf SQL_SMALLINT = .integer := by decide

@[simp] theorem familyOf_SQL_TINYINT : familyOf SQL_TINYINT = .integer := by decide

@[simp] theorem familyOf_SQL_BIGINT : familyOf SQL_BIGINT = .bigint := by decide

@[simp] theorem familyOf_SQL_REAL : familyOf SQL_REAL = .real := by decide

@[simp] theorem familyOf_SQL_FLOAT : familyOf SQL_FLOAT = .real := by decide

@[simp] theorem familyOf_SQL_DOUBLE : familyOf SQL_DOUBLE = .double := by decide

@[simp] theorem familyOf_SQL_NUMERIC : familyOf SQL_NUMERIC = .decimal := by decide

@[simp] theorem familyOf_SQL_DECIMAL : familyOf SQL_DECIMAL = .decimal := by decide

@[simp] theorem familyOf_SQL_BINARY : familyOf SQL_BINARY = .binary := by decide

@[simp] theorem familyOf_SQL_VARBINARY : familyOf SQL_VARBINARY = .binary := by decide

@[simp] theorem familyOf_SQL_LONGVARBINARY : familyOf SQL_LONGVARBINARY = .binary := by decide

@[simp] theorem familyOf_SQL_CHAR : familyOf SQL_CHAR = .character := by decide

@[simp] theorem familyOf_SQL_VARCHAR : familyOf SQL_VARCHAR = .character := by decide

@[simp] theorem familyOf_SQL_LONGVARCHAR : familyOf SQL_LONGVARCHAR = .character := by decide

@[simp] theorem familyOf_SQL_WCHAR : familyOf SQL_WCHAR = .character := by decide

@[simp] theorem familyOf_SQL_WVARCHAR : familyOf SQL_WVARCHAR = .character := by decide

@[simp] theorem familyOf_SQL_WLONGVARCHAR : familyOf SQL_WLONGVARCHAR = .character := by decide

@[simp] theorem familyOf_SQL_DATE : familyOf SQL_DATE = .date := by decide

@[simp] theorem familyOf_SQL_TYPE_DATE : familyOf SQL_TYPE_DATE = .date := by decide

@[simp] theorem familyOf_SQL_TIME : familyOf SQL_TIME = .time := by decide

@[simp] theorem familyOf_SQL_TYPE_TIME : familyOf SQL_TYPE_TIME = .time := by decide

@[simp] theorem familyOf_SQL_TIMESTAMP : familyOf SQL_TIMESTAMP = .timestamp := by decide

@[simp] theorem familyOf_SQL_TYPE_TIMESTAMP : familyOf SQL_TYPE_TIMESTAMP = .timestamp := by decide

/-! ## Lemmas on `fetchArray` -/

theorem fetchArray_some {σ : Type} (h : Host) (d : Driver σ) (s : σ) (row : List JRef)
    (hr : (fetchArray h d s).result = some row) :
    (d.SQLNumResultCols s).1.ret = SQL_SUCCESS ∧
    0 ≤ (d.SQLNumResultCols s).1.columnCount ∧
    h.arrayAlloc (d.SQLNumResultCols s).1.columnCount.toNat = true ∧
    ((d.SQLFetch (d.SQLNumResultCols s).2).1 = SQL_SUCCESS
      ∨ (d.SQLFetch (d.SQLNumResultCols s).2).1 = SQL_SUCCESS_WITH_INFO) ∧
    row = (columnLoop h d (d.SQLNumResultCols s).1.columnCount.toNat 1
      { rowArray := List.replicate (d.SQLNumResultCols s).1.columnCount.toNat none
        pending := false
        st := stateAfterFetch d s
        calls := [.numResultCols, .fetch] }).rowArray := by
  unfold fetchArray at hr
  simp only [] at hr
  split at hr
  · simp at hr
  · rename_i hret
    split at hr
    · simp at hr
    · rename_i arr harr
      unfold NewObjectArray at harr
      split at harr
      · simp at harr
      · rename_i hneg
        split at harr
        · rename_i halloc
          simp only [Option.some.injEq] at harr
          split at hr
          · simp at hr
          · split at hr
            · simp at hr
            · rename_i hnd herr
              simp only [Option.some.injEq] at hr
              refine ⟨by simpa using hret, by omega, halloc, ?_, ?_⟩
              · by_contra hne
                exact herr ⟨fun e => hne (Or.inl e), fun e => hne (Or.inr e)⟩
              · rw [← hr, ← harr]; rfl
        · simp at harr

theorem fetchArray_get {σ : Type} (h : Host) (d : Driver σ) (s : σ) (row : List JRef)
    (hr : (fetchArray h d s).result = some row) (i : Nat) (h1 : 1 ≤ i)
    (hn : (i : Int) ≤ (d.SQLNumResultCols s).1.columnCount) :
    row[i - 1]? = some (fetchColumn h d (stateAtColumn h d s i) i).value := by
  obtain ⟨_, hpos, _, _, hrow⟩ := fetchArray_some h d s row hr
  have hlt : i ≤ (d.SQLNumResultCols s).1.columnCount.toNat := by omega
  rw [hrow, columnLoop_get h d _ 1 _ (i - 1) (by omega) (by omega) (by simp; omega)]
  have e1 : i - 1 + 1 = i := by omega
  have e2 : i - 1 + 1 - 1 = i - 1 := by omega
  simp only [e1, e2, stateAtColumn]

theorem fetchArray_length {σ : Type} (h : Host) (d : Driver σ) (s : σ) (row : List JRef)
    (hr : (fetchArray h d s).result = some row) :
    (row.length : Int) = (d.SQLNumResultCols s).1.columnCount := by
  obtain ⟨_, hpos, _, _, hrow⟩ := fetchArray_some h d s row hr
  rw [hrow, columnLoop_length]
  simp [hpos]

theorem filledBlock_length (h : Host) (n : Nat) (stored : List Nat) :
    (filledBlock h n stored).length = n := by
  simp [filledBlock]

theorem filledBlock_of_length (h : Host) (stored : List Nat) :
    filledBlock h stored.length stored = stored := by
  apply List.ext_getElem
  · simp [filledBlock]
  · intro k h1 h2
    have hk : k < stored.length := by simpa [filledBlock] using h1
    simp [filledBlock, List.getElem?_eq_getElem hk]

theorem fetchArray_of_fetched {σ : Type} (h : Host) (d : Driver σ) (s : σ)
    (hnc : (d.SQLNumResultCols s).1.ret = SQL_SUCCESS)
    (hpos : 0 ≤ (d.SQLNumResultCols s).1.columnCount)
    (halloc : h.arrayAlloc (d.SQLNumResultCols s).1.columnCount.toNat = true)
    (hfetch : (d.SQLFetch (d.SQLNumResultCols s).2).1 = SQL_SUCCESS
      ∨ (d.SQLFetch (d.SQLNumResultCols s).2).1 = SQL_SUCCESS_WITH_INFO) :
    fetchArray h d s =
      (let l := columnLoop h d (d.SQLNumResultCols s).1.columnCount.toNat 1
          { rowArray := List.replicate (d.SQLNumResultCols s).1.columnCount.toNat none
            pending := false
            st := stateAfterFetch d s
            calls := [.numResultCols, .fetch] }
       { result := some l.rowArray, pending := l.pending, st := l.st, calls := l.calls }) := by
  have hnd : (d.SQLFetch (d.SQLNumResultCols s).2).1 ≠ SQL_NO_DATA := by
    rcases hfetch with e | e <;> rw [e] <;> decide
  have hok : ¬ ((d.SQLFetch (d.SQLNumResultCols s).2).1 ≠ SQL_SUCCESS
      ∧ (d.SQLFetch (d.SQLNumResultCols s).2).1 ≠ SQL_SUCCESS_WITH_INFO) := by
    rintro ⟨a, b⟩
    rcases hfetch with e | e
    · exact a e
    · exact b e
  have hneg : ¬ (d.SQLNumResultCols s).1.columnCount < 0 := by omega
  simp only [fetchArray, NewObjectArray, hnc, hneg, halloc, hnd, hok, stateAfterFetch]
  simp

theorem familyOf_decimal (dataType : Int) (hf : familyOf dataType = .decimal) :
    dataType = SQL_NUMERIC ∨ dataType = SQL_DECIMAL := by
  unfold familyOf at hf
  split_ifs at hf with h1 h2 h3 h4 h5
  exact h5

theorem fetchColumn_pending {σ : Type} (h : Host) (d : Driver σ) (s : σ) (i : Nat)
    (halloc : ∀ n, h.byteArrayAlloc n = true)
    (hdec : ∀ t j, ((d.SQLDescribeCol t j).1 = SQL_NUMERIC ∨ (d.SQLDescribeCol t j).1 = SQL_DECIMAL) →
      h.bigDecimal (cString (d.SQLGetData (d.SQLDescribeCol t j).2 j .SQL_C_CHAR 256).1.buf)
        = true) :
    (fetchColumn h d s i).pending = false := by
  unfold fetchColumn
  cases hf : familyOf (d.SQLDescribeCol s i).1 <;> simp only [hf]
  · rw [hdec s i (familyOf_decimal _ hf)]
    simp
  · split_ifs
    · trivial
    · exact absurd (halloc _) (by assumption)
    · trivial

theorem columnLoop_pending {σ : Type} (h : Host) (d : Driver σ)
    (halloc : ∀ n, h.byteArrayAlloc n = true)
    (hdec : ∀ t j, ((d.SQLDescribeCol t j).1 = SQL_NUMERIC ∨ (d.SQLDescribeCol t j).1 = SQL_DECIMAL) →
      h.bigDecimal (cString (d.SQLGetData (d.SQLDescribeCol t j).2 j .SQL_C_CHAR 256).1.buf)
        = true) :
    ∀ (k i : Nat) (l : Loop σ), l.pending = false → (columnLoop h d k i l).pending = false := by
  intro k
  induction k with
  | zero => intro i l hl; exact hl
  | succ k ih =>
    intro i l hl
    simp only [columnLoop]
    apply ih
    simp [hl, fetchColumn_pending h d l.st i halloc hdec]

theorem columnLoop_pending_mono {σ : Type} (h : Host) (d : Driver σ) :
    ∀ (k i : Nat) (l : Loop σ), l.pending = true → (columnLoop h d k i l).pending = true := by
  intro k
  induction k with
  | zero => intro i l hl; exact hl
  | succ k ih =>
    intro i l hl
    simp only [columnLoop]
    apply ih
    simp [hl]

theorem columnLoop_pending_at {σ : Type} (h : Host) (d : Driver σ) :
    ∀ (k i : Nat) (l : Loop σ) (j : Nat), i ≤ j → j < i + k →
      (fetchColumn h d (stateAfterColumns h d (j - i) i l.st) j).pending = true →
      (columnLoop h d k i l).pending = true := by
  intro k
  induction k with
  | zero => intro i l j h1 h2 _; omega
  | succ k ih =>
    intro i l j h1 h2 hp
    simp only [columnLoop]
    by_cases hij : j = i
    · subst hij
      apply columnLoop_pending_mono
      have e : j - j = 0 := by omega
      rw [e] at hp
      simp only [stateAfterColumns] at hp
      simp [hp]
    · apply ih (i + 1) _ j (by omega) (by omega)
      have e : j - i = (j - (i + 1)) + 1 := by omega
      rw [e] at hp
      simpa [stateAfterColumns] using hp

theorem fetchArray_pending_at {σ : Type} (h : Host) (d : Driver σ) (s : σ) (row : List JRef)
    (hr : (fetchArray h d s).result = some row) (i : Nat) (h1 : 1 ≤ i)
    (hn : (i : Int) ≤ (d.SQLNumResultCols s).1.columnCount)
    (hp : (fetchColumn h d (stateAtColumn h d s i) i).pending = true) :
    (fetchArray h d s).pending = true := by
  obtain ⟨hnc, hpos, halloc, hfetch, _⟩ := fetchArray_some h d s row hr
  rw [fetchArray_of_fetched h d s hnc hpos halloc hfetch]
  exact columnLoop_pending_at h d _ 1 _ i h1 (by omega) hp

theorem cString_of_no_nul (text : List Char) (hnul : ∀ c ∈ text, c ≠ Char.ofNat 0) :
    cString text = text := by
  unfold cString
  rw [List.takeWhile_eq_self_iff]
  intro c hc
  simpa using hnul c hc

theorem cString_terminated (text rest : List Char) (hnul : ∀ c ∈ text, c ≠ Char.ofNat 0) :
    cString (text ++ Char.ofNat 0 :: rest) = text := by
  induction text with
  | nil => simp [cString]
  | cons a t ih =>
    have ha : a ≠ Char.ofNat 0 := hnul a (by simp)
    have ht : ∀ c ∈ t, c ≠ Char.ofNat 0 := fun c hc => hnul c (by simp [hc])
    have ih2 := ih ht
    unfold cString at ih2 ⊢
    simp [List.takeWhile_cons, ha, ih2]

/-! ## Lemmas on the fallback text -/

theorem toDigitsCore_length_le : ∀ (fuel n k : Nat) (ds : List Char), 0 < k → n < 10 ^ k →
    (Nat.toDigitsCore 10 fuel n ds).length ≤ ds.length + k := by
  intro fuel
  induction fuel with
  | zero => intro n k ds _ _; simp [Nat.toDigitsCore]
  | succ f ih =>
    intro n k ds hk hn
    simp only [Nat.toDigitsCore]
    split_ifs with h0
    · simp; omega
    · have hk2 : 2 ≤ k := by
        by_contra hlt
        have : k = 1 := by omega
        subst this
        have : n / 10 = 0 := Nat.div_eq_of_lt (by simpa using hn)
        exact h0 this
      have hdiv : n / 10 < 10 ^ (k - 1) := by
        have e : 10 ^ k = 10 ^ (k - 1) * 10 := by
          rw [← pow_succ]; congr 1; omega
        rw [e] at hn
        exact Nat.div_lt_of_lt_mul (by rw [mul_comm]; exact hn)
      have := ih (n / 10) (k - 1) (Nat.digitChar (n % 10) :: ds) (by omega) hdiv
      simp at this
      omega

theorem digitChar_ne_nul (m : Nat) (hm : m < 10) : Nat.digitChar m ≠ Char.ofNat 0 := by
  interval_cases m <;> decide

theorem toDigitsCore_no_nul : ∀ (fuel n : Nat) (ds : List Char),
    (∀ c ∈ ds, c ≠ Char.ofNat 0) → ∀ c ∈ Nat.toDigitsCore 10 fuel n ds, c ≠ Char.ofNat 0 := by
  intro fuel
  induction fuel with
  | zero => intro n ds hds c hc; exact hds c (by simpa [Nat.toDigitsCore] using hc)
  | succ f ih =>
    intro n ds hds c hc
    have hd : ∀ c ∈ Nat.digitChar (n % 10) :: ds, c ≠ Char.ofNat 0 := by
      intro c hc
      rcases List.mem_cons.mp hc with rfl | hc
      · exact digitChar_ne_nul _ (Nat.mod_lt _ (by decide))
      · exact hds c hc
    simp only [Nat.toDigitsCore] at hc
    split_ifs at hc with h0
    · exact hd c hc
    · exact ih _ _ hd c hc

theorem fmtD_length_le (n : Int) (hlo : -32768 ≤ n) (hhi : n ≤ 32767) :
    (fmtD n).length ≤ 6 := by
  unfold fmtD
  split_ifs with h0
  · have := toDigitsCore_length_le (n.toNat + 1) n.toNat 5 [] (by decide) (by omega)
    simp only [Nat.toDigits]
    simp at this
    omega
  · have := toDigitsCore_length_le ((-n).toNat + 1) (-n).toNat 5 [] (by decide) (by omega)
    simp only [Nat.toDigits, List.length_cons]
    simp at this
    omega

theorem fmtD_no_nul (n : Int) : ∀ c ∈ fmtD n, c ≠ Char.ofNat 0 := by
  intro c hc
  unfold fmtD at hc
  split_ifs at hc with h0
  · exact toDigitsCore_no_nul _ _ [] (by simp) c hc
  · rcases List.mem_cons.mp hc with rfl | hc
    · decide
    · exact toDigitsCore_no_nul _ _ [] (by simp) c hc

theorem typeInfo_fits (n : Int) (hlo : -32768 ≤ n) (hhi : n ≤ 32767) :
    typeInfo n = "Tipo no manejado: ".toList ++ fmtD n ∧ (typeInfo n).length + 1 ≤ 128 := by
  have hlen := fmtD_length_le n hlo hhi
  have hl : ("Tipo no manejado: ".toList ++ fmtD n).length ≤ 127 := by
    have : "Tipo no manejado: ".toList.length = 18 := by decide
    rw [List.length_append, this]
    omega
  have e : typeInfo n = "Tipo no manejado: ".toList ++ fmtD n := by
    unfold typeInfo snprintf
    exact List.take_of_length_le hl
  exact ⟨e, by rw [e]; omega⟩

theorem label_no_nul : ∀ c ∈ "Tipo no manejado: ".toList, c ≠ Char.ofNat 0 := by
  decide

theorem cString_label (n : Int) :
    cString ("Tipo no manejado: ".toList ++ fmtD n) = "Tipo no manejado: ".toList ++ fmtD n := by
  apply cString_of_no_nul
  intro c hc
  rcases List.mem_append.mp hc with hc | hc
  · exact label_no_nul c hc
  · exact fmtD_no_nul n c hc

/-! ## Lemmas on the call trace -/

theorem fetchColumn_calls_column {σ : Type} (h : Host) (d : Driver σ) (s : σ) (j : Nat)
    (c : Call) (hc : c ∈ (fetchColumn h d s j).calls) :
    c = .describeCol j ∨ ∃ t n, c = .getData j t n := by
  unfold fetchColumn at hc
  cases hf : familyOf (d.SQLDescribeCol s j).1 <;> simp only [hf] at hc
  case binary =>
    split_ifs at hc
    all_goals
      simp only [List.mem_cons, List.mem_singleton, List.not_mem_nil, or_false] at hc
      rcases hc with rfl | rfl | rfl <;> simp
  all_goals
    simp only [List.mem_cons, List.mem_singleton, List.not_mem_nil, or_false] at hc
    rcases hc with rfl | rfl <;> simp

theorem fetchColumn_calls_unrecognised {σ : Type} (h : Host) (d : Driver σ) (s : σ) (j : Nat)
    (hun : ¬ recognised (d.SQLDescribeCol s j).1) :
    (fetchColumn h d s j).calls = [.describeCol j] := by
  unfold recognised at hun
  simp only [not_or] at hun
  simp [fetchColumn, familyOf, hun]

theorem columnLoop_calls {σ : Type} (h : Host) (d : Driver σ) :
    ∀ (k i : Nat) (l : Loop σ) (c : Call), c ∈ (columnLoop h d k i l).calls →
      c ∈ l.calls ∨ ∃ j, i ≤ j ∧ j < i + k ∧
        c ∈ (fetchColumn h d (stateAfterColumns h d (j - i) i l.st) j).calls := by
  intro k
  induction k with
  | zero => intro i l c hc; exact Or.inl hc
  | succ k ih =>
    intro i l c hc
    simp only [columnLoop] at hc
    rcases ih (i + 1) _ c hc with hin | ⟨j, h1, h2, h3⟩
    · rcases List.mem_append.mp hin with hl | hcol
      · exact Or.inl hl
      · exact Or.inr ⟨i, le_refl _, by omega, by simpa [stateAfterColumns] using hcol⟩
    · refine Or.inr ⟨j, by omega, by omega, ?_⟩
      have e : j - i = (j - (i + 1)) + 1 := by omega
      rw [e]
      simpa [stateAfterColumns] using h3

/-! ## Lemmas on forward-only cursors -/

theorem fetchColumn_cursor {σ : Type} {h : Host} {d : Driver σ} {rowsLeft : σ → Nat}
    {good : σ → Prop} (hc : ForwardCursor h d rowsLeft good) (s : σ) (i : Nat) (hg : good s) :
    good (fetchColumn h d s i).st ∧ rowsLeft (fetchColumn h d s i).st = rowsLeft s := by
  have hd := hc.describeCol s i hg
  unfold fetchColumn
  cases hf : familyOf (d.SQLDescribeCol s i).1 <;> simp only [hf]
  case unhandled => exact hd
  case binary =>
    have hp := hc.getData (d.SQLDescribeCol s i).2 i .SQL_C_BINARY 0 hd.1
    split_ifs
    · exact ⟨(hc.getData _ i _ _ hp.1).1, ((hc.getData _ i _ _ hp.1).2.trans hp.2).trans hd.2⟩
    · exact ⟨hp.1, hp.2.trans hd.2⟩
    · exact ⟨hp.1, hp.2.trans hd.2⟩
  all_goals exact ⟨(hc.getData _ i _ _ hd.1).1, (hc.getData _ i _ _ hd.1).2.trans hd.2⟩

theorem stateAfterColumns_cursor {σ : Type} {h : Host} {d : Driver σ} {rowsLeft : σ → Nat}
    {good : σ → Prop} (hc : ForwardCursor h d rowsLeft good) :
    ∀ (k i : Nat) (s : σ), good s →
      good (stateAfterColumns h d k i s) ∧ rowsLeft (stateAfterColumns h d k i s) = rowsLeft s := by
  intro k
  induction k with
  | zero => intro i s hg; exact ⟨hg, rfl⟩
  | succ k ih =>
    intro i s hg
    have hcol := fetchColumn_cursor hc s i hg
    have := ih (i + 1) _ hcol.1
    exact ⟨this.1, this.2.trans hcol.2⟩

theorem fetchArray_cursor {σ : Type} {h : Host} {d : Driver σ} {rowsLeft : σ → Nat}
    {good : σ → Prop} (hc : ForwardCursor h d rowsLeft good) (s : σ) (hg : good s) :
    good (fetchArray h d s).st ∧ rowsLeft (fetchArray h d s).st = rowsLeft s - 1 ∧
    (0 < rowsLeft s → ∃ row, (fetchArray h d s).result = some row) ∧
    (rowsLeft s = 0 → (fetchArray h d s).result = none ∧ (fetchArray h d s).pending = false ∧
      (fetchArray h d s).calls = [.numResultCols, .fetch]) := by
  obtain ⟨hnc, hpos, halloc, hg1, hr1⟩ := hc.numResultCols s hg
  have hneg : ¬ (d.SQLNumResultCols s).1.columnCount < 0 := by omega
  by_cases h0 : rowsLeft s = 0
  · obtain ⟨hnd, hg2, hr2⟩ := hc.fetchEnd _ hg1 (by rw [hr1]; exact h0)
    have hst : (fetchArray h d s).st = (d.SQLFetch (d.SQLNumResultCols s).2).2 := by
      simp [fetchArray, NewObjectArray, hnc, hneg, halloc, hnd]
    have hout : (fetchArray h d s).result = none ∧ (fetchArray h d s).pending = false ∧
        (fetchArray h d s).calls = [.numResultCols, .fetch] := by
      simp [fetchArray, NewObjectArray, hnc, hneg, halloc, hnd]
    rw [hst]
    exact ⟨hg2, by simp [hr2, h0], fun hp => by omega, fun _ => hout⟩
  · obtain ⟨hok, hg2, hr2⟩ := hc.fetchRow _ hg1 (by rw [hr1]; omega)
    have e := fetchArray_of_fetched h d s hnc hpos halloc (Or.inl hok)
    rw [e]
    simp only [columnLoop_st]
    have hcur := stateAfterColumns_cursor hc (d.SQLNumResultCols s).1.columnCount.toNat 1
      (stateAfterFetch d s) hg2
    refine ⟨hcur.1, ?_, fun _ => ⟨_, rfl⟩, fun hz => absurd hz h0⟩
    rw [hcur.2]
    unfold stateAfterFetch
    omega

theorem stateAfterCalls_cursor {σ : Type} {h : Host} {d : Driver σ} {rowsLeft : σ → Nat}
    {good : σ → Prop} (hc : ForwardCursor h d rowsLeft good) :
    ∀ (k : Nat) (s : σ), good s →
      good (stateAfterCalls h d k s) ∧ rowsLeft (stateAfterCalls h d k s) = rowsLeft s - k := by
  intro k
  induction k with
  | zero => intro s hg; exact ⟨hg, rfl⟩
  | succ k ih =>
    intro s hg
    obtain ⟨hg1, hr1, _, _⟩ := fetchArray_cursor hc s hg
    have := ih _ hg1
    refine ⟨this.1, ?_⟩
    rw [stateAfterCalls, this.2, hr1]
    omega

theorem scripted_forwardCursor :
    ForwardCursor plainHost scripted (fun s => s.fetches.length) Script.wellBehaved where
  numResultCols := by
    intro s hg
    exact ⟨hg.1, hg.2.1, rfl, hg, rfl⟩
  fetchRow := by
    intro s hg hpos
    rcases s with ⟨cols, fetches, current⟩
    cases fetches with
    | nil => simp at hpos
    | cons f rest =>
      refine ⟨hg.2.2 f (by simp), ⟨hg.1, hg.2.1, fun g hgm => hg.2.2 g ?_⟩, rfl⟩
      exact List.mem_cons_of_mem _ hgm
  fetchEnd := by
    intro s hg h0
    rcases s with ⟨cols, fetches, current⟩
    cases fetches with
    | nil => exact ⟨rfl, hg, rfl⟩
    | cons f rest => simp at h0
  describeCol := by
    intro s i hg
    exact ⟨hg, rfl⟩
  getData := by
    intro s i t n hg
    exact ⟨hg, rfl⟩

/-! ## Lemmas on the temporal arithmetic -/

theorem wrapS_32_of_range (x : Int) (hlo : -2147483648 ≤ x) (hhi : x < 2147483648) :
    wrapS 32 x = x := by
  unfold wrapS
  norm_num
  omega

theorem timeInMillis_exact (t : TIME_STRUCT) (hh : t.hour ≤ 23) (hm : t.minute ≤ 59)
    (hs : t.second ≤ 59) :
    timeInMillis t = ((t.hour : Int) * 3600 + (t.minute : Int) * 60 + (t.second : Int)) * 1000 := by
  unfold timeInMillis
  rw [wrapS_32_of_range ((t.hour : Int) * 3600) (by omega) (by omega),
    wrapS_32_of_range ((t.minute : Int) * 60) (by omega) (by omega),
    wrapS_32_of_range ((t.hour : Int) * 3600 + (t.minute : Int) * 60) (by omega) (by omega),
    wrapS_32_of_range ((t.hour : Int) * 3600 + (t.minute : Int) * 60 + (t.second : Int))
      (by omega) (by omega),
    wrapS_32_of_range _ (by omega) (by omega)]

theorem wrapS_32_eq (x : Int) :
    wrapS 32 x = (x + 2147483648) % 4294967296 - 2147483648 := by
  unfold wrapS
  norm_num

theorem check_error_of_success (ret : Int)
    (hok : ret = SQL_SUCCESS ∨ ret = SQL_SUCCESS_WITH_INFO) : check_error ret = false := by
  rcases hok with rfl | rfl <;> decide

theorem wrapS_64_of_range (x : Int) (hlo : -9223372036854775808 ≤ x)
    (hhi : x < 9223372036854775808) : wrapS 64 x = x := by
  unfold wrapS
  norm_num
  omega

theorem timestampInMillis_exact (h : Host) (ts : TIMESTAMP_STRUCT)
    (hlo : -1000000000000000 ≤ h.mktime (tmTimestamp ts))
    (hhi : h.mktime (tmTimestamp ts) ≤ 1000000000000000)
    (hfr : ts.fraction < 4294967296) :
    timestampInMillis h ts
      = 1000 * h.mktime (tmTimestamp ts) + ((ts.fraction / 1000000 : Nat) : Int) := by
  have hq : ts.fraction / 1000000 ≤ 4294 := by omega
  unfold timestampInMillis
  rw [wrapS_64_of_range (h.mktime (tmTimestamp ts) * 1000) (by omega) (by omega),
    wrapS_64_of_range _ (by omega) (by omega)]
  ring

/-! ## Lemmas on `fetchFields` -/

theorem fieldsLoop_st {σ : Type} (d : FullDriver σ) :
    ∀ (k i : Nat) (l : FieldsLoop σ), (fieldsLoop d k i l).st = stateAfterFields d k i l.st := by
  intro k
  induction k with
  | zero => intro i l; rfl
  | succ k ih => intro i l; simp [fieldsLoop, stateAfterFields, ih]

theorem fieldsLoop_calls {σ : Type} (d : FullDriver σ) :
    ∀ (k i : Nat) (l : FieldsLoop σ) (c : Call), c ∈ (fieldsLoop d k i l).calls →
      c ∈ l.calls ∨ ∃ j, c = .describeCol j := by
  intro k
  induction k with
  | zero => intro i l c hc; exact Or.inl hc
  | succ k ih =>
    intro i l c hc
    simp only [fieldsLoop] at hc
    rcases ih (i + 1) _ c hc with hin | hj
    · rcases List.mem_append.mp hin with hl | hcol
      · exact Or.inl hl
      · exact Or.inr ⟨i, by simpa using hcol⟩
    · exact Or.inr hj

theorem fieldsLoop_some {σ : Type} (d : FullDriver σ) :
    ∀ (k i : Nat) (l : FieldsLoop σ) (a : List (Option ODBCField)), l.fieldArray = some a →
      ∃ b, (fieldsLoop d k i l).fieldArray = some b ∧ b.length = a.length ∧
        (∀ j, j < i - 1 → b[j]? = a[j]?) ∧
        (∀ j, i ≤ j + 1 → j + 1 < i + k → j < a.length →
          b[j]? = some (some (odbcField
            (d.SQLDescribeColInto (stateAfterFields d (j + 1 - i) i l.st) (j + 1)).1))) := by
  intro k
  induction k with
  | zero =>
    intro i l a ha
    exact ⟨a, ha, rfl, fun _ _ => rfl, fun j h1 h2 _ => by omega⟩
  | succ k ih =>
    intro i l a ha
    simp only [fieldsLoop]
    obtain ⟨b, hb, hlen, hbelow, hget⟩ := ih (i + 1)
      { fieldArray := l.fieldArray.map
          (fun a => a.set (i - 1) (some (odbcField (d.SQLDescribeColInto l.st i).1)))
        pending := l.pending || check_error (d.SQLDescribeColInto l.st i).1.ret
        st := (d.SQLDescribeColInto l.st i).2
        calls := l.calls ++ [.describeCol i] }
      (a.set (i - 1) (some (odbcField (d.SQLDescribeColInto l.st i).1))) (by simp [ha])
    refine ⟨b, hb, by simpa using hlen, ?_, ?_⟩
    · intro j hj
      rw [hbelow j (by omega)]
      have hne : i - 1 ≠ j := by omega
      simp [List.getElem?_set, hne]
    · intro j h1 h2 h3
      by_cases hij : j + 1 = i
      · rw [hbelow j (by omega)]
        have e1 : i - 1 = j := by omega
        have e2 : j + 1 - i = 0 := by omega
        simp [e1, e2, stateAfterFields, List.getElem?_set, h3, hij]
      · have e : j + 1 - i = (j + 1 - (i + 1)) + 1 := by omega
        rw [hget j (by omega) (by omega) (by simpa using h3), e]
        simp [stateAfterFields]

theorem stateAfterFields_metadataOnly {σ : Type} {d : FullDriver σ} (hm : MetadataOnly d) :
    ∀ (k i : Nat) (s : σ), stateAfterFields d k i s = s := by
  intro k
  induction k with
  | zero => intro i s; rfl
  | succ k ih => intro i s; simp [stateAfterFields, hm.describeColInto, ih]

theorem fieldsLoop_sameShape {σ : Type} {d : FullDriver σ} (hm : MetadataOnly d) :
    ∀ (k i : Nat) (l m : FieldsLoop σ), l.fieldArray = m.fieldArray →
      (∀ j, (d.SQLDescribeColInto l.st j).1 = (d.SQLDescribeColInto m.st j).1) →
      (fieldsLoop d k i l).fieldArray = (fieldsLoop d k i m).fieldArray := by
  intro k
  induction k with
  | zero => intro i l m ha _; exact ha
  | succ k ih =>
    intro i l m ha hs
    simp only [fieldsLoop]
    apply ih
    · simp [ha, hs i]
    · intro j
      simpa [hm.describeColInto] using hs j

theorem fieldsLoop_pending {σ : Type} (d : FullDriver σ) :
    ∀ (k i : Nat) (l : FieldsLoop σ), l.pending = false →
      (∀ j, i ≤ j → j < i + k →
        check_error (d.SQLDescribeColInto (stateAfterFields d (j - i) i l.st) j).1.ret = false) →
      (fieldsLoop d k i l).pending = false := by
  intro k
  induction k with
  | zero => intro i l hl _; exact hl
  | succ k ih =>
    intro i l hl hok
    simp only [fieldsLoop]
    apply ih
    · have := hok i (le_refl _) (by omega)
      simp only [Nat.sub_self, stateAfterFields] at this
      simp [hl, this]
    · intro j h1 h2
      have := hok j (by omega) (by omega)
      have e : j - i = (j - (i + 1)) + 1 := by omega
      rw [e] at this
      simpa [stateAfterFields] using this

theorem described_metadataOnly : MetadataOnly described where
  numResultCols := by intro s; rfl
  describeColInto := by intro s i; rfl

/-! ## Lemmas on the build copy -/

theorem familyOf_character (dataType : Int)
    (hf : dataType = SQL_CHAR ∨ dataType = SQL_VARCHAR ∨ dataType = SQL_LONGVARCHAR
      ∨ dataType = SQL_WCHAR ∨ dataType = SQL_WVARCHAR ∨ dataType = SQL_WLONGVARCHAR) :
    familyOf dataType = .character := by
  rcases hf with rfl | rfl | rfl | rfl | rfl | rfl <;> simp

theorem fetchColumn_character {σ : Type} (h : Host) (d : Driver σ) (s : σ) (i : Nat)
    (hdesc : (d.SQLDescribeCol s i).2 = s)
    (hf : familyOf (d.SQLDescribeCol s i).1 = .character)
    (hret : (d.SQLGetData s i .SQL_C_CHAR 256).1.ret = SQL_SUCCESS) :
    (fetchColumn h d s i).value
        = (if (d.SQLGetData s i .SQL_C_CHAR 256).1.ind = SQL_NULL_DATA then none
           else some (NewStringUTF (d.SQLGetData s i .SQL_C_CHAR 256).1.buf)) ∧
      (fetchColumn h d s i).st = (d.SQLGetData s i .SQL_C_CHAR 256).2 := by
  unfold fetchColumn
  simp only [hf, hdesc, readOk, hret]
  by_cases hind : (d.SQLGetData s i .SQL_C_CHAR 256).1.ind = SQL_NULL_DATA <;> simp [hind]

theorem buildLoop_eq_columnLoop {σ : Type} (h : Host) (d : Driver σ)
    (hdesc : ∀ s i, (d.SQLDescribeCol s i).2 = s) :
    ∀ (k j : Nat) (b : BuildLoop σ) (l : Loop σ), b.row = some l.rowArray → b.st = l.st →
      (∀ m, m < k →
        familyOf (d.SQLDescribeCol (stateAfterColumns h d m (j + 1) l.st) (j + 1 + m)).1
          = .character ∧
        (d.SQLGetData (stateAfterColumns h d m (j + 1) l.st) (j + 1 + m) .SQL_C_CHAR 256).1.ret
          = SQL_SUCCESS) →
      (buildLoop d k j b).row = some (columnLoop h d k (j + 1) l).rowArray := by
  intro k
  induction k with
  | zero => intro j b l hrow _ _; exact hrow
  | succ k ih =>
    intro j b l hrow hst hall
    have h0 := hall 0 (by omega)
    simp only [stateAfterColumns, Nat.add_zero] at h0
    obtain ⟨hval, hnext⟩ := fetchColumn_character h d l.st (j + 1) (hdesc _ _) h0.1 h0.2
    simp only [buildLoop, columnLoop]
    apply ih
    · simp [hrow, hst, hval]
    · simp [hst, hnext]
    · intro m hm
      have := hall (m + 1) (by omega)
      simp only [stateAfterColumns] at this
      have e : j + 1 + (m + 1) = j + 1 + 1 + m := by omega
      rw [e] at this
      exact this

/-! ## Lemmas on the catalog functions -/

theorem Fill.store_length {ω α : Type} (f : Fill ω α) (i : Int) (v : α) (a : List (Option α))
    (ha : f.result = some a) : ∃ b, (f.store i v).result = some b ∧ b.length = a.length := by
  unfold Fill.store
  rw [ha]
  simp only []
  split_ifs
  · exact ⟨_, rfl, by simp⟩
  · exact ⟨_, rfl, rfl⟩

theorem Fill.store_writes {ω α : Type} (f : Fill ω α) (i : Int) (v : α) :
    (f.store i v).writes = f.writes ++ [i] := by
  unfold Fill.store
  cases f.result with
  | none => rfl
  | some a =>
    simp only []
    split_ifs <;> rfl

theorem Fill.store_world {ω α : Type} (f : Fill ω α) (i : Int) (v : α) :
    (f.store i v).world.st = f.world.st ∧ (f.store i v).world.calls = f.world.calls := by
  unfold Fill.store
  cases f.result with
  | none => exact ⟨rfl, rfl⟩
  | some a =>
    simp only []
    split_ifs <;> exact ⟨rfl, rfl⟩

theorem Fill.store_result_world {ω α : Type} (f : Fill ω α) (w : World ω) (i : Int) (v : α) :
    (({ f with world := w }).store i v).result = (f.store i v).result ∧
      (({ f with world := w }).store i v).writes = (f.store i v).writes := by
  unfold Fill.store
  cases f.result with
  | none => exact ⟨rfl, rfl⟩
  | some a =>
    simp only []
    split_ifs <;> exact ⟨rfl, rfl⟩


theorem storeAll_writes {ω α : Type} :
    ∀ (vs : List α) (f : Fill ω α) (i : Nat),
      (storeAll f i vs).writes
        = f.writes ++ (List.range vs.length).map (fun k => wrapS 32 ((i + k : Nat) : Int)) := by
  intro vs
  induction vs with
  | nil => intro f i; simp [storeAll]
  | cons v vs ih =>
    intro f i
    have hfun : ∀ k, wrapS 32 ((i + 1 + k : Nat) : Int) = wrapS 32 ((i + (k + 1) : Nat) : Int) := by
      intro k
      have e : i + 1 + k = i + (k + 1) := by omega
      rw [e]
    rw [storeAll, ih, Fill.store_writes, List.length_cons, List.range_succ_eq_map,
      List.map_cons, List.map_map, List.append_assoc, List.singleton_append, Nat.add_zero]
    simp only [Function.comp_def, hfun, Nat.succ_eq_add_one, Nat.add_zero]

theorem storeAll_result {ω α : Type} :
    ∀ (vs done : List α) (f : Fill ω α) (n : Nat), done.length + vs.length = n →
      n < 2147483648 →
      f.result = some (done.map some ++ List.replicate (n - done.length) none) →
      (storeAll f done.length vs).result = some ((done ++ vs).map some) := by
  intro vs
  induction vs with
  | nil =>
    intro done f n hn _ hf
    have h0 : n - done.length = 0 := by
      simp only [List.length_nil, Nat.add_zero] at hn
      omega
    rw [storeAll, hf, h0]
    simp
  | cons v vs ih =>
    intro done f n hn hlt hf
    rw [List.length_cons] at hn
    have hw : wrapS 32 (done.length : Int) = done.length :=
      wrapS_32_of_range _ (by omega) (by omega)
    have hlen : (done.map some ++ List.replicate (n - done.length) (none : Option α)).length = n := by
      rw [List.length_append, List.length_map, List.length_replicate]
      omega
    have hstore : (f.store (wrapS 32 (done.length : Int)) v).result
        = some ((done ++ [v]).map some ++ List.replicate (n - (done ++ [v]).length) none) := by
      have hb : (0 : Int) ≤ (done.length : Int) ∧ (done.length : Int)
          < ((done.map some ++ List.replicate (n - done.length) (none : Option α)).length : Int) := by
        rw [hlen]
        constructor <;> omega
      have e : n - done.length = (n - (done ++ [v]).length) + 1 := by
        rw [List.length_append, List.length_singleton]
        omega
      unfold Fill.store
      rw [hf, hw]
      simp only [hb, and_self, if_true, Int.toNat_ofNat]
      rw [e, List.replicate_succ,
        List.set_append_right _ _ (by rw [List.length_map])]
      simp
    have hi := ih (done ++ [v]) (f.store (wrapS 32 (done.length : Int)) v) n
      (by rw [List.length_append, List.length_singleton]; omega) hlt hstore
    rw [List.length_append, List.length_singleton] at hi
    rw [storeAll, hi]
    simp

theorem Fill.store_congr {ω α : Type} (f g : Fill ω α) (i : Int) (v : α)
    (hr : f.result = g.result) (hw : f.writes = g.writes) :
    (f.store i v).result = (g.store i v).result ∧ (f.store i v).writes = (g.store i v).writes := by
  unfold Fill.store
  rw [← hr, ← hw]
  cases f.result with
  | none => exact ⟨rfl, rfl⟩
  | some a =>
    simp only []
    split_ifs <;> exact ⟨rfl, rfl⟩

theorem storeAll_congr {ω α : Type} :
    ∀ (vs : List α) (f g : Fill ω α) (i : Nat), f.result = g.result → f.writes = g.writes →
      (storeAll f i vs).result = (storeAll g i vs).result ∧
        (storeAll f i vs).writes = (storeAll g i vs).writes := by
  intro vs
  induction vs with
  | nil => intro f g i hr hw; exact ⟨hr, hw⟩
  | cons v vs ih =>
    intro f g i hr hw
    obtain ⟨h1, h2⟩ := Fill.store_congr f g (wrapS 32 i) v hr hw
    exact ih _ _ (i + 1) h1 h2

theorem World.check_error_st {ω : Type} (w : World ω) (ret : Int) (t : HandleType)
    (handle : Handle) : (w.check_error ret t handle).st = w.st := by
  unfold World.check_error
  split_ifs <;> rfl

theorem countRows_counts {ω : Type} (m : Odbc ω) (hStmt : Handle) :
    ∀ (n fuel : Nat) (w : World ω) (k : Nat) (t : ω),
      Counts (fun s => m.SQLFetch s hStmt) n w.st t → n < fuel →
      ∃ w1, countRows m hStmt fuel w k = some (k + n, w1) ∧ w1.st = t ∧
        w1.pending = w.pending := by
  intro n
  induction n with
  | zero =>
    intro fuel w k t hc hf
    obtain ⟨f, rfl⟩ : ∃ f, fuel = f + 1 := ⟨fuel - 1, by omega⟩
    obtain ⟨h1, h2⟩ := hc
    refine ⟨w.native (.SQLFetch hStmt) (m.SQLFetch w.st hStmt).2, ?_, h2, rfl⟩
    simp only [] at h1
    simp [countRows, h1]
  | succ n ih =>
    intro fuel w k t hc hf
    obtain ⟨f, rfl⟩ : ∃ f, fuel = f + 1 := ⟨fuel - 1, by omega⟩
    obtain ⟨h1, h2⟩ := hc
    simp only [] at h1
    obtain ⟨w1, hw1, hst, hp⟩ := ih f (w.native (.SQLFetch hStmt) (m.SQLFetch w.st hStmt).2)
      (k + 1) t h2 (by omega)
    refine ⟨w1, ?_, hst, hp⟩
    have e : k + 1 + n = k + (n + 1) := by omega
    simp only [countRows, h1, ne_eq, not_false_eq_true, if_true, hw1, e]

theorem Fill.store_pending {ω α : Type} (f : Fill ω α) (i : Int) (v : α)
    (hb : ∀ a, f.result = some a → 0 ≤ i ∧ i < (a.length : Int)) :
    (f.store i v).world.pending = f.world.pending := by
  unfold Fill.store
  cases hr : f.result with
  | none => rfl
  | some a =>
    simp only [hb a hr, and_self, if_true]

theorem Fill.store_result_some {ω α : Type} (f : Fill ω α) (i : Int) (v : α)
    (b : List (Option α)) (hb : (f.store i v).result = some b) :
    ∃ a, f.result = some a ∧ a.length = b.length := by
  unfold Fill.store at hb
  cases hr : f.result with
  | none => rw [hr] at hb; simp at hb
  | some a =>
    rw [hr] at hb
    simp only [] at hb
    split_ifs at hb
    · simp only [Option.some.injEq] at hb
      exact ⟨a, rfl, by rw [← hb, List.length_set]⟩
    · simp only [Option.some.injEq] at hb
      exact ⟨a, rfl, by rw [hb]⟩

theorem check_error_ok {ω : Type} (w : World ω) (ret : Int) (t : HandleType)
    (handle : Handle) (hok : check_error ret = false) : w.check_error ret t handle = w := by
  unfold World.check_error
  simp [hok]

theorem Fill.store_pending_world {ω α : Type} (f : Fill ω α) (w : World ω) (i : Int) (v : α)
    (hb : ∀ a, f.result = some a → 0 ≤ i ∧ i < (a.length : Int)) :
    (({ f with world := w }).store i v).world.pending = w.pending :=
  Fill.store_pending { f with world := w } i v hb

theorem wrapS_32_index (i : Nat) (n : Nat) (hi : i < n) (hn : n < 2147483648) :
    0 ≤ wrapS 32 (i : Int) ∧ wrapS 32 (i : Int) < (n : Int) := by
  rw [wrapS_32_of_range _ (by omega) (by omega)]
  constructor <;> omega

theorem tablesBody_spec {ω : Type} (m : Odbc ω) (hStmt : Handle) (f : Fill ω (List Char))
    (w : World ω) (i : Nat) :
    (tablesBody m hStmt f w i).world.st = (m.SQLGetDataChar w.st hStmt 3).2 ∧
    (tablesBody m hStmt f w i).result
      = (f.store (wrapS 32 i) (cString (m.SQLGetDataChar w.st hStmt 3).1.buf)).result ∧
    (tablesBody m hStmt f w i).writes
      = (f.store (wrapS 32 i) (cString (m.SQLGetDataChar w.st hStmt 3).1.buf)).writes ∧
    (w.pending = false → check_error (m.SQLGetDataChar w.st hStmt 3).1.ret = false →
      (∀ a, f.result = some a → i < a.length ∧ a.length < 2147483648) →
      (tablesBody m hStmt f w i).world.pending = false) := by
  unfold tablesBody
  simp only []
  refine ⟨?_, (Fill.store_result_world f _ _ _).1, (Fill.store_result_world f _ _ _).2, ?_⟩
  · rw [(Fill.store_world _ _ _).1]
    simp only [World.check_error_st]
    rfl
  · intro hp hok hb
    rw [Fill.store_pending_world f _ _ _
      (fun a ha => wrapS_32_index i a.length (hb a ha).1 (hb a ha).2),
      check_error_ok _ _ _ _ hok]
    exact hp

theorem tablesLoop_serves {ω : Type} (m : Odbc ω) (hStmt : Handle) :
    ∀ (rows : List (GetData (List Char))) (fuel : Nat) (f : Fill ω (List Char)) (i : Nat) (t : ω),
      Serves (fun s => m.SQLFetch s hStmt) (fun s => m.SQLGetDataChar s hStmt 3) rows
        f.world.st t →
      rows.length < fuel →
      ∃ f1, tablesLoop m hStmt fuel f i = some f1 ∧ f1.world.st = t ∧
        f1.result = (storeAll f i (rows.map (fun g => cString g.buf))).result ∧
        f1.writes = (storeAll f i (rows.map (fun g => cString g.buf))).writes ∧
        (f.world.pending = false → (∀ g ∈ rows, check_error g.ret = false) →
          (∀ a, f.result = some a → i + rows.length ≤ a.length ∧ a.length < 2147483648) →
          f1.world.pending = false) := by
  intro rows
  induction rows with
  | nil =>
    intro fuel f i t hs hf
    obtain ⟨k, rfl⟩ : ∃ k, fuel = k + 1 := ⟨fuel - 1, by omega⟩
    obtain ⟨h1, h2⟩ := hs
    simp only [] at h1
    simp only [tablesLoop, h1, ne_eq, not_true_eq_false, if_false]
    exact ⟨_, rfl, h2, rfl, rfl, fun hp _ _ => hp⟩
  | cons g rows ih =>
    intro fuel f i t hs hf
    obtain ⟨k, rfl⟩ : ∃ k, fuel = k + 1 := ⟨fuel - 1, by omega⟩
    obtain ⟨h1, h2, h3⟩ := hs
    simp only [] at h1 h2 h3
    rw [List.length_cons] at hf
    obtain ⟨hbst, hbres, hbwr, hbp⟩ := tablesBody_spec m hStmt f
      (f.world.native (.SQLFetch hStmt) (m.SQLFetch f.world.st hStmt).2) i
    obtain ⟨f1, hf1, hst, hres, hwr, hpend⟩ := ih k
      (tablesBody m hStmt f (f.world.native (.SQLFetch hStmt) (m.SQLFetch f.world.st hStmt).2) i)
      (i + 1) t (by rw [hbst]; exact h3) (by omega)
    refine ⟨f1, ?_, hst, ?_, ?_, ?_⟩
    · simp only [tablesLoop, h1, ne_eq, not_false_eq_true, if_true]
      exact hf1
    · rw [hres, List.map_cons, storeAll, ← h2]
      exact (storeAll_congr _ _ _ _ hbres hbwr).1
    · rw [hwr, List.map_cons, storeAll, ← h2]
      exact (storeAll_congr _ _ _ _ hbres hbwr).2
    · intro hp hok hb
      apply hpend
      · apply hbp hp
        · have := hok g (List.mem_cons_self _ _)
          rw [← h2] at this
          exact this
        · intro a ha
          have := hb a ha
          rw [List.length_cons] at this
          exact ⟨by omega, this.2⟩
      · intro g2 hg2
        exact hok g2 (List.mem_cons_of_mem _ hg2)
      · intro b hbb
        rw [hbres] at hbb
        obtain ⟨a, ha, hlen⟩ := Fill.store_result_some _ _ _ _ hbb
        have := hb a ha
        rw [List.length_cons] at this
        rw [← hlen]
        exact ⟨by omega, this.2⟩

theorem range_map_wrapS (start r : Nat) (hr : start + r ≤ 2147483648) :
    (List.range r).map (fun k => wrapS 32 ((start + k : Nat) : Int))
      = (List.range r).map (fun k => ((start + k : Nat) : Int)) := by
  have hpt : ∀ k ∈ List.range r,
      wrapS 32 ((start + k : Nat) : Int) = ((start + k : Nat) : Int) := by
    intro k hk
    have hlt := List.mem_range.mp hk
    exact wrapS_32_of_range _ (by omega) (by omega)
  exact List.map_congr_left hpt

theorem reopenTables_spec {ω : Type} (m : Odbc ω) (hStmt : Handle) (w : World ω) :
    (reopenTables m hStmt w).st
        = (m.SQLTables (m.SQLCloseCursor w.st hStmt).2 hStmt "TABLE".toList).2 ∧
      (reopenTables m hStmt w).pending = w.pending :=
  ⟨rfl, rfl⟩

theorem newArray_alloc (h : Host) (α : Type) (n : Nat) (hn : n < 2147483648)
    (halloc : h.arrayAlloc n = true) :
    newArray h α (wrapS 32 (n : Int)) = some (List.replicate n none) := by
  rw [wrapS_32_of_range _ (by omega) (by omega)]
  unfold newArray NewObjectArray
  have hneg : ¬ ((n : Int) < 0) := by omega
  simp [hneg, halloc]

theorem listTables_run {ω : Type} (m : Odbc ω) (h : Host) (mem : Memory) (connectionPtr : Int)
    (s : ω) (n : Nat) (rows : List (GetData (List Char))) (t1 t2 : ω)
    (hcount : Counts
      (fun t => m.SQLFetch t (openTables m (mem connectionPtr).hDbc (World.start s)).1) n
      (openTables m (mem connectionPtr).hDbc (World.start s)).2.st t1)
    (hserve : Serves
      (fun t => m.SQLFetch t (openTables m (mem connectionPtr).hDbc (World.start s)).1)
      (fun t => m.SQLGetDataChar t (openTables m (mem connectionPtr).hDbc (World.start s)).1 3)
      rows
      (m.SQLTables (m.SQLCloseCursor t1
        (openTables m (mem connectionPtr).hDbc (World.start s)).1).2
        (openTables m (mem connectionPtr).hDbc (World.start s)).1 "TABLE".toList).2 t2)
    (fuel : Nat) (hfn : n < fuel) (hfk : rows.length < fuel) :
    ∃ f, listTables m h mem connectionPtr fuel (World.start s) = some f ∧
      f.result = (storeAll
        { result := newArray h (List Char) (wrapS 32 n), writes := [], world := World.start s }
        0 (rows.map (fun g => cString g.buf))).result ∧
      f.writes = (List.range rows.length).map (fun k => wrapS 32 ((0 + k : Nat) : Int)) ∧
      ((openTables m (mem connectionPtr).hDbc (World.start s)).2.pending = false →
        n < 2147483648 → h.arrayAlloc n = true → rows.length = n →
        (∀ g ∈ rows, check_error g.ret = false) → f.world.pending = false) := by
  obtain ⟨w1, hw1, hst1, hp1⟩ := countRows_counts m _ n fuel _ 0 t1 hcount hfn
  rw [Nat.zero_add] at hw1
  obtain ⟨f1, hf1, _, hres, hwr, hpend⟩ := tablesLoop_serves m
    (openTables m (mem connectionPtr).hDbc (World.start s)).1 rows fuel
    { result := newArray h (List Char) (wrapS 32 n), writes := []
      world := reopenTables m (openTables m (mem connectionPtr).hDbc (World.start s)).1
        { w1 with pending := w1.pending
            || (newArray h (List Char) (wrapS 32 n)).isNone } } 0 t2
    (by rw [(reopenTables_spec _ _ _).1]; simp only [hst1]; exact hserve) hfk
  simp only [listTables, hw1, hf1]
  refine ⟨_, rfl, ?_, ?_, ?_⟩
  · simp only []
    rw [hres]
    refine (storeAll_congr _ _ _ _ ?_ ?_).1 <;> rfl
  · simp only []
    rw [hwr, storeAll_writes, List.length_map]
    exact List.nil_append _
  · intro hp0 hn halloc hlen hok
    simp only [World.native]
    apply hpend
    · rw [(reopenTables_spec _ _ _).2]
      show (w1.pending || (newArray h (List Char) (wrapS 32 n)).isNone) = false
      rw [hp1, hp0, newArray_alloc h _ n hn halloc]
      rfl
    · exact hok
    · intro a ha
      have ha1 := ha
      dsimp only at ha1
      rw [newArray_alloc h _ n hn halloc] at ha1
      rw [← Option.some.inj ha1, List.length_replicate]
      omega

theorem readColumn_spec {ω : Type} (m : Odbc ω) (hStmt : Handle) (w : World ω) :
    (readColumn m hStmt w).1 = (readColumnAt m hStmt w.st).1 ∧
      (readColumn m hStmt w).2.st = (readColumnAt m hStmt w.st).2 ∧
      (readColumn m hStmt w).2.pending = w.pending :=
  ⟨rfl, rfl, rfl⟩

theorem columnsBody_spec {ω : Type} (m : Odbc ω) (hStmt : Handle) (f : Fill ω ODBCField)
    (w : World ω) (i : Nat) :
    (columnsBody m hStmt f w i).world.st = (readColumnAt m hStmt w.st).2 ∧
    (columnsBody m hStmt f w i).result
      = (f.store (wrapS 32 i) (readColumnAt m hStmt w.st).1).result ∧
    (columnsBody m hStmt f w i).writes
      = (f.store (wrapS 32 i) (readColumnAt m hStmt w.st).1).writes ∧
    (w.pending = false →
      (∀ a, f.result = some a → i < a.length ∧ a.length < 2147483648) →
      (columnsBody m hStmt f w i).world.pending = false) := by
  unfold columnsBody
  simp only []
  refine ⟨?_, (Fill.store_result_world f _ _ _).1, (Fill.store_result_world f _ _ _).2, ?_⟩
  · rw [(Fill.store_world _ _ _).1]
    rfl
  · intro hp hb
    rw [Fill.store_pending_world f _ _ _
      (fun a ha => wrapS_32_index i a.length (hb a ha).1 (hb a ha).2)]
    exact hp

theorem columnsLoop_serves {ω : Type} (m : Odbc ω) (hStmt : Handle) :
    ∀ (rows : List ODBCField) (fuel : Nat) (f : Fill ω ODBCField) (i : Nat) (t : ω),
      Serves (fun s => m.SQLFetch s hStmt) (readColumnAt m hStmt) rows f.world.st t →
      rows.length < fuel →
      ∃ f1, columnsLoop m hStmt fuel f i = some f1 ∧ f1.world.st = t ∧
        f1.result = (storeAll f i rows).result ∧
        f1.writes = (storeAll f i rows).writes ∧
        (f.world.pending = false →
          (∀ a, f.result = some a → i + rows.length ≤ a.length ∧ a.length < 2147483648) →
          f1.world.pending = false) := by
  intro rows
  induction rows with
  | nil =>
    intro fuel f i t hs hf
    obtain ⟨k, rfl⟩ : ∃ k, fuel = k + 1 := ⟨fuel - 1, by omega⟩
    obtain ⟨h1, h2⟩ := hs
    simp only [] at h1
    simp only [columnsLoop, h1, ne_eq, not_true_eq_false, if_false]
    exact ⟨_, rfl, h2, rfl, rfl, fun hp _ => hp⟩
  | cons g rows ih =>
    intro fuel f i t hs hf
    obtain ⟨k, rfl⟩ : ∃ k, fuel = k + 1 := ⟨fuel - 1, by omega⟩
    obtain ⟨h1, h2, h3⟩ := hs
    simp only [] at h1 h2 h3
    rw [List.length_cons] at hf
    obtain ⟨hbst, hbres, hbwr, hbp⟩ := columnsBody_spec m hStmt f
      (f.world.native (.SQLFetch hStmt) (m.SQLFetch f.world.st hStmt).2) i
    obtain ⟨f1, hf1, hst, hres, hwr, hpend⟩ := ih k
      (columnsBody m hStmt f (f.world.native (.SQLFetch hStmt) (m.SQLFetch f.world.st hStmt).2) i)
      (i + 1) t (by rw [hbst]; exact h3) (by omega)
    refine ⟨f1, ?_, hst, ?_, ?_, ?_⟩
    · simp only [columnsLoop, h1, ne_eq, not_false_eq_true, if_true]
      exact hf1
    · rw [hres, storeAll, ← h2]
      exact (storeAll_congr _ _ _ _ hbres hbwr).1
    · rw [hwr, storeAll, ← h2]
      exact (storeAll_congr _ _ _ _ hbres hbwr).2
    · intro hp hb
      apply hpend
      · apply hbp hp
        intro a ha
        have := hb a ha
        rw [List.length_cons] at this
        exact ⟨by omega, this.2⟩
      · intro b hbb
        rw [hbres] at hbb
        obtain ⟨a, ha, hlen⟩ := Fill.store_result_some _ _ _ _ hbb
        have := hb a ha
        rw [List.length_cons] at this
        rw [← hlen]
        exact ⟨by omega, this.2⟩

theorem reopenColumns_spec {ω : Type} (m : Odbc ω) (hStmt : Handle) (tableName : List Char)
    (w : World ω) :
    (reopenColumns m hStmt tableName w).st
        = (m.SQLColumns (m.SQLCloseCursor w.st hStmt).2 hStmt tableName).2 ∧
      (reopenColumns m hStmt tableName w).pending = w.pending :=
  ⟨rfl, rfl⟩

theorem listColumns_run {ω : Type} (m : Odbc ω) (h : Host) (mem : Memory) (connectionPtr : Int)
    (tableName : List Char) (s : ω) (n : Nat) (rows : List ODBCField) (t1 t2 : ω)
    (hcount : Counts
      (fun t => m.SQLFetch t
        (openColumns m (mem connectionPtr).hDbc tableName (World.start s)).1) n
      (openColumns m (mem connectionPtr).hDbc tableName (World.start s)).2.st t1)
    (hserve : Serves
      (fun t => m.SQLFetch t
        (openColumns m (mem connectionPtr).hDbc tableName (World.start s)).1)
      (readColumnAt m (openColumns m (mem connectionPtr).hDbc tableName (World.start s)).1)
      rows
      (m.SQLColumns (m.SQLCloseCursor t1
        (openColumns m (mem connectionPtr).hDbc tableName (World.start s)).1).2
        (openColumns m (mem connectionPtr).hDbc tableName (World.start s)).1 tableName).2 t2)
    (fuel : Nat) (hfn : n < fuel) (hfk : rows.length < fuel) :
    ∃ f, listColumns m h true mem connectionPtr tableName fuel (World.start s) = some f ∧
      f.result = (storeAll
        { result := newArray h ODBCField (wrapS 32 n), writes := [], world := World.start s }
        0 rows).result ∧
      f.writes = (List.range rows.length).map (fun k => wrapS 32 ((0 + k : Nat) : Int)) ∧
      ((openColumns m (mem connectionPtr).hDbc tableName (World.start s)).2.pending = false →
        n < 2147483648 → h.arrayAlloc n = true → rows.length = n →
        f.world.pending = false) := by
  obtain ⟨w1, hw1, hst1, hp1⟩ := countRows_counts m _ n fuel _ 0 t1 hcount hfn
  rw [Nat.zero_add] at hw1
  obtain ⟨f1, hf1, _, hres, hwr, hpend⟩ := columnsLoop_serves m
    (openColumns m (mem connectionPtr).hDbc tableName (World.start s)).1 rows fuel
    { result := newArray h ODBCField (wrapS 32 n), writes := []
      world := reopenColumns m
        (openColumns m (mem connectionPtr).hDbc tableName (World.start s)).1 tableName
        { w1 with pending := w1.pending
            || (newArray h ODBCField (wrapS 32 n)).isNone } } 0 t2
    (by rw [(reopenColumns_spec _ _ _ _).1]; simp only [hst1]; exact hserve) hfk
  simp only [listColumns, hw1, hf1, if_true]
  refine ⟨_, rfl, ?_, ?_, ?_⟩
  · simp only []
    rw [hres]
    refine (storeAll_congr _ _ _ _ ?_ ?_).1 <;> rfl
  · simp only []
    rw [hwr, storeAll_writes]
    exact List.nil_append _
  · intro hp0 hn halloc hlen
    simp only [World.native]
    apply hpend
    · rw [(reopenColumns_spec _ _ _ _).2]
      show (w1.pending || (newArray h ODBCField (wrapS 32 n)).isNone) = false
      rw [hp1, hp0, newArray_alloc h _ n hn halloc]
      rfl
    · intro a ha
      have ha1 := ha
      dsimp only at ha1
      rw [newArray_alloc h _ n hn halloc] at ha1
      rw [← Option.some.inj ha1, List.length_replicate]
      omega

theorem countSources_lists {ω : Type} (m : Odbc ω) (hEnv : Handle) :
    ∀ (names : List (List Char)) (fuel : Nat) (w : World ω) (k : Nat) (t : ω),
      Lists m hEnv names w.st t → names.length < fuel →
      ∃ w1, countSources m hEnv fuel w k = some (k + names.length, w1) ∧ w1.st = t ∧
        w1.pending = w.pending := by
  intro names
  induction names with
  | nil =>
    intro fuel w k t hc hf
    obtain ⟨f, rfl⟩ : ∃ f, fuel = f + 1 := ⟨fuel - 1, by omega⟩
    obtain ⟨h1, h2⟩ := hc
    refine ⟨w.native (.SQLDataSources hEnv .SQL_FETCH_NEXT)
      (m.SQLDataSources w.st hEnv .SQL_FETCH_NEXT).2, ?_, h2, rfl⟩
    simp [countSources, h1]
  | cons v names ih =>
    intro fuel w k t hc hf
    obtain ⟨f, rfl⟩ : ∃ f, fuel = f + 1 := ⟨fuel - 1, by omega⟩
    obtain ⟨h1, _, h2⟩ := hc
    rw [List.length_cons] at hf
    obtain ⟨w1, hw1, hst, hp⟩ := ih f
      (w.native (.SQLDataSources hEnv .SQL_FETCH_NEXT)
        (m.SQLDataSources w.st hEnv .SQL_FETCH_NEXT).2)
      (k + 1) t h2 (by omega)
    refine ⟨w1, ?_, hst, hp⟩
    have e : k + 1 + names.length = k + (names.length + 1) := by omega
    simp only [countSources, h1, ne_eq, not_false_eq_true, if_true, hw1, e, List.length_cons]

theorem sourcesBody_spec {ω : Type} (f : Fill ω (List Char)) (w : World ω)
    (dsnName : List Char) (i : Nat) :
    (sourcesBody f w dsnName i).world.st = w.st ∧
    (sourcesBody f w dsnName i).result
      = (f.store (wrapS 32 ((i + 1 : Nat) : Int)) (cString dsnName)).result ∧
    (sourcesBody f w dsnName i).writes
      = (f.store (wrapS 32 ((i + 1 : Nat) : Int)) (cString dsnName)).writes ∧
    (w.pending = false →
      (∀ a, f.result = some a → i + 1 < a.length ∧ a.length < 2147483648) →
      (sourcesBody f w dsnName i).world.pending = false) := by
  have e : ((i + 1 : Nat) : Int) = (i : Int) + 1 := Nat.cast_succ i
  rw [e]
  unfold sourcesBody
  refine ⟨?_, (Fill.store_result_world f _ _ _).1, (Fill.store_result_world f _ _ _).2, ?_⟩
  · rw [(Fill.store_world _ _ _).1]
  · intro hp hb
    rw [Fill.store_pending_world f _ _ _
      (fun a ha => by
        rw [← e]
        exact wrapS_32_index (i + 1) a.length (hb a ha).1 (hb a ha).2)]
    exact hp

theorem sourcesLoop_lists {ω : Type} (m : Odbc ω) (hEnv : Handle) :
    ∀ (names : List (List Char)) (fuel : Nat) (f : Fill ω (List Char)) (i : Nat) (t : ω),
      Lists m hEnv names f.world.st t →
      names.length < fuel →
      ∃ f1, sourcesLoop m hEnv fuel f i = some f1 ∧ f1.world.st = t ∧
        f1.result = (storeAll f (i + 1) (names.map cString)).result ∧
        f1.writes = (storeAll f (i + 1) (names.map cString)).writes ∧
        (f.world.pending = false →
          (∀ a, f.result = some a →
            i + 1 + names.length ≤ a.length ∧ a.length < 2147483648) →
          f1.world.pending = false) := by
  intro names
  induction names with
  | nil =>
    intro fuel f i t hs hf
    obtain ⟨k, rfl⟩ : ∃ k, fuel = k + 1 := ⟨fuel - 1, by omega⟩
    obtain ⟨h1, h2⟩ := hs
    simp only [sourcesLoop, h1, ne_eq, not_true_eq_false, if_false]
    exact ⟨_, rfl, h2, rfl, rfl, fun hp _ => hp⟩
  | cons v names ih =>
    intro fuel f i t hs hf
    obtain ⟨k, rfl⟩ : ∃ k, fuel = k + 1 := ⟨fuel - 1, by omega⟩
    obtain ⟨h1, h2, h3⟩ := hs
    rw [List.length_cons] at hf
    obtain ⟨hbst, hbres, hbwr, hbp⟩ := sourcesBody_spec f
      (f.world.native (.SQLDataSources hEnv .SQL_FETCH_NEXT)
        (m.SQLDataSources f.world.st hEnv .SQL_FETCH_NEXT).2)
      (m.SQLDataSources f.world.st hEnv .SQL_FETCH_NEXT).1.2 i
    obtain ⟨f1, hf1, hst, hres, hwr, hpend⟩ := ih k
      (sourcesBody f
        (f.world.native (.SQLDataSources hEnv .SQL_FETCH_NEXT)
          (m.SQLDataSources f.world.st hEnv .SQL_FETCH_NEXT).2)
        (m.SQLDataSources f.world.st hEnv .SQL_FETCH_NEXT).1.2 i)
      (i + 1) t (by rw [hbst]; exact h3) (by omega)
    refine ⟨f1, ?_, hst, ?_, ?_, ?_⟩
    · simp only [sourcesLoop, h1, ne_eq, not_false_eq_true, if_true]
      exact hf1
    · rw [hres, List.map_cons, storeAll, ← h2]
      exact (storeAll_congr _ _ _ _ hbres hbwr).1
    · rw [hwr, List.map_cons, storeAll, ← h2]
      exact (storeAll_congr _ _ _ _ hbres hbwr).2
    · intro hp hb
      apply hpend
      · apply hbp hp
        intro a ha
        have := hb a ha
        rw [List.length_cons] at this
        exact ⟨by omega, this.2⟩
      · intro b hbb
        rw [hbres] at hbb
        obtain ⟨a, ha, hlen⟩ := Fill.store_result_some _ _ _ _ hbb
        have := hb a ha
        rw [List.length_cons] at this
        rw [← hlen]
        exact ⟨by omega, this.2⟩

theorem wrapS_32_zero : wrapS 32 ((0 : Nat) : Int) = 0 :=
  wrapS_32_of_range _ (by decide) (by decide)

theorem succeeded_of_success (ret : Int)
    (hok : ret = SQL_SUCCESS ∨ ret = SQL_SUCCESS_WITH_INFO) : succeeded ret = true := by
  rcases hok with rfl | rfl <;> decide

theorem succeeded_of_failure (ret : Int) (h1 : ret ≠ SQL_SUCCESS)
    (h2 : ret ≠ SQL_SUCCESS_WITH_INFO) : succeeded ret = false := by
  simp [succeeded, h1, h2]

theorem countPass_served {ω : Type} (m : Odbc ω) (hEnv : Handle) (counted : List (List Char))
    (fuel : Nat) (w : World ω) (t : ω)
    (hc : SourcesServed m hEnv counted w.st t) (hf : counted.length < fuel) :
    ∃ w2, (if succeeded (m.SQLDataSources w.st hEnv .SQL_FETCH_FIRST).1.1 then
          countSources m hEnv fuel
            (w.native (.SQLDataSources hEnv .SQL_FETCH_FIRST)
              (m.SQLDataSources w.st hEnv .SQL_FETCH_FIRST).2) 1
        else some (0, w.native (.SQLDataSources hEnv .SQL_FETCH_FIRST)
              (m.SQLDataSources w.st hEnv .SQL_FETCH_FIRST).2))
        = some (counted.length, w2) ∧ w2.st = t ∧ w2.pending = w.pending := by
  cases counted with
  | nil =>
    obtain ⟨h0, h2⟩ := hc
    have h1 := succeeded_of_failure _ h0.1 h0.2
    rw [h1]
    exact ⟨_, rfl, h2, rfl⟩
  | cons v vs =>
    obtain ⟨h0, _, h3⟩ := hc
    have h1 := succeeded_of_success _ h0
    rw [List.length_cons] at hf
    obtain ⟨w2, hw2, hst, hp⟩ := countSources_lists m hEnv vs fuel
      (w.native (.SQLDataSources hEnv .SQL_FETCH_FIRST)
        (m.SQLDataSources w.st hEnv .SQL_FETCH_FIRST).2) 1 t h3 (by omega)
    rw [h1, if_pos rfl, hw2, List.length_cons, Nat.add_comm 1]
    exact ⟨w2, rfl, hst, hp⟩

theorem populatePass_served {ω : Type} (m : Odbc ω) (hEnv : Handle) (names : List (List Char))
    (fuel : Nat) (s : ω) (g : Fill ω (List Char)) (t : ω)
    (hg : g.world.st = (m.SQLDataSources s hEnv .SQL_FETCH_FIRST).2)
    (hs : SourcesServed m hEnv names s t) (hf : names.length < fuel) :
    ∃ f, (if succeeded (m.SQLDataSources s hEnv .SQL_FETCH_FIRST).1.1 then
          sourcesLoop m hEnv fuel
            (g.store 0 (cString (m.SQLDataSources s hEnv .SQL_FETCH_FIRST).1.2)) 0
        else some g) = some f ∧
      f.world.st = t ∧
      f.result = (storeAll g 0 (names.map cString)).result ∧
      f.writes = (storeAll g 0 (names.map cString)).writes ∧
      (g.world.pending = false →
        (∀ a, g.result = some a → names.length ≤ a.length ∧ a.length < 2147483648) →
        f.world.pending = false) := by
  cases names with
  | nil =>
    obtain ⟨h0, h2⟩ := hs
    have h1 := succeeded_of_failure _ h0.1 h0.2
    rw [h1]
    exact ⟨g, rfl, by rw [hg, h2], rfl, rfl, fun hp _ => hp⟩
  | cons v vs =>
    obtain ⟨h0, h2, h3⟩ := hs
    have h1 := succeeded_of_success _ h0
    rw [List.length_cons] at hf
    obtain ⟨f1, hf1, hst, hres, hwr, hpend⟩ := sourcesLoop_lists m hEnv vs fuel
      (g.store 0 (cString (m.SQLDataSources s hEnv .SQL_FETCH_FIRST).1.2)) 0 t
      (by rw [(Fill.store_world _ _ _).1, hg]; exact h3) (by omega)
    rw [h1, if_pos rfl, hf1]
    refine ⟨f1, rfl, hst, ?_, ?_, ?_⟩
    · rw [hres, List.map_cons, storeAll, wrapS_32_zero, h2]
    · rw [hwr, List.map_cons, storeAll, wrapS_32_zero, h2]
    · intro hp hb
      apply hpend
      · rw [Fill.store_pending g 0 _ (fun a ha => by
          have := hb a ha
          rw [List.length_cons] at this
          constructor <;> omega)]
        exact hp
      · intro b hbb
        obtain ⟨a, ha, hlen⟩ := Fill.store_result_some _ _ _ _ hbb
        have := hb a ha
        rw [List.length_cons] at this
        rw [← hlen]
        exact ⟨by omega, this.2⟩

theorem listDatabases_run {ω : Type} (m : Odbc ω) (h : Host) (s : ω)
    (counted names : List (List Char)) (t1 t2 : ω)
    (hcount : SourcesServed m (setup_environment m (World.start s)).1 counted
      (setup_environment m (World.start s)).2.st t1)
    (hserve : SourcesServed m (setup_environment m (World.start s)).1 names t1 t2)
    (fuel : Nat) (hfn : counted.length < fuel) (hfk : names.length < fuel) :
    ∃ f, listDatabases m h fuel (World.start s) = some f ∧
      f.result = (storeAll
        { result := newArray h (List Char) (wrapS 32 counted.length), writes := [],
          world := World.start s }
        0 (names.map cString)).result ∧
      f.writes = (List.range names.length).map (fun k => wrapS 32 ((0 + k : Nat) : Int)) ∧
      ((setup_environment m (World.start s)).2.pending = false →
        counted.length < 2147483648 → h.arrayAlloc counted.length = true →
        names.length = counted.length → f.world.pending = false) := by
  obtain ⟨w2, hw2, hst2, hp2⟩ := countPass_served m _ counted fuel _ t1 hcount hfn
  obtain ⟨f1, hf1, _, hres, hwr, hpend⟩ := populatePass_served m
    (setup_environment m (World.start s)).1 names fuel w2.st
    (Fill.mk (newArray h (List Char) (wrapS 32 counted.length)) []
      ((World.mk w2.st w2.calls
          (w2.pending || (newArray h (List Char) (wrapS 32 counted.length)).isNone)).native
        (.SQLDataSources (setup_environment m (World.start s)).1 .SQL_FETCH_FIRST)
        (m.SQLDataSources w2.st (setup_environment m (World.start s)).1 .SQL_FETCH_FIRST).2))
    t2 rfl (by rw [hst2]; exact hserve) hfk
  simp only [listDatabases, hw2, hf1]
  refine ⟨_, rfl, ?_, ?_, ?_⟩
  · simp only []
    rw [hres]
    refine (storeAll_congr _ _ _ _ ?_ ?_).1 <;> rfl
  · simp only []
    rw [hwr, storeAll_writes, List.length_map]
    exact List.nil_append _
  · intro hp0 hn halloc hlen
    simp only [World.native]
    apply hpend
    · show (w2.pending || (newArray h (List Char) (wrapS 32 counted.length)).isNone) = false
      rw [hp2, newArray_alloc h _ _ hn halloc]
      show ((setup_environment m (World.start s)).2.pending || false) = false
      rw [hp0]
      rfl
    · intro a ha
      have ha1 := ha
      dsimp only at ha1
      rw [newArray_alloc h _ _ hn halloc] at ha1
      rw [← Option.some.inj ha1, List.length_replicate]
      omega

theorem storeAll_length {ω α : Type} :
    ∀ (vs : List α) (f : Fill ω α) (i : Nat) (a : List (Option α)), f.result = some a →
      ∃ b, (storeAll f i vs).result = some b ∧ b.length = a.length := by
  intro vs
  induction vs with
  | nil => intro f i a ha; exact ⟨a, ha, rfl⟩
  | cons v vs ih =>
    intro f i a ha
    obtain ⟨b, hb, hlen⟩ := Fill.store_length f (wrapS 32 i) v a ha
    obtain ⟨c, hc, hlen2⟩ := ih (f.store (wrapS 32 i) v) (i + 1) b hb
    exact ⟨c, hc, by rw [hlen2, hlen]⟩

theorem storeAll_fresh {ω α : Type} (h : Host) (n : Nat) (vs : List α) (f : Fill ω α)
    (hf : f.result = newArray h α (wrapS 32 n))
    (hn : n < 2147483648) (halloc : h.arrayAlloc n = true) :
    ∃ a, (storeAll f 0 vs).result = some a ∧
      a.length = n ∧ (vs.length = n → a = vs.map some) := by
  have hr : f.result = some (List.replicate n none) := by
    rw [hf]
    exact newArray_alloc h α n hn halloc
  obtain ⟨a, ha, hlen⟩ := storeAll_length vs f 0 (List.replicate n none) hr
  refine ⟨a, ha, by rw [hlen, List.length_replicate], ?_⟩
  intro hk
  have := storeAll_result vs [] f n
    (by rw [List.length_nil, Nat.zero_add]; exact hk) hn
    (by
      rw [List.map_nil, List.nil_append, List.length_nil, Nat.sub_zero]
      exact hr)
  rw [List.length_nil, List.nil_append] at this
  rw [ha] at this
  exact Option.some.inj this

theorem writes_range (r : Nat) (hr : r ≤ 2147483648) :
    (List.range r).map (fun k => wrapS 32 ((0 + k : Nat) : Int))
      = (List.range r).map (fun (k : Nat) => (k : Int)) := by
  have hpt : ∀ k ∈ List.range r, wrapS 32 ((0 + k : Nat) : Int) = (k : Int) := by
    intro k hk
    have hlt := List.mem_range.mp hk
    rw [Nat.zero_add]
    exact wrapS_32_of_range _ (by omega) (by omega)
  exact List.map_congr_left hpt

theorem countRows_stuck (hStmt : Handle) :
    ∀ (fuel : Nat) (w : World Fake) (k : Nat), w.st.stuck = true →
      countRows fake hStmt fuel w k = none := by
  intro fuel
  induction fuel with
  | zero => intro w k _; rfl
  | succ fuel ih =>
    intro w k hs
    have hf : fake.SQLFetch w.st hStmt = (SQL_ERROR, w.st) := by
      simp [fake, hs]
    have hne : SQL_ERROR ≠ SQL_NO_DATA := by decide
    simp only [countRows, hf, ne_eq, hne, not_false_eq_true, if_true]
    exact ih _ _ hs

theorem countSources_stuck (hEnv : Handle) :
    ∀ (fuel : Nat) (w : World Fake) (k : Nat), w.st.stuck = true →
      countSources fake hEnv fuel w k = none := by
  intro fuel
  induction fuel with
  | zero => intro w k _; rfl
  | succ fuel ih =>
    intro w k hs
    have hf : fake.SQLDataSources w.st hEnv .SQL_FETCH_NEXT = ((SQL_ERROR, []), w.st) := by
      simp [fake, hs]
    have hne : SQL_ERROR ≠ SQL_NO_DATA := by decide
    simp only [countSources, hf, ne_eq, hne, not_false_eq_true, if_true]
    exact ih _ _ hs

theorem fill_bounds {α : Type} (writes : List Int) (a : List (Option α)) (n : Nat)
    (vs : List α) (hlen : a.length = n) (heq : vs.length = n → a = vs.map some)
    (hwr : writes = (List.range vs.length).map (fun (k : Nat) => (k : Int))) :
    (vs.length = n →
      (∀ i ∈ writes, 0 ≤ i ∧ i < (a.length : Int)) ∧ ∀ x ∈ a, x ≠ none) ∧
    (n < vs.length → (n : Int) ∈ writes) := by
  constructor
  · intro hk
    constructor
    · intro i hi
      rw [hwr] at hi
      obtain ⟨k, hk1, rfl⟩ := List.mem_map.mp hi
      have := List.mem_range.mp hk1
      rw [hlen]
      constructor <;> omega
    · intro x hx
      rw [heq hk] at hx
      obtain ⟨v, _, rfl⟩ := List.mem_map.mp hx
      exact Option.some_ne_none v
  · intro hlt
    rw [hwr]
    exact List.mem_map.mpr ⟨n, List.mem_range.mpr hlt, rfl⟩

theorem openTables_spec {ω : Type} (m : Odbc ω) (hDbc : Handle) (s : ω) :
    (openTables m hDbc (World.start s)).1 = statementOf m hDbc s ∧
      (openTables m hDbc (World.start s)).2.st
        = (m.SQLTables (stateOfStatement m hDbc s) (statementOf m hDbc s) "TABLE".toList).2 := by
  refine ⟨rfl, ?_⟩
  simp only [openTables, init_statement, World.check_error_st, World.native, World.start,
    statementOf, stateOfStatement]

theorem openTables_pending {ω : Type} (m : Odbc ω) (hDbc : Handle) (s : ω)
    (hok : TablesRequestSucceeds m hDbc s) :
    (openTables m hDbc (World.start s)).2.pending = false := by
  obtain ⟨h1, h2⟩ := hok
  have e1 := check_error_of_success _ h1
  have e2 := check_error_of_success _ h2
  simp only [statementOf, stateOfStatement] at e2
  simp only [openTables, init_statement, World.check_error, e1, World.native, World.start,
    Bool.false_eq_true, if_false, e2]

theorem openColumns_spec {ω : Type} (m : Odbc ω) (hDbc : Handle) (tableName : List Char)
    (s : ω) :
    (openColumns m hDbc tableName (World.start s)).1 = statementOf m hDbc s ∧
      (openColumns m hDbc tableName (World.start s)).2.st
        = (m.SQLColumns (stateOfStatement m hDbc s) (statementOf m hDbc s) tableName).2 := by
  refine ⟨rfl, ?_⟩
  simp only [openColumns, init_statement, World.check_error_st, World.native, World.start,
    statementOf, stateOfStatement]

theorem openColumns_pending {ω : Type} (m : Odbc ω) (hDbc : Handle) (tableName : List Char)
    (s : ω) (hok : ColumnsRequestSucceeds m hDbc tableName s) :
    (openColumns m hDbc tableName (World.start s)).2.pending = false := by
  obtain ⟨h1, h2⟩ := hok
  have e1 := check_error_of_success _ h1
  have e2 := check_error_of_success _ h2
  simp only [statementOf, stateOfStatement] at e2
  simp only [openColumns, init_statement, World.check_error, e1, World.native, World.start,
    Bool.false_eq_true, if_false, e2]

theorem setup_environment_spec {ω : Type} (m : Odbc ω) (s : ω) :
    (setup_environment m (World.start s)).1 = environmentOf m s ∧
      (setup_environment m (World.start s)).2.st
        = (m.SQLSetEnvAttr (m.SQLAllocHandle s .SQL_HANDLE_ENV SQL_NULL_HANDLE).2
            (environmentOf m s)).2 := by
  refine ⟨rfl, ?_⟩
  simp only [setup_environment, World.check_error_st, World.native, World.start, environmentOf]

theorem setup_environment_pending {ω : Type} (m : Odbc ω) (s : ω)
    (hok : EnvironmentSucceeds m s) :
    (setup_environment m (World.start s)).2.pending = false := by
  obtain ⟨h1, h2⟩ := hok
  have e1 := check_error_of_success _ h1
  have e2 := check_error_of_success _ h2
  simp only [environmentOf] at e2
  simp only [setup_environment, World.check_error, e1, World.native, World.start,
    Bool.false_eq_true, if_false, e2]

theorem servesColumns_serves {ω : Type} (m : Odbc ω) (hStmt : Handle) :
    ∀ (rows : List ColumnReads) (s t : ω), ServesColumns m hStmt rows s t →
      Serves (fun u => m.SQLFetch u hStmt) (readColumnAt m hStmt)
        (rows.map (fun v => ODBCField.mk (cString v.name.buf) v.type.buf v.size.buf)) s t := by
  intro rows
  induction rows with
  | nil => intro s t hs; exact hs
  | cons v rows ih =>
    intro s t hs
    obtain ⟨h1, h2, h3, h4, h5⟩ := hs
    refine ⟨h1, ?_, ih _ _ h5⟩
    show _ = ODBCField.mk (cString v.name.buf) v.type.buf v.size.buf
    rw [← h2, ← h3, ← h4]
    rfl

theorem listTables_passes {ω : Type} (m : Odbc ω) (h : Host) (mem : Memory)
    (connectionPtr : Int) (s : ω) (n : Nat) (rows : List (GetData (List Char)))
    (hp : TablesPasses m (mem connectionPtr).hDbc s n rows)
    (fuel : Nat) (hfn : n < fuel) (hfk : rows.length < fuel) :
    ∃ f, listTables m h mem connectionPtr fuel (World.start s) = some f ∧
      f.result = (storeAll
        (Fill.mk (newArray h (List Char) (wrapS 32 n)) [] (World.start s))
        0 (rows.map (fun g => cString g.buf))).result ∧
      f.writes = (List.range rows.length).map (fun k => wrapS 32 ((0 + k : Nat) : Int)) ∧
      (TablesRequestSucceeds m (mem connectionPtr).hDbc s →
        n < 2147483648 → h.arrayAlloc n = true → rows.length = n →
        (∀ g ∈ rows, g.ret = SQL_SUCCESS ∨ g.ret = SQL_SUCCESS_WITH_INFO) →
        f.world.pending = false) := by
  obtain ⟨t1, t2, hc, hs⟩ := hp
  obtain ⟨hh, hst⟩ := openTables_spec m (mem connectionPtr).hDbc s
  obtain ⟨f, hf, hres, hwr, hpend⟩ := listTables_run m h mem connectionPtr s n rows t1 t2
    (by rw [hh, hst]; exact hc) (by rw [hh]; exact hs) fuel hfn hfk
  exact ⟨f, hf, hres, hwr, fun hok hn halloc hlen hrows =>
    hpend (openTables_pending m _ s hok) hn halloc hlen
      (fun g hg => check_error_of_success _ (hrows g hg))⟩

theorem listColumns_passes {ω : Type} (m : Odbc ω) (h : Host) (mem : Memory)
    (connectionPtr : Int) (tableName : List Char) (s : ω) (n : Nat) (rows : List ColumnReads)
    (hp : ColumnsPasses m (mem connectionPtr).hDbc tableName s n rows)
    (fuel : Nat) (hfn : n < fuel) (hfk : rows.length < fuel) :
    ∃ f, listColumns m h true mem connectionPtr tableName fuel (World.start s) = some f ∧
      f.result = (storeAll
        (Fill.mk (newArray h ODBCField (wrapS 32 n)) [] (World.start s))
        0 (rows.map (fun v => ODBCField.mk (cString v.name.buf) v.type.buf v.size.buf))).result ∧
      f.writes = (List.range rows.length).map (fun k => wrapS 32 ((0 + k : Nat) : Int)) ∧
      (ColumnsRequestSucceeds m (mem connectionPtr).hDbc tableName s →
        n < 2147483648 → h.arrayAlloc n = true → rows.length = n →
        f.world.pending = false) := by
  obtain ⟨t1, t2, hc, hs⟩ := hp
  obtain ⟨hh, hst⟩ := openColumns_spec m (mem connectionPtr).hDbc tableName s
  obtain ⟨f, hf, hres, hwr, hpend⟩ := listColumns_run m h mem connectionPtr tableName s n
    (rows.map (fun v => ODBCField.mk (cString v.name.buf) v.type.buf v.size.buf)) t1 t2
    (by rw [hh, hst]; exact hc)
    (by rw [hh]; exact servesColumns_serves m _ rows _ _ hs) fuel hfn
    (by rw [List.length_map]; exact hfk)
  rw [List.length_map] at hwr hpend
  exact ⟨f, hf, hres, hwr, fun hok hn halloc hlen =>
    hpend (openColumns_pending m _ tableName s hok) hn halloc hlen⟩

theorem listDatabases_passes {ω : Type} (m : Odbc ω) (h : Host) (s : ω)
    (counted names : List (List Char)) (hp : SourcesPasses m s counted names)
    (fuel : Nat) (hfn : counted.length < fuel) (hfk : names.length < fuel) :
    ∃ f, listDatabases m h fuel (World.start s) = some f ∧
      f.result = (storeAll
        (Fill.mk (newArray h (List Char) (wrapS 32 counted.length)) [] (World.start s))
        0 (names.map cString)).result ∧
      f.writes = (List.range names.length).map (fun k => wrapS 32 ((0 + k : Nat) : Int)) ∧
      (EnvironmentSucceeds m s →
        counted.length < 2147483648 → h.arrayAlloc counted.length = true →
        names.length = counted.length → f.world.pending = false) := by
  obtain ⟨t1, t2, hc, hs⟩ := hp
  obtain ⟨hh, hst⟩ := setup_environment_spec m s
  obtain ⟨f, hf, hres, hwr, hpend⟩ := listDatabases_run m h s counted names t1 t2
    (by rw [hh, hst]; exact hc) (by rw [hh]; exact hs) fuel hfn hfk
  exact ⟨f, hf, hres, hwr, fun hok hn halloc hlen =>
    hpend (setup_environment_pending m s hok) hn halloc hlen⟩

/-! ## The claims -/

/-- C1 as stated fails: the NUMERIC column of the row `(42, Infinity)` is read with
`SQL_SUCCESS` and a non-null indicator, its text being `Infinity`, and `fetchArray` stores
`null` for it, not a decimal, leaving the exception of the constructor pending. -/
theorem C1_refused_decimal_text_yields_null :
    (scripted.SQLGetData (stateAtColumn plainHost scripted infinityRowQuery 2) 2
        .SQL_C_CHAR 256).1.ret = SQL_SUCCESS ∧
      (scripted.SQLGetData (stateAtColumn plainHost scripted infinityRowQuery 2) 2
        .SQL_C_CHAR 256).1.ind ≠ SQL_NULL_DATA ∧
      cString (scripted.SQLGetData (stateAtColumn plainHost scripted infinityRowQuery 2) 2
        .SQL_C_CHAR 256).1.buf = "Infinity".toList ∧
      (fetchArray plainHost scripted infinityRowQuery).result
        = some [some (.integer 42), none] ∧
      (fetchArray plainHost scripted infinityRowQuery).pending = true := by
  decide

/-- C1, amended: in a row returned by `fetchArray`, a column `i` whose type code is in a
recognised family and whose read returns `SQL_SUCCESS` with an indicator other than
`SQL_NULL_DATA` holds, at index `i - 1`, the family's object built from the value read:
`Integer` for INTEGER/SMALLINT/TINYINT, `Long` for BIGINT, `Float` for REAL/FLOAT, `Double`
for DOUBLE, the `BigDecimal` of the text for NUMERIC/DECIMAL when `BigDecimal(String)`
accepts the text (`null` when it refuses it), a byte array for a non-empty binary value
whose array the host allocates, `String` for the six character codes, the `Date` of
`mktime(year - 1900, month - 1, day) * 1000`, the `Time` of
`(hour * 3600 + minute * 60 + second) * 1000` computed in `int`, and the `Timestamp` of
`mktime(...) * 1000 + fraction / 1000000` for the temporal codes. -/
theorem C1_typed_value_at_column_position {σ : Type} (h : Host) (d : Driver σ) (s : σ)
    (row : List JRef) (i : Nat) (dataType : Int) (s1 : σ)
    (hrow : (fetchArray h d s).result = some row)
    (h1 : 1 ≤ i) (hn : (i : Int) ≤ (d.SQLNumResultCols s).1.columnCount)
    (hdc : d.SQLDescribeCol (stateAtColumn h d s i) i = (dataType, s1)) :
    ((dataType = SQL_INTEGER ∨ dataType = SQL_SMALLINT ∨ dataType = SQL_TINYINT) →
      ∀ g, (d.SQLGetData s1 i .SQL_C_SLONG 4).1 = g → g.ret = SQL_SUCCESS →
        g.ind ≠ SQL_NULL_DATA → row[i - 1]? = some (some (.integer g.buf))) ∧
    (dataType = SQL_BIGINT →
      ∀ g, (d.SQLGetData s1 i .SQL_C_SBIGINT 8).1 = g → g.ret = SQL_SUCCESS →
        g.ind ≠ SQL_NULL_DATA → row[i - 1]? = some (some (.long g.buf))) ∧
    ((dataType = SQL_REAL ∨ dataType = SQL_FLOAT) →
      ∀ g, (d.SQLGetData s1 i .SQL_C_FLOAT 4).1 = g → g.ret = SQL_SUCCESS →
        g.ind ≠ SQL_NULL_DATA → row[i - 1]? = some (some (.float g.buf))) ∧
    (dataType = SQL_DOUBLE →
      ∀ g, (d.SQLGetData s1 i .SQL_C_DOUBLE 8).1 = g → g.ret = SQL_SUCCESS →
        g.ind ≠ SQL_NULL_DATA → row[i - 1]? = some (some (.double g.buf))) ∧
    ((dataType = SQL_NUMERIC ∨ dataType = SQL_DECIMAL) →
      ∀ g, (d.SQLGetData s1 i .SQL_C_CHAR 256).1 = g → g.ret = SQL_SUCCESS →
        g.ind ≠ SQL_NULL_DATA →
        (h.bigDecimal (cString g.buf) = true →
          row[i - 1]? = some (some (.bigDecimal (cString g.buf)))) ∧
        (h.bigDecimal (cString g.buf) = false → row[i - 1]? = some none)) ∧
    ((dataType = SQL_BINARY ∨ dataType = SQL_VARBINARY ∨ dataType = SQL_LONGVARBINARY) →
      ∀ p g, d.SQLGetData s1 i .SQL_C_BINARY 0 = p → 0 < p.1.ind →
        h.byteArrayAlloc p.1.ind.toNat = true →
        (d.SQLGetData p.2 i .SQL_C_BINARY p.1.ind).1 = g →
        row[i - 1]? = some (some (.byteArray (filledBlock h p.1.ind.toNat g.buf))) ∧
        ((g.buf.length : Int) = p.1.ind → row[i - 1]? = some (some (.byteArray g.buf)))) ∧
    ((dataType = SQL_CHAR ∨ dataType = SQL_VARCHAR ∨ dataType = SQL_LONGVARCHAR
        ∨ dataType = SQL_WCHAR ∨ dataType = SQL_WVARCHAR ∨ dataType = SQL_WLONGVARCHAR) →
      ∀ g, (d.SQLGetData s1 i .SQL_C_CHAR 256).1 = g → g.ret = SQL_SUCCESS →
        g.ind ≠ SQL_NULL_DATA → row[i - 1]? = some (some (.string (cString g.buf)))) ∧
    ((dataType = SQL_DATE ∨ dataType = SQL_TYPE_DATE) →
      ∀ g : GetData DATE_STRUCT, (d.SQLGetData s1 i .SQL_C_TYPE_DATE 6).1 = g →
        g.ret = SQL_SUCCESS → g.ind ≠ SQL_NULL_DATA →
        row[i - 1]? = some (some (.date (wrapS 64 (h.mktime
          { tm_sec := 0, tm_min := 0, tm_hour := 0, tm_mday := g.buf.day,
            tm_mon := (g.buf.month : Int) - 1, tm_year := g.buf.year - 1900 } * 1000))))) ∧
    ((dataType = SQL_TIME ∨ dataType = SQL_TYPE_TIME) →
      ∀ g : GetData TIME_STRUCT, (d.SQLGetData s1 i .SQL_C_TYPE_TIME 6).1 = g →
        g.ret = SQL_SUCCESS → g.ind ≠ SQL_NULL_DATA →
        row[i - 1]? = some (some (.time (wrapS 32 (wrapS 32 (wrapS 32
          (wrapS 32 ((g.buf.hour : Int) * 3600) + wrapS 32 ((g.buf.minute : Int) * 60))
          + (g.buf.second : Int)) * 1000))))) ∧
    ((dataType = SQL_TIMESTAMP ∨ dataType = SQL_TYPE_TIMESTAMP) →
      ∀ g : GetData TIMESTAMP_STRUCT, (d.SQLGetData s1 i .SQL_C_TYPE_TIMESTAMP 16).1 = g →
        g.ret = SQL_SUCCESS → g.ind ≠ SQL_NULL_DATA →
        row[i - 1]? = some (some (.timestamp (wrapS 64 (wrapS 64 (h.mktime
          { tm_sec := g.buf.second, tm_min := g.buf.minute, tm_hour := g.buf.hour,
            tm_mday := g.buf.day, tm_mon := (g.buf.month : Int) - 1,
            tm_year := g.buf.year - 1900 } * 1000)
          + ((g.buf.fraction / 1000000 : Nat) : Int)))))) := by
  rw [fetchArray_get h d s row hrow i h1 hn]
  refine ⟨?_, ?_, ?_, ?_, ?_, ?_, ?_, ?_, ?_, ?_⟩
  · intro hf g hg hret hind
    subst hg
    rcases hf with rfl | rfl | rfl <;>
      simp [fetchColumn, hdc, readOk, hret, hind, NewStringUTF]
  · intro hf g hg hret hind
    subst hg
    subst hf
    simp [fetchColumn, hdc, readOk, hret, hind, NewStringUTF]
  · intro hf g hg hret hind
    subst hg
    rcases hf with rfl | rfl <;>
      simp [fetchColumn, hdc, readOk, hret, hind, NewStringUTF]
  · intro hf g hg hret hind
    subst hg
    subst hf
    simp [fetchColumn, hdc, readOk, hret, hind, NewStringUTF]
  · intro hf g hg hret hind
    subst hg
    constructor
    · intro hok
      rcases hf with rfl | rfl <;>
        simp [fetchColumn, hdc, readOk, hret, hind, NewBigDecimal, hok]
    · intro hno
      rcases hf with rfl | rfl <;>
        simp [fetchColumn, hdc, readOk, hret, hind, NewBigDecimal, hno]
  · intro hf p g hp hpos halloc hg
    subst hp hg
    have hval : (fetchColumn h d (stateAtColumn h d s i) i).value
        = some (.byteArray (filledBlock h (d.SQLGetData s1 i .SQL_C_BINARY 0).1.ind.toNat
            (d.SQLGetData (d.SQLGetData s1 i .SQL_C_BINARY 0).2 i .SQL_C_BINARY
              (d.SQLGetData s1 i .SQL_C_BINARY 0).1.ind).1.buf)) := by
      rcases hf with rfl | rfl | rfl <;>
        simp [fetchColumn, hdc, hpos, halloc]
    refine ⟨by rw [hval], ?_⟩
    intro hlen
    have e : (d.SQLGetData s1 i .SQL_C_BINARY 0).1.ind.toNat
        = (d.SQLGetData (d.SQLGetData s1 i .SQL_C_BINARY 0).2 i .SQL_C_BINARY
              (d.SQLGetData s1 i .SQL_C_BINARY 0).1.ind).1.buf.length := by omega
    rw [hval, e, filledBlock_of_length]
  · intro hf g hg hret hind
    subst hg
    rcases hf with rfl | rfl | rfl | rfl | rfl | rfl <;>
      simp [fetchColumn, hdc, readOk, hret, hind, NewStringUTF]
  · intro hf g hg hret hind
    subst hg
    rcases hf with rfl | rfl <;>
      simp [fetchColumn, hdc, readOk, hret, hind, dateInMillis, tmDate]
  · intro hf g hg hret hind
    subst hg
    rcases hf with rfl | rfl <;>
      simp [fetchColumn, hdc, readOk, hret, hind, timeInMillis]
  · intro hf g hg hret hind
    subst hg
    rcases hf with rfl | rfl <;>
      simp [fetchColumn, hdc, readOk, hret, hind, timestampInMillis, tmTimestamp]

/-- C1 amended, at a concrete input: the first column of the row `(42, "Alice")`, an
INTEGER column holding 42, yields the `Integer` 42 at index 0. -/
theorem C1_integer_42_witness :
    (fetchArray plainHost scripted usersQuery).result
        = some [some (.integer 42), some (.string "Alice".toList)] ∧
      ([some (.integer 42), some (.string "Alice".toList)] : List JRef)[1 - 1]?
        = some (some (.integer 42)) :=
  ⟨by decide,
   (C1_typed_value_at_column_position plainHost scripted usersQuery
      [some (.integer 42), some (.string "Alice".toList)] 1 SQL_INTEGER
      (stateAfterFetch scripted usersQuery) (by decide) (by decide) (by decide) (by decide)).1
      (Or.inl rfl) _ rfl (by decide) (by decide)⟩

/-- C2: in a row returned by `fetchArray`, a column `i` of any family of the dispatch table
other than the fallback (integer, 64-bit integer, float, double, decimal, character,
binary, date, time, timestamp) whose read reports the indicator `SQL_NULL_DATA` holds
`null` at index `i - 1`, whatever status the read returned and whatever it left in the
buffer. -/
theorem C2_null_indicator_gives_null {σ : Type} (h : Host) (d : Driver σ) (s : σ)
    (row : List JRef) (i : Nat) (dataType : Int) (s1 : σ)
    (hrow : (fetchArray h d s).result = some row)
    (h1 : 1 ≤ i) (hn : (i : Int) ≤ (d.SQLNumResultCols s).1.columnCount)
    (hdc : d.SQLDescribeCol (stateAtColumn h d s i) i = (dataType, s1)) :
    ((dataType = SQL_INTEGER ∨ dataType = SQL_SMALLINT ∨ dataType = SQL_TINYINT) →
      (d.SQLGetData s1 i .SQL_C_SLONG 4).1.ind = SQL_NULL_DATA → row[i - 1]? = some none) ∧
    (dataType = SQL_BIGINT →
      (d.SQLGetData s1 i .SQL_C_SBIGINT 8).1.ind = SQL_NULL_DATA → row[i - 1]? = some none) ∧
    ((dataType = SQL_REAL ∨ dataType = SQL_FLOAT) →
      (d.SQLGetData s1 i .SQL_C_FLOAT 4).1.ind = SQL_NULL_DATA → row[i - 1]? = some none) ∧
    (dataType = SQL_DOUBLE →
      (d.SQLGetData s1 i .SQL_C_DOUBLE 8).1.ind = SQL_NULL_DATA → row[i - 1]? = some none) ∧
    ((dataType = SQL_NUMERIC ∨ dataType = SQL_DECIMAL
        ∨ dataType = SQL_CHAR ∨ dataType = SQL_VARCHAR ∨ dataType = SQL_LONGVARCHAR
        ∨ dataType = SQL_WCHAR ∨ dataType = SQL_WVARCHAR ∨ dataType = SQL_WLONGVARCHAR) →
      (d.SQLGetData s1 i .SQL_C_CHAR 256).1.ind = SQL_NULL_DATA → row[i - 1]? = some none) ∧
    ((dataType = SQL_BINARY ∨ dataType = SQL_VARBINARY ∨ dataType = SQL_LONGVARBINARY) →
      (d.SQLGetData s1 i .SQL_C_BINARY 0).1.ind = SQL_NULL_DATA → row[i - 1]? = some none) ∧
    ((dataType = SQL_DATE ∨ dataType = SQL_TYPE_DATE) →
      (d.SQLGetData s1 i .SQL_C_TYPE_DATE 6).1.ind = SQL_NULL_DATA →
        row[i - 1]? = some none) ∧
    ((dataType = SQL_TIME ∨ dataType = SQL_TYPE_TIME) →
      (d.SQLGetData s1 i .SQL_C_TYPE_TIME 6).1.ind = SQL_NULL_DATA →
        row[i - 1]? = some none) ∧
    ((dataType = SQL_TIMESTAMP ∨ dataType = SQL_TYPE_TIMESTAMP) →
      (d.SQLGetData s1 i .SQL_C_TYPE_TIMESTAMP 16).1.ind = SQL_NULL_DATA →
        row[i - 1]? = some none) := by
  rw [fetchArray_get h d s row hrow i h1 hn]
  refine ⟨?_, ?_, ?_, ?_, ?_, ?_, ?_, ?_, ?_⟩
  · intro hf hind
    rcases hf with rfl | rfl | rfl <;>
      simp [fetchColumn, hdc, readOk, hind, SQL_NULL_DATA]
  · intro hf hind
    subst hf
    simp [fetchColumn, hdc, readOk, hind, SQL_NULL_DATA]
  · intro hf hind
    rcases hf with rfl | rfl <;>
      simp [fetchColumn, hdc, readOk, hind, SQL_NULL_DATA]
  · intro hf hind
    subst hf
    simp [fetchColumn, hdc, readOk, hind, SQL_NULL_DATA]
  · intro hf hind
    rcases hf with rfl | rfl | rfl | rfl | rfl | rfl | rfl | rfl <;>
      simp [fetchColumn, hdc, readOk, hind, SQL_NULL_DATA]
  · intro hf hind
    rcases hf with rfl | rfl | rfl <;>
      simp [fetchColumn, hdc, readOk, hind, SQL_NULL_DATA]
  · intro hf hind
    rcases hf with rfl | rfl <;>
      simp [fetchColumn, hdc, readOk, hind, SQL_NULL_DATA]
  · intro hf hind
    rcases hf with rfl | rfl <;>
      simp [fetchColumn, hdc, readOk, hind, SQL_NULL_DATA]
  · intro hf hind
    rcases hf with rfl | rfl <;>
      simp [fetchColumn, hdc, readOk, hind, SQL_NULL_DATA]

/-- C2, at a concrete input: a BIGINT column whose read reports `SQL_NULL_DATA` with 99 left
in the buffer yields `null`. -/
theorem C2_null_bigint_witness :
    (fetchArray plainHost scripted nullBigintQuery).result = some [none] ∧
      ([none] : List JRef)[1 - 1]? = some none :=
  ⟨by decide,
   (C2_null_indicator_gives_null plainHost scripted nullBigintQuery [none] 1 SQL_BIGINT
      (stateAfterFetch scripted nullBigintQuery) (by decide) (by decide) (by decide)
      (by decide)).2.1 rfl (by decide)⟩

/-- C3 as stated fails: the read of column 1 returns `SQL_ERROR`, yet `fetchArray` returns
the row, with `null` at the failed column and the `Integer` 7 at the other, and leaves no
exception pending. -/
theorem C3_failed_read_row_is_returned :
    (scripted.SQLGetData (stateAtColumn plainHost scripted failedReadQuery 1) 1
        .SQL_C_SLONG 4).1.ret = SQL_ERROR ∧
      (fetchArray plainHost scripted failedReadQuery).result
        = some [none, some (.integer 7)] ∧
      (fetchArray plainHost scripted failedReadQuery).pending = false := by
  decide

/-- C3, amended: once the native fetch has succeeded, `fetchArray` returns a row of
`columnCount` positions whatever the per-column reads return.  A column (of a family other
than binary and the fallback) whose read returns a status other than `SQL_SUCCESS` and
`SQL_SUCCESS_WITH_INFO` holds `null` at its position, and no exception is raised for it:
none is pending on return unless a byte-array allocation failed or `BigDecimal(String)`
refused the text of a NUMERIC or DECIMAL column. -/
theorem C3_failed_read_yields_null_in_returned_row {σ : Type} (h : Host) (d : Driver σ)
    (s : σ)
    (hnc : (d.SQLNumResultCols s).1.ret = SQL_SUCCESS)
    (hpos : 0 ≤ (d.SQLNumResultCols s).1.columnCount)
    (halloc : h.arrayAlloc (d.SQLNumResultCols s).1.columnCount.toNat = true)
    (hfetch : (d.SQLFetch (d.SQLNumResultCols s).2).1 = SQL_SUCCESS
      ∨ (d.SQLFetch (d.SQLNumResultCols s).2).1 = SQL_SUCCESS_WITH_INFO) :
    ∃ row, (fetchArray h d s).result = some row ∧
      (row.length : Int) = (d.SQLNumResultCols s).1.columnCount ∧
      ((∀ n, h.byteArrayAlloc n = true) →
        (∀ t j, ((d.SQLDescribeCol t j).1 = SQL_NUMERIC ∨ (d.SQLDescribeCol t j).1 = SQL_DECIMAL) →
          h.bigDecimal (cString (d.SQLGetData (d.SQLDescribeCol t j).2 j .SQL_C_CHAR 256).1.buf)
            = true) →
        (fetchArray h d s).pending = false) ∧
      ∀ (i : Nat) (dataType : Int) (s1 : σ), 1 ≤ i →
        (i : Int) ≤ (d.SQLNumResultCols s).1.columnCount →
        d.SQLDescribeCol (stateAtColumn h d s i) i = (dataType, s1) →
        ((dataType = SQL_INTEGER ∨ dataType = SQL_SMALLINT ∨ dataType = SQL_TINYINT) →
          (d.SQLGetData s1 i .SQL_C_SLONG 4).1.ret ≠ SQL_SUCCESS →
          (d.SQLGetData s1 i .SQL_C_SLONG 4).1.ret ≠ SQL_SUCCESS_WITH_INFO →
          row[i - 1]? = some none) ∧
        (dataType = SQL_BIGINT →
          (d.SQLGetData s1 i .SQL_C_SBIGINT 8).1.ret ≠ SQL_SUCCESS →
          (d.SQLGetData s1 i .SQL_C_SBIGINT 8).1.ret ≠ SQL_SUCCESS_WITH_INFO →
          row[i - 1]? = some none) ∧
        ((dataType = SQL_REAL ∨ dataType = SQL_FLOAT) →
          (d.SQLGetData s1 i .SQL_C_FLOAT 4).1.ret ≠ SQL_SUCCESS →
          (d.SQLGetData s1 i .SQL_C_FLOAT 4).1.ret ≠ SQL_SUCCESS_WITH_INFO →
          row[i - 1]? = some none) ∧
        (dataType = SQL_DOUBLE →
          (d.SQLGetData s1 i .SQL_C_DOUBLE 8).1.ret ≠ SQL_SUCCESS →
          (d.SQLGetData s1 i .SQL_C_DOUBLE 8).1.ret ≠ SQL_SUCCESS_WITH_INFO →
          row[i - 1]? = some none) ∧
        ((dataType = SQL_NUMERIC ∨ dataType = SQL_DECIMAL
            ∨ dataType = SQL_CHAR ∨ dataType = SQL_VARCHAR ∨ dataType = SQL_LONGVARCHAR
            ∨ dataType = SQL_WCHAR ∨ dataType = SQL_WVARCHAR ∨ dataType = SQL_WLONGVARCHAR) →
          (d.SQLGetData s1 i .SQL_C_CHAR 256).1.ret ≠ SQL_SUCCESS →
          (d.SQLGetData s1 i .SQL_C_CHAR 256).1.ret ≠ SQL_SUCCESS_WITH_INFO →
          row[i - 1]? = some none) ∧
        ((dataType = SQL_DATE ∨ dataType = SQL_TYPE_DATE) →
          (d.SQLGetData s1 i .SQL_C_TYPE_DATE 6).1.ret ≠ SQL_SUCCESS →
          (d.SQLGetData s1 i .SQL_C_TYPE_DATE 6).1.ret ≠ SQL_SUCCESS_WITH_INFO →
          row[i - 1]? = some none) ∧
        ((dataType = SQL_TIME ∨ dataType = SQL_TYPE_TIME) →
          (d.SQLGetData s1 i .SQL_C_TYPE_TIME 6).1.ret ≠ SQL_SUCCESS →
          (d.SQLGetData s1 i .SQL_C_TYPE_TIME 6).1.ret ≠ SQL_SUCCESS_WITH_INFO →
          row[i - 1]? = some none) ∧
        ((dataType = SQL_TIMESTAMP ∨ dataType = SQL_TYPE_TIMESTAMP) →
          (d.SQLGetData s1 i .SQL_C_TYPE_TIMESTAMP 16).1.ret ≠ SQL_SUCCESS →
          (d.SQLGetData s1 i .SQL_C_TYPE_TIMESTAMP 16).1.ret ≠ SQL_SUCCESS_WITH_INFO →
          row[i - 1]? = some none) := by
  have hfa := fetchArray_of_fetched h d s hnc hpos halloc hfetch
  have hres : (fetchArray h d s).result = some
      (columnLoop h d (d.SQLNumResultCols s).1.columnCount.toNat 1
          { rowArray := List.replicate (d.SQLNumResultCols s).1.columnCount.toNat none
            pending := false
            st := stateAfterFetch d s
            calls := [.numResultCols, .fetch] }).rowArray := by
    rw [hfa]
  refine ⟨_, hres, fetchArray_length h d s _ hres, ?_, ?_⟩
  · intro hb hdec
    rw [hfa]
    exact columnLoop_pending h d hb hdec _ _ _ rfl
  · intro i dataType s1 h1 hn hdc
    rw [fetchArray_get h d s _ hres i h1 hn]
    refine ⟨?_, ?_, ?_, ?_, ?_, ?_, ?_, ?_⟩
    · intro hf hret _
      rcases hf with rfl | rfl | rfl <;>
        simp [fetchColumn, hdc, readOk, hret]
    · intro hf hret _
      subst hf
      simp [fetchColumn, hdc, readOk, hret]
    · intro hf hret _
      rcases hf with rfl | rfl <;>
        simp [fetchColumn, hdc, readOk, hret]
    · intro hf hret _
      subst hf
      simp [fetchColumn, hdc, readOk, hret]
    · intro hf hret _
      rcases hf with rfl | rfl | rfl | rfl | rfl | rfl | rfl | rfl <;>
        simp [fetchColumn, hdc, readOk, hret]
    · intro hf hret _
      rcases hf with rfl | rfl <;>
        simp [fetchColumn, hdc, readOk, hret]
    · intro hf hret _
      rcases hf with rfl | rfl <;>
        simp [fetchColumn, hdc, readOk, hret]
    · intro hf hret _
      rcases hf with rfl | rfl <;>
        simp [fetchColumn, hdc, readOk, hret]

/-- C3 amended, at a concrete input: the row with a failed first column is returned with
`null` at index 0. -/
theorem C3_failed_read_witness :
    ∃ row, (fetchArray plainHost scripted failedReadQuery).result = some row ∧
      row[1 - 1]? = some none := by
  obtain ⟨row, hrow, _, _, hcol⟩ :=
    C3_failed_read_yields_null_in_returned_row plainHost scripted failedReadQuery
      (by decide) (by decide) (by decide) (by decide)
  exact ⟨row, hrow,
    (hcol 1 SQL_INTEGER (stateAfterFetch scripted failedReadQuery) (by decide) (by decide)
      (by decide)).1 (Or.inl rfl) (by decide) (by decide)⟩

set_option maxRecDepth 20000 in
/-- C4, evaluated on the code: a VARCHAR value of 300 characters is read with
`SQL_SUCCESS_WITH_INFO`, a non-null indicator and the truncated prefix of 255 characters in
the buffer, and `fetchArray` stores `null` for it, not the prefix. -/
theorem C4_truncated_text_yields_null :
    (scripted.SQLGetData (stateAtColumn plainHost scripted longTextQuery 1) 1
        .SQL_C_CHAR 256).1.ret = SQL_SUCCESS_WITH_INFO ∧
      (scripted.SQLGetData (stateAtColumn plainHost scripted longTextQuery 1) 1
        .SQL_C_CHAR 256).1.ind ≠ SQL_NULL_DATA ∧
      cString (scripted.SQLGetData (stateAtColumn plainHost scripted longTextQuery 1) 1
        .SQL_C_CHAR 256).1.buf = List.replicate 255 'a' ∧
      (fetchArray plainHost scripted longTextQuery).result = some [none] ∧
      (fetchArray plainHost scripted longTextQuery).result
        ≠ some [some (.string (List.replicate 255 'a'))] := by
  decide

/-- C5 as stated fails: for a VARBINARY value whose length probe reports the length 0,
`fetchArray` stores `null`, not an empty byte array. -/
theorem C5_empty_binary_yields_null :
    (scripted.SQLGetData (stateAtColumn plainHost scripted emptyBinaryQuery 1) 1
        .SQL_C_BINARY 0).1.ind = 0 ∧
      (fetchArray plainHost scripted emptyBinaryQuery).result = some [none] ∧
      (fetchArray plainHost scripted emptyBinaryQuery).result
        ≠ some [some (.byteArray [])] := by
  decide

/-- C5, amended: for a binary column (BINARY, VARBINARY, LONGVARBINARY) whose length probe
reports a length `n > 0`, and whose byte array the host allocates, `fetchArray` stores a
byte array of exactly `n` bytes; when the probe reports the length 0 it stores `null`. -/
theorem C5_binary_length {σ : Type} (h : Host) (d : Driver σ) (s : σ)
    (row : List JRef) (i : Nat) (dataType : Int) (s1 : σ)
    (hrow : (fetchArray h d s).result = some row)
    (h1 : 1 ≤ i) (hn : (i : Int) ≤ (d.SQLNumResultCols s).1.columnCount)
    (hdc : d.SQLDescribeCol (stateAtColumn h d s i) i = (dataType, s1))
    (hf : dataType = SQL_BINARY ∨ dataType = SQL_VARBINARY ∨ dataType = SQL_LONGVARBINARY) :
    (∀ n : Nat, 0 < n → (d.SQLGetData s1 i .SQL_C_BINARY 0).1.ind = (n : Int) →
        h.byteArrayAlloc n = true →
        ∃ bytes, row[i - 1]? = some (some (.byteArray bytes)) ∧ bytes.length = n) ∧
    ((d.SQLGetData s1 i .SQL_C_BINARY 0).1.ind = 0 → row[i - 1]? = some none) := by
  rw [fetchArray_get h d s row hrow i h1 hn]
  constructor
  · intro n hpos hind halloc
    refine ⟨filledBlock h n (d.SQLGetData (d.SQLGetData s1 i .SQL_C_BINARY 0).2 i
      .SQL_C_BINARY (n : Int)).1.buf, ?_, filledBlock_length _ _ _⟩
    have hp : (0 : Int) < (n : Int) := by exact_mod_cast hpos
    rcases hf with rfl | rfl | rfl <;>
      simp [fetchColumn, hdc, hind, hp, halloc]
  · intro hind
    rcases hf with rfl | rfl | rfl <;>
      simp [fetchColumn, hdc, hind]

/-- C5 amended, at a concrete input: a VARBINARY value of three bytes yields a byte array
of length 3. -/
theorem C5_three_bytes_witness :
    (fetchArray plainHost scripted threeBytesQuery).result
        = some [some (.byteArray [1, 2, 3])] ∧
      ∃ bytes, ([some (.byteArray [1, 2, 3])] : List JRef)[1 - 1]?
        = some (some (.byteArray bytes)) ∧ bytes.length = 3 :=
  ⟨by decide,
   (C5_binary_length plainHost scripted threeBytesQuery [some (.byteArray [1, 2, 3])] 1
      SQL_VARBINARY (stateAfterFetch scripted threeBytesQuery) (by decide) (by decide)
      (by decide) (by decide) (Or.inr (Or.inl rfl))).1 3 (by decide) (by decide) (by decide)⟩

/-- C6 as stated fails: a DECIMAL column whose text `NaN` is read with `SQL_SUCCESS`, a
non-null indicator and room to spare in the buffer yields `null`, not a decimal, and the
`NumberFormatException` of the constructor is pending on return. -/
theorem C6_refused_text_yields_null :
    (scripted.SQLGetData (stateAtColumn plainHost scripted nanDecimalQuery 1) 1
        .SQL_C_CHAR 256).1.ret = SQL_SUCCESS ∧
      (scripted.SQLGetData (stateAtColumn plainHost scripted nanDecimalQuery 1) 1
        .SQL_C_CHAR 256).1.ind ≠ SQL_NULL_DATA ∧
      (scripted.SQLGetData (stateAtColumn plainHost scripted nanDecimalQuery 1) 1
        .SQL_C_CHAR 256).1.buf = "NaN".toList ++ [Char.ofNat 0] ∧
      (fetchArray plainHost scripted nanDecimalQuery).result = some [none] ∧
      (fetchArray plainHost scripted nanDecimalQuery).pending = true := by
  decide

/-- C6, amended: a NUMERIC or DECIMAL column whose read returns `SQL_SUCCESS` with a
non-null indicator and leaves in the buffer the text `text` followed by the terminator
yields, when `BigDecimal(String)` accepts `text`, the `BigDecimal` constructed from exactly
`text`: the characters go from the driver's buffer to the constructor as a string, through
no numeric type.  When the constructor refuses `text` the position holds `null` and the
exception is pending on return. -/
theorem C6_decimal_keeps_driver_text {σ : Type} (h : Host) (d : Driver σ) (s : σ)
    (row : List JRef) (i : Nat) (dataType : Int) (s1 : σ) (text rest : List Char)
    (hrow : (fetchArray h d s).result = some row)
    (h1 : 1 ≤ i) (hn : (i : Int) ≤ (d.SQLNumResultCols s).1.columnCount)
    (hdc : d.SQLDescribeCol (stateAtColumn h d s i) i = (dataType, s1))
    (hf : dataType = SQL_NUMERIC ∨ dataType = SQL_DECIMAL)
    (hret : (d.SQLGetData s1 i .SQL_C_CHAR 256).1.ret = SQL_SUCCESS)
    (hind : (d.SQLGetData s1 i .SQL_C_CHAR 256).1.ind ≠ SQL_NULL_DATA)
    (hnul : ∀ c ∈ text, c ≠ Char.ofNat 0)
    (hbuf : (d.SQLGetData s1 i .SQL_C_CHAR 256).1.buf = text ++ Char.ofNat 0 :: rest) :
    (h.bigDecimal text = true → row[i - 1]? = some (some (.bigDecimal text))) ∧
    (h.bigDecimal text = false →
      row[i - 1]? = some none ∧ (fetchArray h d s).pending = true) := by
  constructor
  · intro hok
    rw [fetchArray_get h d s row hrow i h1 hn]
    rcases hf with rfl | rfl <;>
      simp [fetchColumn, hdc, readOk, hret, hind, hbuf, cString_terminated text rest hnul,
        NewBigDecimal, hok]
  · intro hno
    constructor
    · rw [fetchArray_get h d s row hrow i h1 hn]
      rcases hf with rfl | rfl <;>
        simp [fetchColumn, hdc, readOk, hret, hind, hbuf, cString_terminated text rest hnul,
          NewBigDecimal, hno]
    · apply fetchArray_pending_at h d s row hrow i h1 hn
      rcases hf with rfl | rfl <;>
        simp [fetchColumn, hdc, readOk, hret, hind, hbuf, cString_terminated text rest hnul,
          hno]

/-- C6 amended, at a concrete input: the DECIMAL text `12345678901234567890.5` yields the
`BigDecimal` of the text `12345678901234567890.5`. -/
theorem C6_decimal_witness :
    (fetchArray plainHost scripted decimalQuery).result
        = some [some (.bigDecimal "12345678901234567890.5".toList)] ∧
      ([some (.bigDecimal "12345678901234567890.5".toList)] : List JRef)[1 - 1]?
        = some (some (.bigDecimal "12345678901234567890.5".toList)) :=
  ⟨by decide,
   (C6_decimal_keeps_driver_text plainHost scripted decimalQuery
      [some (.bigDecimal "12345678901234567890.5".toList)] 1 SQL_DECIMAL
      (stateAfterFetch scripted decimalQuery) "12345678901234567890.5".toList []
      (by decide) (by decide) (by decide) (by decide) (Or.inr rfl) (by decide) (by decide)
      (by decide) (by decide)).1 (by decide)⟩

/-- C7: a column `i` whose type code (a 16-bit signed value) is not a `case` label of the
switch holds at index `i - 1` the text `Tipo no manejado: ` followed by the decimal
rendering of the code; the text, with its terminator, fits the 128-byte buffer, so nothing
is cut; the call issues no `SQLGetData` for column `i`; and the column raises nothing. -/
theorem C7_unrecognised_type_fallback_text {σ : Type} (h : Host) (d : Driver σ) (s : σ)
    (row : List JRef) (i : Nat) (dataType : Int) (s1 : σ)
    (hrow : (fetchArray h d s).result = some row)
    (h1 : 1 ≤ i) (hn : (i : Int) ≤ (d.SQLNumResultCols s).1.columnCount)
    (hdc : d.SQLDescribeCol (stateAtColumn h d s i) i = (dataType, s1))
    (hun : ¬ recognised dataType)
    (hlo : -32768 ≤ dataType) (hhi : dataType ≤ 32767) :
    row[i - 1]? = some (some (.string ("Tipo no manejado: ".toList ++ fmtD dataType))) ∧
    typeInfo dataType = "Tipo no manejado: ".toList ++ fmtD dataType ∧
    (typeInfo dataType).length + 1 ≤ 128 ∧
    (∀ t n, Call.getData i t n ∉ (fetchArray h d s).calls) ∧
    (fetchColumn h d (stateAtColumn h d s i) i).pending = false := by
  have hfit := typeInfo_fits dataType hlo hhi
  have hdt : (d.SQLDescribeCol (stateAtColumn h d s i) i).1 = dataType := by rw [hdc]
  have hun2 : ¬ recognised (d.SQLDescribeCol (stateAtColumn h d s i) i).1 := by rwa [hdt]
  have hfam : familyOf dataType = .unhandled := by
    unfold recognised at hun
    simp only [not_or] at hun
    simp [familyOf, hun]
  refine ⟨?_, hfit.1, hfit.2, ?_, ?_⟩
  · have hv : (fetchColumn h d (stateAtColumn h d s i) i).value
        = some (NewStringUTF (typeInfo dataType)) := by
      simp [fetchColumn, hdc, hfam]
    rw [fetchArray_get h d s row hrow i h1 hn, hv, NewStringUTF, hfit.1, cString_label]
  · intro t n hmem
    obtain ⟨hnc, hpos, halloc, hfetch, _⟩ := fetchArray_some h d s row hrow
    rw [fetchArray_of_fetched h d s hnc hpos halloc hfetch] at hmem
    rcases columnLoop_calls h d _ _ _ _ hmem with hin | ⟨j, hj1, _, hj3⟩
    · simp at hin
    · rcases fetchColumn_calls_column h d _ j _ hj3 with e | ⟨t2, n2, e⟩
      · simp at e
      · have hij : i = j := (Call.getData.inj e).1
        subst hij
        have hc := fetchColumn_calls_unrecognised h d (stateAtColumn h d s i) i hun2
        unfold stateAtColumn at hc
        rw [hc] at hj3
        simp at hj3
  · simp [fetchColumn, hdc, hfam]

/-- C7, at a concrete input: a column of type code -7 yields the text
`Tipo no manejado: -7`. -/
theorem C7_bit_column_witness :
    (fetchArray plainHost scripted bitQuery).result
        = some [some (.string "Tipo no manejado: -7".toList)] ∧
      ([some (.string "Tipo no manejado: -7".toList)] : List JRef)[1 - 1]?
        = some (some (.string ("Tipo no manejado: ".toList ++ fmtD (-7)))) :=
  ⟨by decide,
   (C7_unrecognised_type_fallback_text plainHost scripted bitQuery
      [some (.string "Tipo no manejado: -7".toList)] 1 (-7)
      (stateAfterFetch scripted bitQuery) (by decide) (by decide) (by decide) (by decide)
      (by decide) (by decide) (by decide)).1⟩

/-- C9: when the native fetch reports `SQL_NO_DATA`, `fetchArray` returns `NULL`, its signal
for the end of the data, with no exception pending, having issued only the column-count
call and the fetch, so no column is described or read.  Hence, against a forward-only cursor
with `n` rows left, call number `k + 1` returns a row when `k < n` and the end-of-data
signal when `n ≤ k`, however large `k` is. -/
theorem C9_end_of_data_after_last_row :
    (∀ (σ : Type) (h : Host) (d : Driver σ) (s : σ),
      (d.SQLNumResultCols s).1.ret = SQL_SUCCESS →
      0 ≤ (d.SQLNumResultCols s).1.columnCount →
      h.arrayAlloc (d.SQLNumResultCols s).1.columnCount.toNat = true →
      (d.SQLFetch (d.SQLNumResultCols s).2).1 = SQL_NO_DATA →
      (fetchArray h d s).result = none ∧ (fetchArray h d s).pending = false ∧
        (fetchArray h d s).calls = [.numResultCols, .fetch]) ∧
    (∀ (σ : Type) (h : Host) (d : Driver σ) (rowsLeft : σ → Nat) (good : σ → Prop),
      ForwardCursor h d rowsLeft good → ∀ s0, good s0 → ∀ k,
        (k < rowsLeft s0 →
          ∃ row, (fetchArray h d (stateAfterCalls h d k s0)).result = some row) ∧
        (rowsLeft s0 ≤ k →
          (fetchArray h d (stateAfterCalls h d k s0)).result = none ∧
          (fetchArray h d (stateAfterCalls h d k s0)).pending = false ∧
          (fetchArray h d (stateAfterCalls h d k s0)).calls = [.numResultCols, .fetch])) := by
  constructor
  · intro σ h d s hnc hpos halloc hnd
    have hneg : ¬ (d.SQLNumResultCols s).1.columnCount < 0 := by omega
    simp [fetchArray, NewObjectArray, hnc, hneg, halloc, hnd]
  · intro σ h d rowsLeft good hc s0 hg k
    obtain ⟨hgk, hrk⟩ := stateAfterCalls_cursor hc k s0 hg
    obtain ⟨_, _, hrow, hend⟩ := fetchArray_cursor hc _ hgk
    exact ⟨fun hk => hrow (by omega), fun hk => hend (by omega)⟩

/-- C9, at a concrete input: on the one-row statement `usersQuery` the first call returns
the row, and the second and the third return the end-of-data signal. -/
theorem C9_users_query_witness :
    (∃ row, (fetchArray plainHost scripted (stateAfterCalls plainHost scripted 0 usersQuery)).result
        = some row) ∧
      (fetchArray plainHost scripted (stateAfterCalls plainHost scripted 1 usersQuery)).result
        = none ∧
      (fetchArray plainHost scripted (stateAfterCalls plainHost scripted 2 usersQuery)).result
        = none :=
  ⟨(C9_end_of_data_after_last_row.2 Script plainHost scripted _ _ scripted_forwardCursor
      usersQuery (by decide) 0).1 (by decide),
   ((C9_end_of_data_after_last_row.2 Script plainHost scripted _ _ scripted_forwardCursor
      usersQuery (by decide) 1).2 (by decide)).1,
   ((C9_end_of_data_after_last_row.2 Script plainHost scripted _ _ scripted_forwardCursor
      usersQuery (by decide) 2).2 (by decide)).1⟩

/-- C10: a TIME column read with `SQL_SUCCESS` and a non-null indicator, whose record has
`hour ≤ 23`, `minute ≤ 59` and `second ≤ 59`, yields the `Time` of
`(hour * 3600 + minute * 60 + second) * 1000` milliseconds: every step of the 32-bit signed
computation stays in range, so the wrapped result is the exact one, and it lies in
`[0, 86400000)`. -/
theorem C10_time_millis_since_midnight {σ : Type} (h : Host) (d : Driver σ) (s : σ)
    (row : List JRef) (i : Nat) (dataType : Int) (s1 : σ) (t : TIME_STRUCT)
    (hrow : (fetchArray h d s).result = some row)
    (h1 : 1 ≤ i) (hn : (i : Int) ≤ (d.SQLNumResultCols s).1.columnCount)
    (hdc : d.SQLDescribeCol (stateAtColumn h d s i) i = (dataType, s1))
    (hf : dataType = SQL_TIME ∨ dataType = SQL_TYPE_TIME)
    (hret : (d.SQLGetData s1 i .SQL_C_TYPE_TIME 6).1.ret = SQL_SUCCESS)
    (hind : (d.SQLGetData s1 i .SQL_C_TYPE_TIME 6).1.ind ≠ SQL_NULL_DATA)
    (hbuf : (d.SQLGetData s1 i .SQL_C_TYPE_TIME 6).1.buf = t)
    (hh : t.hour ≤ 23) (hm : t.minute ≤ 59) (hs : t.second ≤ 59) :
    row[i - 1]? = some (some (.time
        (((t.hour : Int) * 3600 + (t.minute : Int) * 60 + (t.second : Int)) * 1000))) ∧
      timeInMillis t
        = ((t.hour : Int) * 3600 + (t.minute : Int) * 60 + (t.second : Int)) * 1000 ∧
      0 ≤ ((t.hour : Int) * 3600 + (t.minute : Int) * 60 + (t.second : Int)) * 1000 ∧
      ((t.hour : Int) * 3600 + (t.minute : Int) * 60 + (t.second : Int)) * 1000 < 86400000 := by
  have hex := timeInMillis_exact t hh hm hs
  refine ⟨?_, hex, by omega, by omega⟩
  rw [fetchArray_get h d s row hrow i h1 hn, ← hex]
  rcases hf with rfl | rfl <;>
    simp [fetchColumn, hdc, readOk, hret, hind, hbuf]

/-- C10, at a concrete input: the TIME 23:59:59 yields the `Time` of 86399000
milliseconds. -/
theorem C10_last_second_witness :
    (fetchArray plainHost scripted lastSecondQuery).result = some [some (.time 86399000)] ∧
      ([some (.time 86399000)] : List JRef)[1 - 1]?
        = some (some (.time 86399000)) :=
  ⟨by decide,
   (C10_time_millis_since_midnight plainHost scripted lastSecondQuery
      [some (.time 86399000)] 1 SQL_TYPE_TIME (stateAfterFetch scripted lastSecondQuery)
      ⟨23, 59, 59⟩ (by decide) (by decide) (by decide) (by decide) (Or.inr rfl) (by decide)
      (by decide) (by decide) (by decide) (by decide) (by decide)).1⟩

/-- C11: a TIMESTAMP column read with `SQL_SUCCESS` and a non-null indicator yields the
`Timestamp` of `1000 * S + fraction / 1000000` milliseconds, where `S` is what `mktime`
returns for `(year - 1900, month - 1, day, hour, minute, second)` and `fraction` is the
nanoseconds field (a 32-bit unsigned value; `S` is taken within `10^15` seconds of the
epoch, so that the 64-bit arithmetic does not wrap).  For `fraction < 1000000000` the added
term is at most 999: the fraction never carries into the seconds. -/
theorem C11_timestamp_millis_since_epoch {σ : Type} (h : Host) (d : Driver σ) (s : σ)
    (row : List JRef) (i : Nat) (dataType : Int) (s1 : σ) (ts : TIMESTAMP_STRUCT)
    (hrow : (fetchArray h d s).result = some row)
    (h1 : 1 ≤ i) (hn : (i : Int) ≤ (d.SQLNumResultCols s).1.columnCount)
    (hdc : d.SQLDescribeCol (stateAtColumn h d s i) i = (dataType, s1))
    (hf : dataType = SQL_TIMESTAMP ∨ dataType = SQL_TYPE_TIMESTAMP)
    (hret : (d.SQLGetData s1 i .SQL_C_TYPE_TIMESTAMP 16).1.ret = SQL_SUCCESS)
    (hind : (d.SQLGetData s1 i .SQL_C_TYPE_TIMESTAMP 16).1.ind ≠ SQL_NULL_DATA)
    (hbuf : (d.SQLGetData s1 i .SQL_C_TYPE_TIMESTAMP 16).1.buf = ts)
    (hlo : -1000000000000000 ≤ h.mktime (tmTimestamp ts))
    (hhi : h.mktime (tmTimestamp ts) ≤ 1000000000000000)
    (hfr : ts.fraction < 4294967296) :
    row[i - 1]? = some (some (.timestamp
        (1000 * h.mktime
            { tm_sec := ts.second, tm_min := ts.minute, tm_hour := ts.hour, tm_mday := ts.day,
              tm_mon := (ts.month : Int) - 1, tm_year := ts.year - 1900 }
          + ((ts.fraction / 1000000 : Nat) : Int)))) ∧
      (ts.fraction < 1000000000 → ts.fraction / 1000000 ≤ 999) := by
  have hex := timestampInMillis_exact h ts hlo hhi hfr
  refine ⟨?_, fun hlt => by omega⟩
  have htm : (⟨ts.second, ts.minute, ts.hour, ts.day, (ts.month : Int) - 1,
      ts.year - 1900⟩ : TM) = tmTimestamp ts := rfl
  rw [fetchArray_get h d s row hrow i h1 hn, htm, ← hex]
  rcases hf with rfl | rfl <;>
    simp [fetchColumn, hdc, readOk, hret, hind, hbuf]

/-- C11, at a concrete input: the TIMESTAMP 1970-01-01 00:00:01.5 on a UTC host yields the
`Timestamp` of 1500 milliseconds. -/
theorem C11_one_and_a_half_second_witness :
    (fetchArray plainHost scripted timestampQuery).result = some [some (.timestamp 1500)] ∧
      ([some (.timestamp 1500)] : List JRef)[1 - 1]? = some (some (.timestamp 1500)) ∧
      500000000 / 1000000 ≤ 999 :=
  ⟨by decide,
   (C11_timestamp_millis_since_epoch plainHost scripted timestampQuery
      [some (.timestamp 1500)] 1 SQL_TYPE_TIMESTAMP (stateAfterFetch scripted timestampQuery)
      ⟨1970, 1, 1, 0, 0, 1, 500000000⟩ (by decide) (by decide) (by decide) (by decide)
      (Or.inr rfl) (by decide) (by decide) (by decide) (by decide) (by decide)
      (by decide)).1,
   (C11_timestamp_millis_since_epoch plainHost scripted timestampQuery
      [some (.timestamp 1500)] 1 SQL_TYPE_TIMESTAMP (stateAfterFetch scripted timestampQuery)
      ⟨1970, 1, 1, 0, 0, 1, 500000000⟩ (by decide) (by decide) (by decide) (by decide)
      (Or.inr rfl) (by decide) (by decide) (by decide) (by decide) (by decide)
      (by decide)).2 (by decide)⟩

/-- C12 as stated fails: for the column `body`, whose size `SQLDescribeCol` reports as
4294967295 with success, the descriptor returned by `fetchFields` holds the size -1. -/
theorem C12_size_above_int_range_is_wrapped :
    (described.SQLDescribeColInto
        (stateAfterFields described 0 1 (described.SQLNumResultCols longTextStatement).2) 1).1
      = { ret := SQL_SUCCESS, colName := "body".toList ++ [Char.ofNat 0],
          dataType := SQL_LONGVARCHAR, colSize := 4294967295 } ∧
    (fetchFields plainHost described longTextStatement).fieldArray
      = some [some { name := "body".toList, type := SQL_LONGVARCHAR, size := -1 }] := by
  decide

/-- C12, amended: for a statement whose column-count call succeeds with `n` columns (and
whose result array the host allocates), `fetchFields` returns exactly `n` descriptors, the
`k`-th holding the name and the type code that `SQLDescribeCol` reports for column `k`,
and the reported size when it is below `2^31` (in general the size reduced to a signed
32-bit `int`, as which the constructor receives it); it raises nothing when every describe
call succeeds.  It issues only column-count and describe calls, so it does not move the
cursor: against a driver whose metadata calls leave the statement as it is, the statement
state is unchanged, the next `fetchArray` returns what it would have returned, and the
descriptors are the same in every state in which the metadata calls answer the same. -/
theorem C12_describeColumns_shape_and_cursor {σ : Type} (h : Host) (d : FullDriver σ) (s : σ)
    (hnc : (d.SQLNumResultCols s).1.ret = SQL_SUCCESS)
    (hpos : 0 ≤ (d.SQLNumResultCols s).1.columnCount)
    (halloc : h.arrayAlloc (d.SQLNumResultCols s).1.columnCount.toNat = true) :
    (∃ fields, (fetchFields h d s).fieldArray = some fields ∧
      (fields.length : Int) = (d.SQLNumResultCols s).1.columnCount ∧
      ∀ (k : Nat) (dc : DescribeCol), 1 ≤ k → (k : Int) ≤ (d.SQLNumResultCols s).1.columnCount →
        (d.SQLDescribeColInto (stateAfterFields d (k - 1) 1 (d.SQLNumResultCols s).2) k).1 = dc →
        (dc.colSize < 2147483648 →
          fields[k - 1]? = some (some
            { name := cString dc.colName, type := dc.dataType, size := dc.colSize })) ∧
        fields[k - 1]? = some (some
          { name := cString dc.colName, type := dc.dataType,
            size := ((dc.colSize : Int) + 2147483648) % 4294967296 - 2147483648 })) ∧
    ((∀ k : Nat, 1 ≤ k → (k : Int) ≤ (d.SQLNumResultCols s).1.columnCount →
        (d.SQLDescribeColInto (stateAfterFields d (k - 1) 1 (d.SQLNumResultCols s).2) k).1.ret
            = SQL_SUCCESS ∨
          (d.SQLDescribeColInto (stateAfterFields d (k - 1) 1 (d.SQLNumResultCols s).2) k).1.ret
            = SQL_SUCCESS_WITH_INFO) →
      (fetchFields h d s).pending = false) ∧
    (∀ c ∈ (fetchFields h d s).calls, c = .numResultCols ∨ ∃ i, c = .describeCol i) ∧
    (MetadataOnly d →
      (fetchFields h d s).st = s ∧
      fetchArray h d.toDriver (fetchFields h d s).st = fetchArray h d.toDriver s ∧
      ∀ t, SameShape d s t → (fetchFields h d t).fieldArray = (fetchFields h d s).fieldArray) := by
  have hneg : ¬ (d.SQLNumResultCols s).1.columnCount < 0 := by omega
  refine ⟨?_, ?_, ?_, ?_⟩
  · obtain ⟨b, hb, hlen, _, hget⟩ := fieldsLoop_some d (d.SQLNumResultCols s).1.columnCount.toNat 1
      { fieldArray := (NewObjectArray h (d.SQLNumResultCols s).1.columnCount).map
          (fun a => a.map (fun _ => (none : Option ODBCField)))
        pending := check_error (d.SQLNumResultCols s).1.ret
          || ((NewObjectArray h (d.SQLNumResultCols s).1.columnCount).map
            (fun a => a.map (fun _ => (none : Option ODBCField)))).isNone
        st := (d.SQLNumResultCols s).2
        calls := [.numResultCols] }
      (List.replicate (d.SQLNumResultCols s).1.columnCount.toNat none)
      (by simp [NewObjectArray, hneg, halloc])
    refine ⟨b, hb, by simp [hlen, hpos], ?_⟩
    intro k dc hk1 hkn hdc
    subst hdc
    have := hget (k - 1) (by omega) (by omega) (by simp; omega)
    have e1 : k - 1 + 1 = k := by omega
    have e2 : k - 1 + 1 - 1 = k - 1 := by omega
    have hfield : b[k - 1]? = some (some (odbcField
        (d.SQLDescribeColInto (stateAfterFields d (k - 1) 1 (d.SQLNumResultCols s).2) k).1)) := by
      simpa [e1, e2] using this
    constructor
    · intro hlt
      rw [hfield, odbcField, wrapS_32_of_range _ (by omega) (by omega)]
    · rw [hfield, odbcField, wrapS_32_eq]
  · intro hok
    unfold fetchFields
    apply fieldsLoop_pending
    · simp [check_error, hnc, NewObjectArray, hneg, halloc]
    · intro j h1 h2
      exact check_error_of_success _ (hok j h1 (by omega))
  · intro c hc
    rcases fieldsLoop_calls d _ _ _ c hc with hin | hj
    · exact Or.inl (by simpa using hin)
    · exact Or.inr hj
  · intro hm
    have hst : (fetchFields h d s).st = s := by
      simp [fetchFields, fieldsLoop_st, stateAfterFields_metadataOnly hm, hm.numResultCols]
    refine ⟨hst, by rw [hst], ?_⟩
    intro t hshape
    unfold fetchFields
    simp only [← hshape.1]
    apply fieldsLoop_sameShape hm
    · rfl
    · intro j
      simpa [hm.numResultCols] using (hshape.2 j).symm

/-- C12 amended, at a concrete input: `SELECT id, name FROM users WHERE id=1` is described
as `[id INTEGER 10, name VARCHAR 50]`, before and after its row is fetched. -/
theorem C12_users_statement_witness :
    (∃ fields, (fetchFields plainHost described usersStatement).fieldArray = some fields ∧
      fields[1 - 1]? = some (some { name := "id".toList, type := SQL_INTEGER, size := 10 })) ∧
    (fetchFields plainHost described
        (fetchArray plainHost described.toDriver usersStatement).st).fieldArray
      = (fetchFields plainHost described usersStatement).fieldArray := by
  have hc := C12_describeColumns_shape_and_cursor plainHost described usersStatement
    (by decide) (by decide) (by decide)
  obtain ⟨fields, hf, _, hk⟩ := hc.1
  refine ⟨⟨fields, hf, ?_⟩, ?_⟩
  · have := (hk 1 _ (by decide) (by decide) rfl).1 (by decide)
    simpa [cString, described, usersStatement] using this
  · exact (hc.2.2.2 described_metadataOnly).2.2 _ ⟨rfl, fun i => rfl⟩

/-- C20: for a fetched row (column count reported with success, row array allocated, fetch
successful) whose columns are all character-typed and whose every read returns
`SQL_SUCCESS`, against a driver whose `SQLDescribeCol` leaves the statement as it is, the
`fetchArray` of the build copy and the `fetchArray` of the source tree return the same row:
at each position the text of the buffer where the indicator is not `SQL_NULL_DATA`, and
`null` where it is. -/
theorem C20_build_copy_agrees_on_text_rows {σ : Type} (h : Host) (d : Driver σ) (s : σ)
    (hnc : (d.SQLNumResultCols s).1.ret = SQL_SUCCESS)
    (hpos : 0 ≤ (d.SQLNumResultCols s).1.columnCount)
    (halloc : h.arrayAlloc (d.SQLNumResultCols s).1.columnCount.toNat = true)
    (hfetch : (d.SQLFetch (d.SQLNumResultCols s).2).1 = SQL_SUCCESS
      ∨ (d.SQLFetch (d.SQLNumResultCols s).2).1 = SQL_SUCCESS_WITH_INFO)
    (hdesc : ∀ t i, (d.SQLDescribeCol t i).2 = t)
    (hchar : ∀ i, 1 ≤ i → i ≤ (d.SQLNumResultCols s).1.columnCount.toNat →
      ((d.SQLDescribeCol (stateAtColumn h d s i) i).1 = SQL_CHAR
        ∨ (d.SQLDescribeCol (stateAtColumn h d s i) i).1 = SQL_VARCHAR
        ∨ (d.SQLDescribeCol (stateAtColumn h d s i) i).1 = SQL_LONGVARCHAR
        ∨ (d.SQLDescribeCol (stateAtColumn h d s i) i).1 = SQL_WCHAR
        ∨ (d.SQLDescribeCol (stateAtColumn h d s i) i).1 = SQL_WVARCHAR
        ∨ (d.SQLDescribeCol (stateAtColumn h d s i) i).1 = SQL_WLONGVARCHAR))
    (hok : ∀ i, 1 ≤ i → i ≤ (d.SQLNumResultCols s).1.columnCount.toNat →
      (d.SQLGetData (stateAtColumn h d s i) i .SQL_C_CHAR 256).1.ret = SQL_SUCCESS) :
    (fetchArray_build h d s).result = (fetchArray h d s).result ∧
    ∃ row, (fetchArray h d s).result = some row ∧
      ∀ i, 1 ≤ i → i ≤ (d.SQLNumResultCols s).1.columnCount.toNat →
        ((d.SQLGetData (stateAtColumn h d s i) i .SQL_C_CHAR 256).1.ind ≠ SQL_NULL_DATA →
          row[i - 1]? = some (some (.string
            (cString (d.SQLGetData (stateAtColumn h d s i) i .SQL_C_CHAR 256).1.buf)))) ∧
        ((d.SQLGetData (stateAtColumn h d s i) i .SQL_C_CHAR 256).1.ind = SQL_NULL_DATA →
          row[i - 1]? = some none) := by
  have hfa := fetchArray_of_fetched h d s hnc hpos halloc hfetch
  have hneg : ¬ (d.SQLNumResultCols s).1.columnCount < 0 := by omega
  have hnd : (d.SQLFetch (d.SQLNumResultCols s).2).1 ≠ SQL_NO_DATA := by
    rcases hfetch with e | e <;> rw [e] <;> decide
  have hres : (fetchArray h d s).result = some
      (columnLoop h d (d.SQLNumResultCols s).1.columnCount.toNat 1
          { rowArray := List.replicate (d.SQLNumResultCols s).1.columnCount.toNat none
            pending := false
            st := stateAfterFetch d s
            calls := [.numResultCols, .fetch] }).rowArray := by
    rw [hfa]
  refine ⟨?_, _, hres, ?_⟩
  · rw [hres]
    simp only [fetchArray_build, hnd, if_false]
    apply buildLoop_eq_columnLoop h d hdesc
    · simp [NewObjectArray, hneg, halloc]
    · rfl
    · intro m hm
      have e : 0 + 1 + m = m + 1 := by omega
      have hs : stateAfterColumns h d m (0 + 1) (stateAfterFetch d s)
          = stateAtColumn h d s (m + 1) := by
        simp [stateAtColumn]
      rw [e, hs]
      exact ⟨familyOf_character _ (hchar (m + 1) (by omega) (by omega)),
        hok (m + 1) (by omega) (by omega)⟩
  · intro i h1 hn
    have hget := fetchArray_get h d s _ hres i h1 (by omega)
    obtain ⟨hval, _⟩ := fetchColumn_character h d (stateAtColumn h d s i) i (hdesc _ _)
      (familyOf_character _ (hchar i h1 hn)) (hok i h1 hn)
    rw [hget, hval]
    constructor
    · intro hind
      simp [hind, NewStringUTF]
    · intro hind
      simp [hind]

/-- C20, at a concrete input: on the row `("Alice", NULL)` of two VARCHAR columns both
copies return `["Alice", null]`. -/
theorem C20_names_query_witness :
    (fetchArray_build plainHost scripted namesQuery).result
        = (fetchArray plainHost scripted namesQuery).result ∧
      (fetchArray plainHost scripted namesQuery).result
        = some [some (.string "Alice".toList), none] :=
  ⟨(C20_build_copy_agrees_on_text_rows plainHost scripted namesQuery (by decide) (by decide)
      (by decide) (by decide) (fun _ _ => rfl)
      (fun i h1 h2 => by
        have h3 : i ≤ 2 := h2
        interval_cases i <;> decide)
      (fun i h1 h2 => by
        have h3 : i ≤ 2 := h2
        interval_cases i <;> decide)).1,
   by decide⟩

/-- C13 as stated fails: on the fake driver manager, `query` with a statement that
`SQLExecDirect` refuses throws, but issues no `SQLFreeHandle`: the statement handle 3 it
allocated is still allocated on return, and a `QueryState` holding it was allocated. -/
theorem C13_failed_query_leaves_statement_allocated :
    (query fake testdbMemory testdb.connectionPtr "BAD".toList
        (World.start testdb.world.st)).world.pending = true ∧
      (query fake testdbMemory testdb.connectionPtr "BAD".toList
        (World.start testdb.world.st)).world.calls
        = [.SQLAllocHandle .SQL_HANDLE_STMT 2, .SQLSetStmtAttr 3,
           .SQLExecDirect 3 "BAD".toList, .SQLGetDiagRec .SQL_HANDLE_STMT 3, .malloc 4112] ∧
      (HandleType.SQL_HANDLE_STMT, 3) ∈
        (query fake testdbMemory testdb.connectionPtr "BAD".toList
          (World.start testdb.world.st)).world.st.live ∧
      (query fake testdbMemory testdb.connectionPtr "BAD".toList
        (World.start testdb.world.st)).queryState = { hStmt := 3, connectionState := 4096 } := by
  decide

/-- C13, amended: when `SQLExecDirect` does not succeed, `query` throws (an exception is
pending on return, so the Java caller receives no handle), but it does not release the
statement handle it allocated: it issues no `SQLFreeHandle`, and it still allocates and
fills a `QueryState` with that statement.  The connection record is only read, and the
only call that names the connection handle is the allocation of the statement. -/
theorem C13_failed_query_throws_without_release {ω : Type} (m : Odbc ω) (mem : Memory)
    (connectionPtr : Int) (sql : List Char) (s : ω)
    (hfail : ∀ t hStmt, check_error (m.SQLExecDirect t hStmt sql).1 = true) :
    (query m mem connectionPtr sql (World.start s)).world.pending = true ∧
    (∀ t handle, Native.SQLFreeHandle t handle ∉
      (query m mem connectionPtr sql (World.start s)).world.calls) ∧
    (query m mem connectionPtr sql (World.start s)).queryState
      = { hStmt := (init_statement m (mem connectionPtr).hDbc (World.start s)).1
          connectionState := connectionPtr } ∧
    (∀ c ∈ (query m mem connectionPtr sql (World.start s)).world.calls,
      c = .SQLAllocHandle .SQL_HANDLE_STMT (mem connectionPtr).hDbc
      ∨ (∃ hStmt, c = .SQLGetDiagRec .SQL_HANDLE_STMT hStmt)
      ∨ (∃ hStmt, c = .SQLSetStmtAttr hStmt)
      ∨ (∃ hStmt, c = .SQLExecDirect hStmt sql)
      ∨ ∃ block, c = .malloc block) := by
  have hcalls : ∀ c ∈ (query m mem connectionPtr sql (World.start s)).world.calls,
      c = .SQLAllocHandle .SQL_HANDLE_STMT (mem connectionPtr).hDbc
      ∨ (∃ hStmt, c = .SQLGetDiagRec .SQL_HANDLE_STMT hStmt)
      ∨ (∃ hStmt, c = .SQLSetStmtAttr hStmt)
      ∨ (∃ hStmt, c = .SQLExecDirect hStmt sql)
      ∨ ∃ block, c = .malloc block := by
    intro c hc
    simp only [query, init_statement, World.check_error, World.native, World.start, hfail] at hc
    split_ifs at hc <;> simp at hc <;> rcases hc with rfl | rfl | rfl | rfl | rfl | rfl <;> simp
  refine ⟨?_, ?_, rfl, hcalls⟩
  · simp [query, World.check_error, World.native, hfail]
  · intro t handle hmem
    rcases hcalls _ hmem with e | ⟨_, e⟩ | ⟨_, e⟩ | ⟨_, e⟩ | ⟨_, e⟩ <;> simp at e

/-- C13 amended, at a concrete input: the refused statement `BAD` on the fake driver
manager. -/
theorem C13_failed_query_witness :
    (query fake testdbMemory testdb.connectionPtr "BAD".toList
        (World.start testdb.world.st)).world.pending = true :=
  (C13_failed_query_throws_without_release fake testdbMemory testdb.connectionPtr
    "BAD".toList testdb.world.st (fun _ _ => rfl)).1

/-- C14 as stated fails: on the fake driver manager, `connect` and `connectWithString`
with a source the native connect call refuses throw, but issue no `SQLFreeHandle`: the
environment handle 1 allocated in the call is still allocated on return. -/
theorem C14_failed_open_leaves_environment_allocated :
    (connect fake "BAD".toList (World.start {})).world.pending = true ∧
      (connect fake "BAD".toList (World.start {})).world.calls
        = [.SQLAllocHandle .SQL_HANDLE_ENV 0, .SQLSetEnvAttr 1,
           .SQLAllocHandle .SQL_HANDLE_DBC 1, .SQLSetConnectAttr 2,
           .SQLConnect 2 "BAD".toList, .SQLGetDiagRec .SQL_HANDLE_DBC 2, .malloc 4096] ∧
      (HandleType.SQL_HANDLE_ENV, 1) ∈
        (connect fake "BAD".toList (World.start {})).world.st.live ∧
      (connectWithString fake "BAD".toList (World.start {})).world.pending = true ∧
      (connectWithString fake "BAD".toList (World.start {})).world.calls
        = [.SQLAllocHandle .SQL_HANDLE_ENV 0, .SQLSetEnvAttr 1,
           .SQLAllocHandle .SQL_HANDLE_DBC 1, .SQLSetConnectAttr 2,
           .SQLDriverConnect 2 "BAD".toList, .SQLGetDiagRec .SQL_HANDLE_DBC 2,
           .malloc 4096] ∧
      (HandleType.SQL_HANDLE_ENV, 1) ∈
        (connectWithString fake "BAD".toList (World.start {})).world.st.live := by
  decide

/-- C14, amended: when the native connect call does not succeed, opening a connection, by
name or by connection string, throws (an exception is pending on return), but releases
neither handle it allocated: it issues no `SQLFreeHandle`, and it still allocates a
connection record and stores the environment handle in it. -/
theorem C14_failed_open_throws_without_release {ω : Type} (m : Odbc ω) (source : List Char)
    (s : ω) :
    ((∀ t hDbc, check_error (m.SQLConnect t hDbc source).1 = true) →
      (connect m source (World.start s)).world.pending = true ∧
      (∀ t handle, Native.SQLFreeHandle t handle ∉
        (connect m source (World.start s)).world.calls) ∧
      Native.malloc (connect m source (World.start s)).connectionPtr ∈
        (connect m source (World.start s)).world.calls ∧
      (connect m source (World.start s)).connectionState.hEnv
        = (setup_environment m (World.start s)).1) ∧
    ((∀ t hDbc, check_error (m.SQLDriverConnect t hDbc source).1 = true) →
      (connectWithString m source (World.start s)).world.pending = true ∧
      (∀ t handle, Native.SQLFreeHandle t handle ∉
        (connectWithString m source (World.start s)).world.calls) ∧
      Native.malloc (connectWithString m source (World.start s)).connectionPtr ∈
        (connectWithString m source (World.start s)).world.calls ∧
      (connectWithString m source (World.start s)).connectionState.hEnv
        = (setup_environment m (World.start s)).1) := by
  constructor
  · intro hfail
    refine ⟨?_, ?_, ?_, rfl⟩
    · simp [connect, connect_to_dsn, World.check_error, World.native, hfail]
    · intro t handle hmem
      simp only [connect, connect_to_dsn, setup_environment, World.check_error, World.native,
        World.start, hfail] at hmem
      split_ifs at hmem <;> simp at hmem
    · simp [connect, World.native]
  · intro hfail
    refine ⟨?_, ?_, ?_, rfl⟩
    · simp [connectWithString, World.check_error, World.native, hfail]
    · intro t handle hmem
      simp only [connectWithString, setup_environment, World.check_error, World.native,
        World.start, hfail] at hmem
      split_ifs at hmem <;> simp at hmem
    · simp [connectWithString, World.native]

/-- C14 amended, at a concrete input: the refused source `BAD` on the fake driver
manager. -/
theorem C14_failed_open_witness :
    (connect fake "BAD".toList (World.start {})).world.pending = true ∧
      (connectWithString fake "BAD".toList (World.start {})).world.pending = true :=
  ⟨((C14_failed_open_throws_without_release fake "BAD".toList {}).1 (fun _ _ => rfl)).1,
   ((C14_failed_open_throws_without_release fake "BAD".toList {}).2 (fun _ _ => rfl)).1⟩

/-- C15 as stated fails: on the fake driver manager, after a first `close` has released
the connection handle 2, the environment handle 1 and the record at 4096, a second `close`
with the same pointer, the released record still reading as before, issues the
disconnect and the three releases again. -/
theorem C15_second_close_releases_again :
    (close fake testdbMemory testdb.connectionPtr (World.start testdb.world.st)).st.live = [] ∧
      (close fake testdbMemory testdb.connectionPtr (World.start testdb.world.st)).st.blocks
        = [] ∧
      (close fake testdbMemory testdb.connectionPtr
        (World.start
          (close fake testdbMemory testdb.connectionPtr (World.start testdb.world.st)).st)).calls
        = [.SQLDisconnect 2, .SQLFreeHandle .SQL_HANDLE_DBC 2,
           .SQLFreeHandle .SQL_HANDLE_ENV 1, .free 4096] := by
  decide

/-- C15, amended: `close` on a null pointer issues no native call and changes nothing, and
`close` never throws.  A second `close` is not a no-op: the code keeps no record of what it
released, so whenever the record reads with the same non-null handles, from whatever
state, also the one a first `close` left, it issues the disconnect, the release of the
connection handle, the release of the environment handle and the `free` of the record. -/
theorem C15_close_null_safe_but_repeats {ω : Type} (m : Odbc ω) (mem : Memory) :
    (∀ w : World ω, close m mem 0 w = w) ∧
    (∀ (connectionPtr : Int) (w : World ω),
      (close m mem connectionPtr w).pending = w.pending) ∧
    (∀ (connectionPtr : Int) (s : ω), connectionPtr ≠ 0 →
      (mem connectionPtr).hDbc ≠ SQL_NULL_HANDLE → (mem connectionPtr).hEnv ≠ SQL_NULL_HANDLE →
      (close m mem connectionPtr
        (World.start (close m mem connectionPtr (World.start s)).st)).calls
        = [.SQLDisconnect (mem connectionPtr).hDbc,
           .SQLFreeHandle .SQL_HANDLE_DBC (mem connectionPtr).hDbc,
           .SQLFreeHandle .SQL_HANDLE_ENV (mem connectionPtr).hEnv,
           .free connectionPtr]) := by
  refine ⟨?_, ?_, ?_⟩
  · intro w
    simp [close]
  · intro connectionPtr w
    by_cases hp : connectionPtr = 0 <;>
      by_cases hd : (mem connectionPtr).hDbc = SQL_NULL_HANDLE <;>
      by_cases he : (mem connectionPtr).hEnv = SQL_NULL_HANDLE <;>
      simp [close, hp, hd, he, World.native]
  · intro connectionPtr s hp hd he
    simp [close, hp, hd, he, World.native, World.start]

/-- C15 amended, at a concrete input: the second `close` of `testdb`. -/
theorem C15_second_close_witness :
    (close fake testdbMemory testdb.connectionPtr
        (World.start
          (close fake testdbMemory testdb.connectionPtr (World.start testdb.world.st)).st)).calls
      = [.SQLDisconnect (testdbMemory testdb.connectionPtr).hDbc,
         .SQLFreeHandle .SQL_HANDLE_DBC (testdbMemory testdb.connectionPtr).hDbc,
         .SQLFreeHandle .SQL_HANDLE_ENV (testdbMemory testdb.connectionPtr).hEnv,
         .free testdb.connectionPtr] :=
  (C15_close_null_safe_but_repeats fake testdbMemory).2.2 testdb.connectionPtr
    testdb.world.st (by decide) (by decide) (by decide)

/-- C16: for a connection record holding a non-null connection handle and a non-null
environment handle, `close` issues exactly these calls, in this order, whatever they
return: `SQLDisconnect`, `SQLFreeHandle` of the connection handle, `SQLFreeHandle` of the
environment handle, and then the C `free` of the record. -/
theorem C16_close_order {ω : Type} (m : Odbc ω) (mem : Memory) (connectionPtr : Int) (s : ω)
    (hp : connectionPtr ≠ 0)
    (hd : (mem connectionPtr).hDbc ≠ SQL_NULL_HANDLE)
    (he : (mem connectionPtr).hEnv ≠ SQL_NULL_HANDLE) :
    (close m mem connectionPtr (World.start s)).calls
      = [.SQLDisconnect (mem connectionPtr).hDbc,
         .SQLFreeHandle .SQL_HANDLE_DBC (mem connectionPtr).hDbc,
         .SQLFreeHandle .SQL_HANDLE_ENV (mem connectionPtr).hEnv,
         .free connectionPtr] := by
  simp [close, hp, hd, he, World.native, World.start]

/-- C16, at a concrete input: `close` of `testdb` disconnects handle 2, frees it, then
frees the environment handle 1. -/
theorem C16_close_order_witness :
    (close fake testdbMemory testdb.connectionPtr (World.start testdb.world.st)).calls
      = [.SQLDisconnect (testdbMemory testdb.connectionPtr).hDbc,
         .SQLFreeHandle .SQL_HANDLE_DBC (testdbMemory testdb.connectionPtr).hDbc,
         .SQLFreeHandle .SQL_HANDLE_ENV (testdbMemory testdb.connectionPtr).hEnv,
         .free testdb.connectionPtr] :=
  C16_close_order fake testdbMemory testdb.connectionPtr testdb.world.st
    (by decide) (by decide) (by decide)

/-- C17: against a catalog that, for the request `SQLTables(..., "TABLE")`, reports `n`
rows to the counting pass and serves the same rows to the populate pass of each call,
`listTables` returns exactly the strings read from column 3, in the order served, `n` of
them, so two calls served the same rows return the same sequence, and nothing is thrown
when the request and the reads succeed; the same holds for `listColumns` with the name,
type code and size read from columns 4, 5 and 7, and for `listDatabases` with the data
source names. -/
theorem C17_enumeration_returns_catalog_sequence {ω : Type} (m : Odbc ω) (h : Host)
    (mem : Memory) (connectionPtr : Int) (tableName : List Char) (n fuel : Nat)
    (hn : n < 2147483648) (halloc : h.arrayAlloc n = true) (hfuel : n < fuel) :
    (∀ (s s2 : ω) (rows : List (GetData (List Char))), rows.length = n →
      TablesPasses m (mem connectionPtr).hDbc s n rows →
      TablesPasses m (mem connectionPtr).hDbc s2 n rows →
      ∃ f f2, listTables m h mem connectionPtr fuel (World.start s) = some f ∧
        listTables m h mem connectionPtr fuel (World.start s2) = some f2 ∧
        f.result = some ((rows.map (fun g => cString g.buf)).map some) ∧
        f2.result = f.result ∧
        (TablesRequestSucceeds m (mem connectionPtr).hDbc s →
          (∀ g ∈ rows, g.ret = SQL_SUCCESS ∨ g.ret = SQL_SUCCESS_WITH_INFO) →
          f.world.pending = false)) ∧
    (∀ (s s2 : ω) (rows : List ColumnReads), rows.length = n →
      ColumnsPasses m (mem connectionPtr).hDbc tableName s n rows →
      ColumnsPasses m (mem connectionPtr).hDbc tableName s2 n rows →
      ∃ f f2, listColumns m h true mem connectionPtr tableName fuel (World.start s) = some f ∧
        listColumns m h true mem connectionPtr tableName fuel (World.start s2) = some f2 ∧
        f.result = some ((rows.map
          (fun v => ODBCField.mk (cString v.name.buf) v.type.buf v.size.buf)).map some) ∧
        f2.result = f.result ∧
        (ColumnsRequestSucceeds m (mem connectionPtr).hDbc tableName s →
          f.world.pending = false)) ∧
    (∀ (s s2 : ω) (counted counted2 names : List (List Char)), counted.length = n →
      counted2.length = n → names.length = n →
      SourcesPasses m s counted names → SourcesPasses m s2 counted2 names →
      ∃ f f2, listDatabases m h fuel (World.start s) = some f ∧
        listDatabases m h fuel (World.start s2) = some f2 ∧
        f.result = some ((names.map cString).map some) ∧
        f2.result = f.result ∧
        (EnvironmentSucceeds m s → f.world.pending = false)) := by
  refine ⟨?_, ?_, ?_⟩
  · intro s s2 rows hlen hp1 hp2
    obtain ⟨f, hf, hres, _, hp⟩ := listTables_passes m h mem connectionPtr s n rows hp1
      fuel hfuel (by omega)
    obtain ⟨f2, hf2, hres2, _, _⟩ := listTables_passes m h mem connectionPtr s2 n rows hp2
      fuel hfuel (by omega)
    obtain ⟨a, ha, _, heq⟩ := storeAll_fresh h n (rows.map (fun g => cString g.buf))
      (Fill.mk (newArray h (List Char) (wrapS 32 n)) [] (World.start s)) (by dsimp only)
      hn halloc
    obtain ⟨a2, ha2, _, heq2⟩ := storeAll_fresh h n (rows.map (fun g => cString g.buf))
      (Fill.mk (newArray h (List Char) (wrapS 32 n)) [] (World.start s2)) (by dsimp only)
      hn halloc
    rw [ha, heq (by rw [List.length_map]; exact hlen)] at hres
    rw [ha2, heq2 (by rw [List.length_map]; exact hlen)] at hres2
    exact ⟨f, f2, hf, hf2, hres, by rw [hres2, hres], fun hok hrows =>
      hp hok hn halloc hlen hrows⟩
  · intro s s2 rows hlen hp1 hp2
    obtain ⟨f, hf, hres, _, hp⟩ := listColumns_passes m h mem connectionPtr tableName s n rows
      hp1 fuel hfuel (by omega)
    obtain ⟨f2, hf2, hres2, _, _⟩ := listColumns_passes m h mem connectionPtr tableName s2 n
      rows hp2 fuel hfuel (by omega)
    obtain ⟨a, ha, _, heq⟩ := storeAll_fresh h n
      (rows.map (fun v => ODBCField.mk (cString v.name.buf) v.type.buf v.size.buf))
      (Fill.mk (newArray h ODBCField (wrapS 32 n)) [] (World.start s)) (by dsimp only)
      hn halloc
    obtain ⟨a2, ha2, _, heq2⟩ := storeAll_fresh h n
      (rows.map (fun v => ODBCField.mk (cString v.name.buf) v.type.buf v.size.buf))
      (Fill.mk (newArray h ODBCField (wrapS 32 n)) [] (World.start s2)) (by dsimp only)
      hn halloc
    rw [ha, heq (by rw [List.length_map]; exact hlen)] at hres
    rw [ha2, heq2 (by rw [List.length_map]; exact hlen)] at hres2
    exact ⟨f, f2, hf, hf2, hres, by rw [hres2, hres], fun hok => hp hok hn halloc hlen⟩
  · intro s s2 counted counted2 names hlc hlc2 hlen hp1 hp2
    subst hlc
    obtain ⟨f, hf, hres, _, hp⟩ := listDatabases_passes m h s counted names hp1
      fuel hfuel (by omega)
    obtain ⟨f2, hf2, hres2, _, _⟩ := listDatabases_passes m h s2 counted2 names hp2
      fuel (by omega) (by omega)
    obtain ⟨a, ha, _, heq⟩ := storeAll_fresh h counted.length (names.map cString)
      (Fill.mk (newArray h (List Char) (wrapS 32 counted.length)) [] (World.start s))
      (by dsimp only) hn halloc
    obtain ⟨a2, ha2, _, heq2⟩ := storeAll_fresh h counted2.length (names.map cString)
      (Fill.mk (newArray h (List Char) (wrapS 32 counted2.length)) [] (World.start s2))
      (by dsimp only) (by omega) (by rw [hlc2]; exact halloc)
    rw [ha, heq (by rw [List.length_map]; exact hlen)] at hres
    rw [ha2, heq2 (by rw [List.length_map]; omega)] at hres2
    exact ⟨f, f2, hf, hf2, hres, by rw [hres2, hres], fun hok => hp hok hn halloc hlen⟩

/-- C17, at concrete inputs: on a catalog with the tables `users` and `orders` and a view
between them, two successive `listTables` calls both return `[users, orders]`; on the
catalog of `shop`, `listColumns` returns the two fields and `listDatabases` the two data
source names; nothing is thrown. -/
theorem C17_shop_twice_witness :
    (∃ f f2,
      listTables fake plainHost testdbMemory testdb.connectionPtr 10 (World.start mixedShop)
        = some f ∧
      listTables fake plainHost testdbMemory testdb.connectionPtr 10
        (World.start mixedShopAfterTables) = some f2 ∧
      f.result = some [some "users".toList, some "orders".toList] ∧
      f2.result = f.result ∧ f.world.pending = false) ∧
    (∃ f,
      listColumns fake plainHost true testdbMemory testdb.connectionPtr "users".toList 10
        (World.start shop) = some f ∧
      f.result = some [some { name := "users".toList, type := SQL_VARCHAR, size := 50 },
        some { name := "orders".toList, type := SQL_INTEGER, size := 10 }] ∧
      f.world.pending = false) ∧
    (∃ f,
      listDatabases fake plainHost 10 (World.start shop) = some f ∧
      f.result = some [some "TESTDB".toList, some "SALES".toList] ∧
      f.world.pending = false) := by
  have hc := C17_enumeration_returns_catalog_sequence fake plainHost testdbMemory
    testdb.connectionPtr "users".toList 2 10 (by decide) rfl (by decide)
  refine ⟨?_, ?_, ?_⟩
  · obtain ⟨f, f2, h1, h2, h3, h4, h5⟩ := hc.1 mixedShop mixedShopAfterTables shopNames rfl
      ⟨_, _, ⟨by decide, by decide, by decide, rfl⟩,
        ⟨by decide, rfl, by decide, rfl, by decide, rfl⟩⟩
      ⟨_, _, ⟨by decide, by decide, by decide, rfl⟩,
        ⟨by decide, rfl, by decide, rfl, by decide, rfl⟩⟩
    refine ⟨f, f2, h1, h2, ?_, h4, h5 ⟨by decide, by decide⟩ (by decide)⟩
    rw [h3]
    decide
  · obtain ⟨f, _, h1, _, h3, _, h5⟩ := hc.2.1 shop shop shopColumns rfl
      ⟨_, _, ⟨by decide, by decide, by decide, rfl⟩,
        ⟨by decide, rfl, rfl, rfl, by decide, rfl, rfl, rfl, by decide, rfl⟩⟩
      ⟨_, _, ⟨by decide, by decide, by decide, rfl⟩,
        ⟨by decide, rfl, rfl, rfl, by decide, rfl, rfl, rfl, by decide, rfl⟩⟩
    refine ⟨f, h1, ?_, h5 ⟨by decide, by decide⟩⟩
    rw [h3]
    decide
  · obtain ⟨f, _, h1, _, h3, _, h5⟩ := hc.2.2 shop shop shopSources shopSources shopSources
      rfl rfl rfl
      ⟨_, _, ⟨by decide, rfl, by decide, rfl, by decide, rfl⟩,
        ⟨by decide, rfl, by decide, rfl, by decide, rfl⟩⟩
      ⟨_, _, ⟨by decide, rfl, by decide, rfl, by decide, rfl⟩,
        ⟨by decide, rfl, by decide, rfl, by decide, rfl⟩⟩
    refine ⟨f, h1, ?_, h5 ⟨by decide, by decide⟩⟩
    rw [h3]
    decide

/-- C18: a fetch that fails in the middle of an enumeration does not abort it.  On
`brokenShop`, whose second fetch returns `SQL_ERROR`, `listTables` counts the failed fetch
and stores an element for it (three elements for two tables, the failure surfacing only
through the read that follows it), and `listColumns` returns three fields with nothing
thrown; on `stuckShop`, where the fetch keeps failing, none of the three functions returns,
whatever the fuel. -/
theorem C18_failed_fetch_counted_stored_and_looping :
    ((listTables fake plainHost testdbMemory testdb.connectionPtr 10
        (World.start brokenShop)).map (fun f => (f.result, f.writes, f.world.pending))
      = some (some [some "users".toList, some "users".toList, some "orders".toList],
          [0, 1, 2], true)) ∧
    ((listColumns fake plainHost true testdbMemory testdb.connectionPtr "users".toList 10
        (World.start brokenShop)).map (fun f => (f.result, f.world.pending))
      = some (some [some { name := "users".toList, type := 0, size := 0 },
                    some { name := "users".toList, type := 0, size := 0 },
                    some { name := "orders".toList, type := 0, size := 0 }], false)) ∧
    (∀ fuel, (listTables fake plainHost testdbMemory testdb.connectionPtr fuel
        (World.start stuckShop)).isNone = true) ∧
    (∀ fuel, (listColumns fake plainHost true testdbMemory testdb.connectionPtr
        "users".toList fuel (World.start stuckShop)).isNone = true) ∧
    (∀ fuel, (listDatabases fake plainHost fuel (World.start stuckShop)).isNone = true) := by
  refine ⟨by decide, by decide, ?_, ?_, ?_⟩
  · intro fuel
    have hc := countRows_stuck
      (openTables fake (testdbMemory testdb.connectionPtr).hDbc (World.start stuckShop)).1 fuel
      (openTables fake (testdbMemory testdb.connectionPtr).hDbc (World.start stuckShop)).2 0 rfl
    simp only [listTables, hc]
    rfl
  · intro fuel
    have hc := countRows_stuck
      (openColumns fake (testdbMemory testdb.connectionPtr).hDbc "users".toList
        (World.start stuckShop)).1 fuel
      (openColumns fake (testdbMemory testdb.connectionPtr).hDbc "users".toList
        (World.start stuckShop)).2 0 rfl
    simp only [listColumns, hc]
    rfl
  · intro fuel
    have hs : succeeded (fake.SQLDataSources (setup_environment fake (World.start stuckShop)).2.st
        (setup_environment fake (World.start stuckShop)).1 .SQL_FETCH_FIRST).1.1 = true := by
      decide
    have hc := countSources_stuck (setup_environment fake (World.start stuckShop)).1 fuel
      ((setup_environment fake (World.start stuckShop)).2.native
        (.SQLDataSources (setup_environment fake (World.start stuckShop)).1 .SQL_FETCH_FIRST)
        (fake.SQLDataSources (setup_environment fake (World.start stuckShop)).2.st
          (setup_environment fake (World.start stuckShop)).1 .SQL_FETCH_FIRST).2) 1 rfl
    simp only [listDatabases, hs, if_true, hc]
    rfl

/-- C19: in `listTables`, `listColumns` and `listDatabases` the populate pass writes the
indices 0, 1, ... in order, one per row it is served, whatever the counting pass counted;
the array has the counted length `n`, so when the populate pass is served `n` rows every
written index is below the length, every slot is written once and no element is null,
while a populate pass served more than `n` rows writes at index `n`. -/
theorem C19_write_indices_bounded_when_passes_agree {ω : Type} (m : Odbc ω) (h : Host)
    (mem : Memory) (connectionPtr : Int) (tableName : List Char) (n fuel : Nat)
    (hn : n < 2147483648) (halloc : h.arrayAlloc n = true) (hfuel : n < fuel) :
    (∀ (s : ω) (rows : List (GetData (List Char))), rows.length < fuel →
      rows.length < 2147483648 → TablesPasses m (mem connectionPtr).hDbc s n rows →
      ∃ f a, listTables m h mem connectionPtr fuel (World.start s) = some f ∧
        f.result = some a ∧ a.length = n ∧
        f.writes = (List.range rows.length).map (fun (k : Nat) => (k : Int)) ∧
        (rows.length = n →
          (∀ i ∈ f.writes, 0 ≤ i ∧ i < (a.length : Int)) ∧ ∀ x ∈ a, x ≠ none) ∧
        (n < rows.length → (n : Int) ∈ f.writes)) ∧
    (∀ (s : ω) (rows : List ColumnReads), rows.length < fuel →
      rows.length < 2147483648 →
      ColumnsPasses m (mem connectionPtr).hDbc tableName s n rows →
      ∃ f a, listColumns m h true mem connectionPtr tableName fuel (World.start s) = some f ∧
        f.result = some a ∧ a.length = n ∧
        f.writes = (List.range rows.length).map (fun (k : Nat) => (k : Int)) ∧
        (rows.length = n →
          (∀ i ∈ f.writes, 0 ≤ i ∧ i < (a.length : Int)) ∧ ∀ x ∈ a, x ≠ none) ∧
        (n < rows.length → (n : Int) ∈ f.writes)) ∧
    (∀ (s : ω) (counted names : List (List Char)), counted.length = n →
      names.length < fuel → names.length < 2147483648 → SourcesPasses m s counted names →
      ∃ f a, listDatabases m h fuel (World.start s) = some f ∧
        f.result = some a ∧ a.length = n ∧
        f.writes = (List.range names.length).map (fun (k : Nat) => (k : Int)) ∧
        (names.length = n →
          (∀ i ∈ f.writes, 0 ≤ i ∧ i < (a.length : Int)) ∧ ∀ x ∈ a, x ≠ none) ∧
        (n < names.length → (n : Int) ∈ f.writes)) := by
  refine ⟨?_, ?_, ?_⟩
  · intro s rows hfk hk hp
    obtain ⟨f, hf, hres, hwr, _⟩ := listTables_passes m h mem connectionPtr s n rows hp
      fuel hfuel hfk
    obtain ⟨a, ha, hlen, heq⟩ := storeAll_fresh h n (rows.map (fun g => cString g.buf))
      (Fill.mk (newArray h (List Char) (wrapS 32 n)) [] (World.start s)) (by dsimp only)
      hn halloc
    rw [ha] at hres
    rw [writes_range _ (by omega)] at hwr
    rw [List.length_map] at heq
    obtain ⟨hb1, hb2⟩ := fill_bounds f.writes a n (rows.map (fun g => cString g.buf)) hlen
      (by rw [List.length_map]; exact heq) (by rw [List.length_map]; exact hwr)
    rw [List.length_map] at hb1 hb2
    exact ⟨f, a, hf, hres, hlen, hwr, hb1, hb2⟩
  · intro s rows hfk hk hp
    obtain ⟨f, hf, hres, hwr, _⟩ := listColumns_passes m h mem connectionPtr tableName s n rows
      hp fuel hfuel hfk
    obtain ⟨a, ha, hlen, heq⟩ := storeAll_fresh h n
      (rows.map (fun v => ODBCField.mk (cString v.name.buf) v.type.buf v.size.buf))
      (Fill.mk (newArray h ODBCField (wrapS 32 n)) [] (World.start s)) (by dsimp only)
      hn halloc
    rw [ha] at hres
    rw [writes_range _ (by omega)] at hwr
    rw [List.length_map] at heq
    obtain ⟨hb1, hb2⟩ := fill_bounds f.writes a n
      (rows.map (fun v => ODBCField.mk (cString v.name.buf) v.type.buf v.size.buf)) hlen
      (by rw [List.length_map]; exact heq) (by rw [List.length_map]; exact hwr)
    rw [List.length_map] at hb1 hb2
    exact ⟨f, a, hf, hres, hlen, hwr, hb1, hb2⟩
  · intro s counted names hlc hfk hk hp
    subst hlc
    obtain ⟨f, hf, hres, hwr, _⟩ := listDatabases_passes m h s counted names hp
      fuel hfuel hfk
    obtain ⟨a, ha, hlen, heq⟩ := storeAll_fresh h counted.length (names.map cString)
      (Fill.mk (newArray h (List Char) (wrapS 32 counted.length)) [] (World.start s))
      (by dsimp only) hn halloc
    rw [ha] at hres
    rw [writes_range _ (by omega)] at hwr
    rw [List.length_map] at heq
    obtain ⟨hb1, hb2⟩ := fill_bounds f.writes a counted.length (names.map cString) hlen
      (by rw [List.length_map]; exact heq) (by rw [List.length_map]; exact hwr)
    rw [List.length_map] at hb1 hb2
    exact ⟨f, a, hf, hres, hlen, hwr, hb1, hb2⟩

/-- C19, at a concrete input: on the catalog `users`, `orders`, `listTables` returns an
array of length 2, writes the indices 0 and 1, and leaves no element null. -/
theorem C19_shop_tables_witness :
    ∃ f a,
      listTables fake plainHost testdbMemory testdb.connectionPtr 10 (World.start shop)
        = some f ∧
      f.result = some a ∧ a.length = 2 ∧ f.writes = [0, 1] ∧
      (∀ i ∈ f.writes, 0 ≤ i ∧ i < (a.length : Int)) ∧ ∀ x ∈ a, x ≠ none := by
  obtain ⟨f, a, h1, h2, h3, h4, h5, _⟩ :=
    (C19_write_indices_bounded_when_passes_agree fake plainHost testdbMemory
      testdb.connectionPtr [] 2 10 (by decide) rfl (by decide)).1
      shop shopNames (by decide) (by decide)
      ⟨_, _, ⟨by decide, by decide, by decide, rfl⟩,
        ⟨by decide, rfl, by decide, rfl, by decide, rfl⟩⟩
  exact ⟨f, a, h1, h2, h3, h4, (h5 rfl).1, (h5 rfl).2⟩

end ODBCBridge
